import Mathlib

/-!
Verification development for the SAP-AUTOMATE-FD-TD repository
(`backend/main.py`, `backend/md_to_docs_converter.py`).

The Python sources are shallowly embedded: pure fragments become Lean
functions on `String`/`List`; effectful fragments (HTTP calls, Excel
lookups, the LLM, the clock, the filesystem) become explicit environment
records whose fields are `Except`-valued oracles, with the source's
`try/except` blocks embedded as `match` on the oracle result.  Python
string primitives (`strip`, `split`, `replace`, `in`, `startswith`,
`endswith`, `upper`, `join`) are re-implemented on `List Char` so that
every definition evaluates inside the kernel.
-/

/-! ## Python string primitives -/

/-- Python whitespace test (ASCII fragment, which is all the pipeline emits). -/
def isPyWS (c : Char) : Bool :=
  c = ' ' ∨ c = '\t' ∨ c = '\n' ∨ c = '\r' ∨ c = '\x0b' ∨ c = '\x0c'

/-- `str.strip()` on the character list: drop leading and trailing whitespace. -/
def stripChars (l : List Char) : List Char :=
  ((l.dropWhile isPyWS).reverse.dropWhile isPyWS).reverse

/-- Python `str.strip()`. -/
def pyStrip (s : String) : String := ⟨stripChars s.data⟩

/-- Python `str.startswith(pre)`. -/
def pyStartsWith (s pre : String) : Bool := pre.data.isPrefixOf s.data

/-- Python `str.endswith(suf)`. -/
def pyEndsWith (s suf : String) : Bool := suf.data.isSuffixOf s.data

/-- `pat in s` on character lists: some suffix of `s` has `pat` as a prefix. -/
def containsChars (pat l : List Char) : Bool := l.tails.any (fun t => pat.isPrefixOf t)

/-- Python `pat in s` (substring containment). -/
def pyContains (s pat : String) : Bool := containsChars pat.data s.data

/-- Python `str.upper()` (ASCII). -/
def pyUpper (s : String) : String := ⟨s.data.map Char.toUpper⟩

/-- `str.split(sep)` for a one-character separator, keeping empty fields,
matching Python `s.split('|')`. -/
def splitOnChar (c : Char) (l : List Char) : List (List Char) :=
  match l with
  | [] => [[]]
  | x :: xs =>
    let r := splitOnChar c xs
    if x = c then [] :: r
    else match r with
         | [] => [[x]]
         | y :: ys => (x :: y) :: ys

/-- Python `s.split(sep)` for a single-character separator string. -/
def pySplitChar (s : String) (c : Char) : List String :=
  (splitOnChar c s.data).map (fun l => ⟨l⟩)

/-- Replace every (non-overlapping, left-to-right) occurrence of `pat` by
`rep`, the semantics of Python `str.replace` for a nonempty pattern (the
sources only call `replace` with nonempty patterns).  On a match the input
advances by `pat.length` characters: one via the `cons` and `pat.length - 1`
via `drop`. -/
def replaceChars (pat rep : List Char) : List Char → List Char
  | [] => []
  | c :: rest =>
    if pat.isPrefixOf (c :: rest) then
      rep ++ replaceChars pat rep (rest.drop (pat.length - 1))
    else
      c :: replaceChars pat rep rest
termination_by l => l.length
decreasing_by
  · simp only [List.length_drop, List.length_cons]
    omega
  · simp

/-- Python `s.replace(pat, rep)` (total; the sources only use nonempty patterns). -/
def pyReplace (s pat rep : String) : String := ⟨replaceChars pat.data rep.data s.data⟩

/-- Python `s.split(sep, 1)`: split at the first occurrence of `sep` only. -/
def pySplitOnce (s sep : String) : List String :=
  match pySplitChar s (sep.data.headD ':') with
  | [] => []
  | [x] => [x]
  | x :: rest => [x, String.intercalate sep rest]

/-- Python `str(i)` for a natural number: decimal digits via repeated division. -/
def decDigitsAux : Nat → Nat → List Char
  | 0, _ => []
  | fuel + 1, n => if n < 10 then [Nat.digitChar n]
                   else decDigitsAux fuel (n / 10) ++ [Nat.digitChar (n % 10)]

/-- Decimal representation of a natural number (the embedding's `str(i)`). -/
def decRepr (n : Nat) : String := ⟨decDigitsAux (n + 1) n⟩

/-- Python `'\n'.join(lines)`. -/
def pyJoinLines : List String → String
  | [] => ""
  | [l] => l
  | l :: rest => l ++ "\n" ++ pyJoinLines rest

/-! ## FSD data model (`backend/main.py`, dataclasses at lines 45-146) -/

/-- `FieldProcessingType` enum (main.py line 45). -/
inductive FieldProcessingType
  | DIRECT | LOOKUP | CALCULATION | CONSTANT | AGGREGATION
deriving DecidableEq, Repr

/-- The `.value` of a `FieldProcessingType` member. -/
def FieldProcessingType.value : FieldProcessingType → String
  | .DIRECT => "DIRECT"
  | .LOOKUP => "LOOKUP"
  | .CALCULATION => "CALCULATION"
  | .CONSTANT => "CONSTANT"
  | .AGGREGATION => "AGGREGATION"

/-- `FieldMapping` dataclass (main.py line 53). -/
structure FieldMapping where
  display_name : String
  technical_field : String
  source_table : String
  processing_logic : String
  processing_type : FieldProcessingType
  join_condition : String := ""
  where_condition : String := ""
deriving DecidableEq, Repr

/-- `SelectionParameter` dataclass (main.py line 64). -/
structure SelectionParameter where
  name : String
  type : String
  description : String
  is_mandatory : Bool := false
  is_select_option : Bool := false
  has_no_intervals : Bool := false
  default_value : String := ""
deriving DecidableEq, Repr

/-- `ErrorScenario` dataclass (main.py line 75). -/
structure ErrorScenario where
  error_description : String
  resolution : String
  error_code : String := ""
  severity : String := "ERROR"
deriving DecidableEq, Repr

/-- `TestScenario` dataclass (main.py line 83). -/
structure TestScenario where
  condition : String
  expected_result : String
  test_data : String := ""
  priority : String := "HIGH"
deriving DecidableEq, Repr

/-- `DataConditionRow` dataclass (main.py line 91). -/
structure DataConditionRow where
  data : String
  condition : String
deriving DecidableEq, Repr

/-- Reviewer entry: the merge step only ever builds dicts with exactly the
keys `role` and `name` (main.py line 1657). -/
structure Reviewer where
  role : String
  name : String
deriving DecidableEq, Repr

/-- Version-history entry: the merge step only ever builds dicts with exactly
the keys `version`, `change`, `author`, `date` (main.py line 1648). -/
structure VersionEntry where
  version : String
  change : String
  author : String
  date : String
deriving DecidableEq, Repr

/-- `FSDDocument` dataclass (main.py line 97); every list field defaults to
the empty list via `field(default_factory=list)`. -/
structure FSDDocument where
  project_name : String := ""
  document_location : String := ""
  related_documents : List String := []
  reviewers : List Reviewer := []
  version_history : List VersionEntry := []
  user_requirements : String := ""
  assumptions : List String := []
  program_name : String := ""
  transaction_code : String := ""
  menu_path : String := ""
  report_description : String := ""
  desain_report_description : String := ""
  selection_parameters : List SelectionParameter := []
  field_mappings : List FieldMapping := []
  validation_rules : List String := []
  valid_dataset_rules : List DataConditionRow := []
  country_info : List DataConditionRow := []
  currency_t500c : List DataConditionRow := []
  currency_t001 : List DataConditionRow := []
  authorization_objects : List String := []
  user_roles : List String := []
  constraints : List String := []
  dependencies : List String := []
  error_scenarios : List ErrorScenario := []
  test_scenarios : List TestScenario := []
  test_data_location : String := ""
  design_changes : List String := []
deriving Repr

/-- A fresh `FSDDocument()` as built by `IntelligentFSDMapper.__init__`
(main.py line 1162): all defaults, then `project_name` assigned. -/
def freshFSDDocument (projectName : String) : FSDDocument :=
  { project_name := projectName }

/-! ## Renderer environment

`EnhancedOutputGenerator._generate_markdown` performs three kinds of side
effects: Excel lookups (`_lookup_assign_nodin`, `_lookup_requirement_description`,
main.py lines 670-704), an LLM call (`_improve_text`, lines 706-721) and a
clock read (`datetime.now()`, line 769).  Each becomes an oracle; a raw
oracle returning `.error` models the Python call raising. -/

structure RenderEnv where
  /-- Raw behaviour of the Excel "Assign Nodin" lookup body: `.ok none` models
  a missing file or key, `.error` models `openpyxl` raising. -/
  lookupNodinRaw : String → Except String (Option String)
  /-- Raw behaviour of the Excel "Requirement Description" lookup body. -/
  lookupReqDescRaw : String → Except String (Option String)
  /-- Raw behaviour of the `_improve_text` LLM round-trip: `.ok r` is the
  improved sentence that `result.get('result', text)` produces, `.error`
  models the call raising. -/
  improveRaw : String → Except String String
  /-- `datetime.now().strftime('%Y-%m-%d %H:%M:%S')` at this run. -/
  now : String

/-- `_lookup_assign_nodin` (main.py line 670): any exception is caught and
logged, yielding `None`. -/
def lookupAssignNodin (env : RenderEnv) (ricefwId : String) : Option String :=
  match env.lookupNodinRaw ricefwId with
  | .ok v => v
  | .error _ => none

/-- `_lookup_requirement_description` (main.py line 688): any exception is
caught and logged, yielding `None`. -/
def lookupRequirementDescription (env : RenderEnv) (ricefwId : String) : Option String :=
  match env.lookupReqDescRaw ricefwId with
  | .ok v => v
  | .error _ => none

/-- `_improve_text` (main.py line 706): on any failure the original text is
returned verbatim. -/
def improveText (env : RenderEnv) (text : String) : String :=
  match env.improveRaw text with
  | .ok r => r
  | .error _ => text

/-- The first related document starting with `"RICEFW ID:"`; each of the
renderer's resolution loops breaks after processing this entry
(main.py lines 786, 812, 836: the `break` sits inside the
`if doc.startswith("RICEFW ID:")` body). -/
def firstRicefwDoc (docs : List String) : Option String :=
  docs.find? (fun d => pyStartsWith d "RICEFW ID:")

/-- `doc.split(":", 1)[1].strip()` applied to a related-document entry. -/
def ricefwIdOf (doc : String) : String :=
  pyStrip (((pySplitOnce doc ":").getD 1 ""))

/-- The Program Name value rendered on the `3. EXISTING SAP OBJECTS` line
(main.py lines 834-841): start from `program_name`; for the first
`"RICEFW ID:"` related document, replace it with the nodin lookup result when
that result is truthy. -/
def resolveProgramNameValue (env : RenderEnv) (doc : FSDDocument) : String :=
  match firstRicefwDoc doc.related_documents with
  | none => doc.program_name
  | some d =>
    match lookupAssignNodin env (ricefwIdOf d) with
    | some v => if v ≠ "" then v else doc.program_name
    | none => doc.program_name

/-- The User Requirements value rendered in `2. PERSYARATAN UMUM`
(main.py lines 809-817): for the first `"RICEFW ID:"` related document, a
truthy requirement-description lookup is passed through `_improve_text` and
replaces `user_requirements`. -/
def resolveRequirementValue (env : RenderEnv) (doc : FSDDocument) : String :=
  match firstRicefwDoc doc.related_documents with
  | none => doc.user_requirements
  | some d =>
    match lookupRequirementDescription env (ricefwIdOf d) with
    | some v => if v ≠ "" then improveText env v else doc.user_requirements
    | none => doc.user_requirements

/-- `_compose_report_description` (main.py lines 723-757). -/
def composeReportDescription (env : RenderEnv) (doc : FSDDocument) : String :=
  if doc.desain_report_description ≠ "" then doc.desain_report_description
  else
    let baseDesc :=
      match firstRicefwDoc doc.related_documents with
      | none => ""
      | some d =>
        match lookupRequirementDescription env (ricefwIdOf d) with
        | some v => if v ≠ "" then v else ""
        | none => ""
    let baseDesc := if baseDesc = "" then doc.user_requirements else baseDesc
    let parts : List String := (if baseDesc ≠ "" then [baseDesc] else [])
      ++ (if doc.selection_parameters ≠ [] then
            ["Report ini memiliki " ++ decRepr doc.selection_parameters.length
              ++ " parameter selection screen."] else [])
      ++ (if doc.field_mappings ≠ [] then
            ["Proses detail mencakup " ++ decRepr doc.field_mappings.length
              ++ " field utama."] else [])
    let parts := if parts = [] then
        ["Report ini dirancang untuk memenuhi kebutuhan bisnis yang telah ditentukan."]
      else parts
    improveText env (String.intercalate " " parts)

/-- One related-document bullet (main.py lines 784-794). -/
def relatedDocLine (env : RenderEnv) (d : String) : String :=
  if pyStartsWith d "RICEFW ID:" then
    match lookupAssignNodin env (ricefwIdOf d) with
    | some nodin => if nodin ≠ "" then "  - RICEFW ID: " ++ nodin else "  - " ++ d
    | none => "  - " ++ d
  else "  - " ++ d

/-- One selection-screen table row (main.py lines 875-879). -/
def selectionRowLine (p : SelectionParameter) : String :=
  "| " ++ p.name ++ " | " ++ p.type ++ " | " ++ p.description
    ++ " | " ++ (if p.is_mandatory then "Yes" else "No")
    ++ " | " ++ (if p.is_select_option then "Yes" else "No")
    ++ " | " ++ (if p.has_no_intervals then "Yes" else "No") ++ " |"

/-- One detail-processing table row (main.py lines 892-894). -/
def fieldMappingRowLine (f : FieldMapping) : String :=
  "| " ++ f.display_name ++ " | " ++ f.technical_field ++ " | " ++ f.source_table
    ++ " | " ++ f.processing_logic ++ " | " ++ f.processing_type.value ++ " |"

/-- One Data/Kondisi table row (main.py lines 906-907, 920-921). -/
def dataCondRowLine (r : DataConditionRow) : String :=
  "| " ++ r.data ++ " | " ++ r.condition ++ " |"

/-- Error-scenario rows numbered from `i` (main.py lines 937-938,
`enumerate(error_scenarios, 1)`). -/
def errorRowLines (i : Nat) : List ErrorScenario → List String
  | [] => []
  | e :: rest =>
    ("| " ++ decRepr i ++ " | " ++ e.error_description ++ " | " ++ e.resolution
      ++ " | " ++ e.error_code ++ " | " ++ e.severity ++ " |") :: errorRowLines (i + 1) rest

/-- Test-scenario rows numbered from `i` (main.py lines 951-952,
`enumerate(test_scenarios, 1)`). -/
def testRowLines (i : Nat) : List TestScenario → List String
  | [] => []
  | t :: rest =>
    ("| " ++ decRepr i ++ " | " ++ t.condition ++ " | " ++ t.expected_result
      ++ " | " ++ t.test_data ++ " | " ++ t.priority ++ " |") :: testRowLines (i + 1) rest

/-- The `append_form` helper (main.py lines 911-922): a Data/Kondisi
subsection emitted only when its row list is nonempty. -/
def appendFormLines (title : String) (rows : List DataConditionRow) : List String :=
  if rows ≠ [] then
    ["### " ++ title, "", "| Data | Kondisi |", "|------|---------|"]
      ++ rows.map dataCondRowLine ++ [""]
  else []

/-- `EnhancedOutputGenerator._generate_markdown` (main.py lines 759-954),
as the `md_lines` list it accumulates; the function's return value is
`'\n'.join` of this list. -/
def generateMarkdownLines (env : RenderEnv) (doc : FSDDocument) : List String :=
  -- Title block (lines 764-771)
  ["# Functional Specification Design (FSD)",
   "## " ++ doc.program_name,
   "### " ++ doc.report_description,
   "",
   "**Generated on:** " ++ env.now,
   ""]
  -- Document information (lines 774-780)
  ++ ["## 1. INFORMASI DOKUMEN",
      "",
      "- **Project**: " ++ doc.project_name,
      "- **Document Location**: " ++ doc.document_location,
      ""]
  -- Related documents (lines 782-795)
  ++ (if doc.related_documents ≠ [] then
        ["- **Related Documents**:"]
          ++ doc.related_documents.map (relatedDocLine env) ++ [""]
      else [])
  -- Reviewers (lines 797-801)
  ++ (if doc.reviewers ≠ [] then
        ["- **Reviewers**:"]
          ++ doc.reviewers.map (fun r => "  - " ++ r.role ++ ": " ++ r.name) ++ [""]
      else [])
  -- Version history (lines 803-807)
  ++ (if doc.version_history ≠ [] then
        ["- **Version History**:"]
          ++ doc.version_history.map (fun v =>
               "  - " ++ v.version ++ ": " ++ v.change ++ " by " ++ v.author
                 ++ " on " ++ v.date) ++ [""]
      else [])
  -- General requirements (lines 819-831)
  ++ ["## 2. PERSYARATAN UMUM",
      "",
      "**User Requirements**: " ++ resolveRequirementValue env doc,
      "",
      "**Assumptions**:"]
  ++ doc.assumptions.map (fun a => "- " ++ a)
  ++ [""]
  -- Existing SAP objects (lines 833-853)
  ++ ["## 3. EXISTING SAP OBJECTS",
      "",
      "- **Program Name**: " ++ resolveProgramNameValue env doc,
      "- **Transaction Code**: " ++ doc.transaction_code,
      "- **Menu Path**: " ++ doc.menu_path,
      ""]
  -- Design section header and description (lines 855-864)
  ++ ["## 4. DESAIN",
      "",
      "### 4.1 Description detail dari Report",
      "",
      composeReportDescription env doc,
      ""]
  -- Selection screen (lines 866-881)
  ++ (if doc.selection_parameters ≠ [] then
        ["### 4.2 Selection Screen",
         "",
         "| Parameter | Type | Description | Mandatory | Select-Option | No Intervals |",
         "|-----------|------|-------------|-----------|---------------|--------------|"]
          ++ doc.selection_parameters.map selectionRowLine ++ [""]
      else [])
  -- Detail processing (lines 883-896)
  ++ (if doc.field_mappings ≠ [] then
        ["### 4.3 Detail Processing",
         "",
         "| Field Name | Technical Field | Source Table | Processing Logic | Processing Type |",
         "|------------|-----------------|--------------|------------------|-----------------|"]
          ++ doc.field_mappings.map fieldMappingRowLine ++ [""]
      else [])
  -- Valid datasets (lines 898-909)
  ++ (if doc.valid_dataset_rules ≠ [] then
        ["### 4.4 Detail Process Only valid datasets",
         "",
         "| Data | Kondisi |",
         "|------|---------|"]
          ++ doc.valid_dataset_rules.map dataCondRowLine ++ [""]
      else [])
  -- The three lookup forms (lines 924-926)
  ++ appendFormLines "Form Get_Country_Info" doc.country_info
  ++ appendFormLines "Form Get_Currency_T500C" doc.currency_t500c
  ++ appendFormLines "Form Get_Currency_T001" doc.currency_t001
  -- Error handling (lines 928-940)
  ++ (if doc.error_scenarios ≠ [] then
        ["## 5. PENANGANAN ERROR",
         "",
         "| No | Error Description | Resolution | Error Code | Severity |",
         "|----|-------------------|------------|------------|----------|"]
          ++ errorRowLines 1 doc.error_scenarios ++ [""]
      else [])
  -- Testing requirements (lines 942-952; note: no trailing blank line)
  ++ (if doc.test_scenarios ≠ [] then
        ["## 6. PERSYARATAN PENGUJIAN",
         "",
         "| No | Test Condition | Expected Result | Test Data | Priority |",
         "|----|----------------|-----------------|-----------|----------|"]
          ++ testRowLines 1 doc.test_scenarios
      else [])

/-- The string `_generate_markdown` returns (main.py line 954). -/
def generateMarkdown (env : RenderEnv) (doc : FSDDocument) : String :=
  pyJoinLines (generateMarkdownLines env doc)

/-! ## Generic string lemmas for line-membership reasoning -/

theorem pyStartsWith_append_self (a x : String) : pyStartsWith (a ++ x) a = true := by
  have h : a.data <+: (a ++ x).data := by
    rw [String.data_append]; exact List.prefix_append a.data x.data
  simp [pyStartsWith, List.isPrefixOf_iff_prefix, h]

theorem pre_append_ne {pre T : String} (h : pyStartsWith T pre = false) (x : String) :
    pre ++ x ≠ T := by
  intro he
  rw [← he] at h
  rw [pyStartsWith_append_self] at h
  simp at h

theorem strAppend_left_cancel {a x y : String} (h : a ++ x = a ++ y) : x = y := by
  have hd := congrArg String.data h
  rw [String.data_append, String.data_append] at hd
  exact String.ext (List.append_cancel_left hd)

theorem ne_append_of_ne {a x y : String} (h : x ≠ y) : a ++ x ≠ a ++ y :=
  fun he => h (strAppend_left_cancel he)

theorem pyStartsWith_append_left {x pre : String} (h : pyStartsWith x pre = true)
    (y : String) : pyStartsWith (x ++ y) pre = true := by
  simp only [pyStartsWith, List.isPrefixOf_iff_prefix] at h ⊢
  rw [String.data_append]
  exact h.trans (List.prefix_append x.data y.data)

theorem startsWith_ne {s T pre : String} (hs : pyStartsWith s pre = true)
    (hT : pyStartsWith T pre = false) : s ≠ T := by
  intro he
  rw [he, hT] at hs
  exact Bool.noConfusion hs

/-- Every selection-screen row starts with a pipe. -/
theorem selectionRowLine_pipe (p : SelectionParameter) :
    pyStartsWith (selectionRowLine p) "|" = true := by
  unfold selectionRowLine
  repeat first | decide | apply pyStartsWith_append_left

/-- Every detail-processing row starts with a pipe. -/
theorem fieldMappingRowLine_pipe (f : FieldMapping) :
    pyStartsWith (fieldMappingRowLine f) "|" = true := by
  unfold fieldMappingRowLine
  repeat first | decide | apply pyStartsWith_append_left

/-- Every Data/Kondisi row starts with a pipe. -/
theorem dataCondRowLine_pipe (r : DataConditionRow) :
    pyStartsWith (dataCondRowLine r) "|" = true := by
  unfold dataCondRowLine
  repeat first | decide | apply pyStartsWith_append_left

/-- Every related-document bullet starts with `"  - "`. -/
theorem relatedDocLine_indent (env : RenderEnv) (d : String) :
    pyStartsWith (relatedDocLine env d) "  - " = true := by
  unfold relatedDocLine
  split
  · split
    · split
      · exact pyStartsWith_append_left (by decide) _
      · exact pyStartsWith_append_left (by decide) _
    · exact pyStartsWith_append_left (by decide) _
  · exact pyStartsWith_append_left (by decide) _

/-- Error-table rows all start with a pipe. -/
theorem mem_errorRowLines_pipe {T : String} :
    ∀ (i : Nat) (es : List ErrorScenario), T ∈ errorRowLines i es →
      pyStartsWith T "|" = true := by
  intro i es
  induction es generalizing i with
  | nil => intro h; simp [errorRowLines] at h
  | cons e rest ih =>
    intro h
    rcases List.mem_cons.mp h with he | hrest
    · subst he
      repeat first | decide | apply pyStartsWith_append_left
    · exact ih (i + 1) hrest

/-- Test-table rows all start with a pipe. -/
theorem mem_testRowLines_pipe {T : String} :
    ∀ (i : Nat) (ts : List TestScenario), T ∈ testRowLines i ts →
      pyStartsWith T "|" = true := by
  intro i ts
  induction ts generalizing i with
  | nil => intro h; simp [testRowLines] at h
  | cons t rest ih =>
    intro h
    rcases List.mem_cons.mp h with he | hrest
    · subst he
      repeat first | decide | apply pyStartsWith_append_left
    · exact ih (i + 1) hrest

theorem notMem_labelBlock {α : Type} {T label : String} {l : List α} {f : α → String}
    (hlabel : T ≠ label) (hrows : ∀ a, f a ≠ T) (hblank : T ≠ "") :
    T ∉ ([label] ++ l.map f ++ [""]) := by
  intro h
  rcases List.mem_append.mp h with h | h
  · rcases List.mem_append.mp h with h | h
    · exact hlabel (List.mem_singleton.mp h)
    · obtain ⟨a, -, he⟩ := List.mem_map.mp h
      exact hrows a he
  · exact hblank (List.mem_singleton.mp h)

theorem notMem_tableBlock {T h1 hdr sep : String} {rows : List String}
    (hne : T ≠ h1) (hblank : T ≠ "") (hpipe : pyStartsWith T "|" = false)
    (hhdr : pyStartsWith hdr "|" = true) (hsep : pyStartsWith sep "|" = true)
    (hrows : ∀ x ∈ rows, pyStartsWith x "|" = true) :
    T ∉ ([h1, "", hdr, sep] ++ rows ++ [""]) := by
  intro h
  rcases List.mem_append.mp h with h | h
  · rcases List.mem_append.mp h with h | h
    · rcases List.mem_cons.mp h with h | h
      · exact hne h
      rcases List.mem_cons.mp h with h | h
      · exact hblank h
      rcases List.mem_cons.mp h with h | h
      · exact startsWith_ne hhdr hpipe h.symm
      rcases List.mem_cons.mp h with h | h
      · exact startsWith_ne hsep hpipe h.symm
      · simp at h
    · exact startsWith_ne (hrows T h) hpipe rfl
  · exact hblank (List.mem_singleton.mp h)

theorem notMem_tableBlockNoBlank {T h1 hdr sep : String} {rows : List String}
    (hne : T ≠ h1) (hblank : T ≠ "") (hpipe : pyStartsWith T "|" = false)
    (hhdr : pyStartsWith hdr "|" = true) (hsep : pyStartsWith sep "|" = true)
    (hrows : ∀ x ∈ rows, pyStartsWith x "|" = true) :
    T ∉ ([h1, "", hdr, sep] ++ rows) := by
  intro h
  rcases List.mem_append.mp h with h | h
  · rcases List.mem_cons.mp h with h | h
    · exact hne h
    rcases List.mem_cons.mp h with h | h
    · exact hblank h
    rcases List.mem_cons.mp h with h | h
    · exact startsWith_ne hhdr hpipe h.symm
    rcases List.mem_cons.mp h with h | h
    · exact startsWith_ne hsep hpipe h.symm
    · simp at h
  · exact startsWith_ne (hrows T h) hpipe rfl

/-- A membership-refutation lemma for `generateMarkdownLines`: a target line
that has none of the fixed line prefixes of generated content, is not one of
the always-emitted headings, is not injected through `program_name`,
`report_description` or the composed design description, and whose own
section heading is either absent (backing list empty) or different from the
target, never occurs among the generated lines. -/
theorem target_notMem_generateMarkdownLines (env : RenderEnv) (doc : FSDDocument)
    (T : String)
    (hpipe : pyStartsWith T "|" = false)
    (hdash : pyStartsWith T "- " = false)
    (hsp : pyStartsWith T "  - " = false)
    (hstar : pyStartsWith T "**" = false)
    (hhash : pyStartsWith T "# " = false)
    (hblank : T ≠ "")
    (hpn : T ≠ "## " ++ doc.program_name)
    (hrd : T ≠ "### " ++ doc.report_description)
    (hD : T ≠ composeReportDescription env doc)
    (h1i : T ≠ "## 1. INFORMASI DOKUMEN")
    (h2p : T ≠ "## 2. PERSYARATAN UMUM")
    (h3e : T ≠ "## 3. EXISTING SAP OBJECTS")
    (h4d : T ≠ "## 4. DESAIN")
    (h41 : T ≠ "### 4.1 Description detail dari Report")
    (h42 : doc.selection_parameters = [] ∨ T ≠ "### 4.2 Selection Screen")
    (h43 : doc.field_mappings = [] ∨ T ≠ "### 4.3 Detail Processing")
    (h44 : doc.valid_dataset_rules = [] ∨ T ≠ "### 4.4 Detail Process Only valid datasets")
    (hci : doc.country_info = [] ∨ T ≠ "### Form Get_Country_Info")
    (ht5 : doc.currency_t500c = [] ∨ T ≠ "### Form Get_Currency_T500C")
    (ht1 : doc.currency_t001 = [] ∨ T ≠ "### Form Get_Currency_T001")
    (he5 : doc.error_scenarios = [] ∨ T ≠ "## 5. PENANGANAN ERROR")
    (ht6 : doc.test_scenarios = [] ∨ T ≠ "## 6. PERSYARATAN PENGUJIAN") :
    T ∉ generateMarkdownLines env doc := by
  intro hmem
  simp only [generateMarkdownLines, List.mem_append] at hmem
  rcases hmem with ((((((((((((((((h | h) | h) | h) | h) | h) | h) | h) | h) | h) | h) | h) | h) | h) | h) | h) | h) | h
  · -- title block
    rcases List.mem_cons.mp h with h | h
    · rw [h] at hhash; exact absurd hhash (by decide)
    rcases List.mem_cons.mp h with h | h
    · exact hpn h
    rcases List.mem_cons.mp h with h | h
    · exact hrd h
    rcases List.mem_cons.mp h with h | h
    · exact hblank h
    rcases List.mem_cons.mp h with h | h
    · exact startsWith_ne (pyStartsWith_append_left (by decide) env.now) hstar h.symm
    rcases List.mem_cons.mp h with h | h
    · exact hblank h
    · simp at h
  · -- document information block
    rcases List.mem_cons.mp h with h | h
    · exact h1i h
    rcases List.mem_cons.mp h with h | h
    · exact hblank h
    rcases List.mem_cons.mp h with h | h
    · exact startsWith_ne (pyStartsWith_append_left (by decide) doc.project_name) hdash h.symm
    rcases List.mem_cons.mp h with h | h
    · exact startsWith_ne (pyStartsWith_append_left (by decide) doc.document_location) hdash h.symm
    rcases List.mem_cons.mp h with h | h
    · exact hblank h
    · simp at h
  · -- related documents block
    split at h
    · exact notMem_labelBlock
        (fun heq => absurd hdash (by rw [heq]; decide))
        (fun d heq => startsWith_ne (relatedDocLine_indent env d) hsp heq)
        hblank h
    · simp at h
  · -- reviewers block
    split at h
    · refine notMem_labelBlock
        (fun heq => absurd hdash (by rw [heq]; decide))
        (fun r heq => startsWith_ne ?_ hsp heq) hblank h
      repeat first | decide | apply pyStartsWith_append_left
    · simp at h
  · -- version history block
    split at h
    · refine notMem_labelBlock
        (fun heq => absurd hdash (by rw [heq]; decide))
        (fun v heq => startsWith_ne ?_ hsp heq) hblank h
      repeat first | decide | apply pyStartsWith_append_left
    · simp at h
  · -- general requirements block
    rcases List.mem_cons.mp h with h | h
    · exact h2p h
    rcases List.mem_cons.mp h with h | h
    · exact hblank h
    rcases List.mem_cons.mp h with h | h
    · exact startsWith_ne (pyStartsWith_append_left (by decide) _) hstar h.symm
    rcases List.mem_cons.mp h with h | h
    · exact hblank h
    rcases List.mem_cons.mp h with h | h
    · rw [h] at hstar; exact absurd hstar (by decide)
    · simp at h
  · -- assumptions lines
    obtain ⟨a, -, he⟩ := List.mem_map.mp h
    exact startsWith_ne (pyStartsWith_append_left (by decide) a) hdash he
  · -- single blank after assumptions
    exact hblank (List.mem_singleton.mp h)
  · -- existing SAP objects block
    rcases List.mem_cons.mp h with h | h
    · exact h3e h
    rcases List.mem_cons.mp h with h | h
    · exact hblank h
    rcases List.mem_cons.mp h with h | h
    · exact startsWith_ne (pyStartsWith_append_left (by decide) _) hdash h.symm
    rcases List.mem_cons.mp h with h | h
    · exact startsWith_ne (pyStartsWith_append_left (by decide) _) hdash h.symm
    rcases List.mem_cons.mp h with h | h
    · exact startsWith_ne (pyStartsWith_append_left (by decide) _) hdash h.symm
    rcases List.mem_cons.mp h with h | h
    · exact hblank h
    · simp at h
  · -- design header block
    rcases List.mem_cons.mp h with h | h
    · exact h4d h
    rcases List.mem_cons.mp h with h | h
    · exact hblank h
    rcases List.mem_cons.mp h with h | h
    · exact h41 h
    rcases List.mem_cons.mp h with h | h
    · exact hblank h
    rcases List.mem_cons.mp h with h | h
    · exact hD h
    rcases List.mem_cons.mp h with h | h
    · exact hblank h
    · simp at h
  · -- selection screen block
    rcases h42 with he | hne
    · simp [he] at h
    · split at h
      · exact notMem_tableBlock hne hblank hpipe (by decide) (by decide)
          (fun x hx => by
            obtain ⟨p, -, hp⟩ := List.mem_map.mp hx
            rw [← hp]; exact selectionRowLine_pipe p) h
      · simp at h
  · -- detail processing block
    rcases h43 with he | hne
    · simp [he] at h
    · split at h
      · exact notMem_tableBlock hne hblank hpipe (by decide) (by decide)
          (fun x hx => by
            obtain ⟨p, -, hp⟩ := List.mem_map.mp hx
            rw [← hp]; exact fieldMappingRowLine_pipe p) h
      · simp at h
  · -- valid datasets block
    rcases h44 with he | hne
    · simp [he] at h
    · split at h
      · exact notMem_tableBlock hne hblank hpipe (by decide) (by decide)
          (fun x hx => by
            obtain ⟨p, -, hp⟩ := List.mem_map.mp hx
            rw [← hp]; exact dataCondRowLine_pipe p) h
      · simp at h
  · -- country info form
    rcases hci with he | hne
    · simp [appendFormLines, he] at h
    · rw [appendFormLines] at h
      split at h
      · exact notMem_tableBlock hne hblank hpipe (by decide) (by decide)
          (fun x hx => by
            obtain ⟨p, -, hp⟩ := List.mem_map.mp hx
            rw [← hp]; exact dataCondRowLine_pipe p) h
      · simp at h
  · -- currency T500C form
    rcases ht5 with he | hne
    · simp [appendFormLines, he] at h
    · rw [appendFormLines] at h
      split at h
      · exact notMem_tableBlock hne hblank hpipe (by decide) (by decide)
          (fun x hx => by
            obtain ⟨p, -, hp⟩ := List.mem_map.mp hx
            rw [← hp]; exact dataCondRowLine_pipe p) h
      · simp at h
  · -- currency T001 form
    rcases ht1 with he | hne
    · simp [appendFormLines, he] at h
    · rw [appendFormLines] at h
      split at h
      · exact notMem_tableBlock hne hblank hpipe (by decide) (by decide)
          (fun x hx => by
            obtain ⟨p, -, hp⟩ := List.mem_map.mp hx
            rw [← hp]; exact dataCondRowLine_pipe p) h
      · simp at h
  · -- error handling block
    rcases he5 with he | hne
    · simp [he] at h
    · split at h
      · exact notMem_tableBlock hne hblank hpipe (by decide) (by decide)
          (fun x hx => mem_errorRowLines_pipe 1 doc.error_scenarios hx) h
      · simp at h
  · -- testing requirements block
    rcases ht6 with he | hne
    · simp [he] at h
    · split at h
      · exact notMem_tableBlockNoBlank hne hblank hpipe (by decide) (by decide)
          (fun x hx => mem_testRowLines_pipe 1 doc.test_scenarios hx) h
      · simp at h

/-! ## Claim C2 -/

/-- A concrete renderer environment: Excel lookups find nothing, the LLM
improvement call raises (so the composed text is used verbatim), and the
clock is fixed. -/
def envA : RenderEnv :=
  { lookupNodinRaw := fun _ => .ok none,
    lookupReqDescRaw := fun _ => .ok none,
    improveRaw := fun _ => .error "llm unavailable",
    now := "2024-01-01 00:00:00" }

/-- A document whose `program_name` happens to equal the error-section title,
used to refute the universally-quantified form of claim C2. -/
def docC2cx : FSDDocument := { program_name := "5. PENANGANAN ERROR" }

/-- C2 counterexample: the claim quantifies over every FSD Document, but for
a document with `program_name = "5. PENANGANAN ERROR"` and zero
error_scenarios the rendered Markdown does contain the line
`"## 5. PENANGANAN ERROR"` — the renderer emits `"## " + program_name` as
the title block's second line (main.py line 766), so the free-text field
injects the heading even though the error section itself is never
rendered. -/
theorem C2_counterexample :
    docC2cx.error_scenarios = [] ∧
      "## 5. PENANGANAN ERROR" ∈ generateMarkdownLines envA docC2cx := by
  constructor
  · rfl
  · decide

/-- C2 (amended): for every environment and document whose scalar free-text
fields (`program_name`, `report_description`, and the composed design
description) do not themselves spell a section or subsection heading, each
empty record list yields no corresponding heading line in the generated
Markdown line list; in particular zero error_scenarios ⇒ no
`"## 5. PENANGANAN ERROR"` line.  An empty backing list is thus rendered as
omission (its heading, and hence the table that the renderer only ever
places under that heading, is absent). -/
theorem C2_empty_list_no_heading (env : RenderEnv) (doc : FSDDocument)
    (hpn5 : doc.program_name ≠ "5. PENANGANAN ERROR")
    (hpn6 : doc.program_name ≠ "6. PERSYARATAN PENGUJIAN")
    (hrd42 : doc.report_description ≠ "4.2 Selection Screen")
    (hrd43 : doc.report_description ≠ "4.3 Detail Processing")
    (hrd44 : doc.report_description ≠ "4.4 Detail Process Only valid datasets")
    (hrdci : doc.report_description ≠ "Form Get_Country_Info")
    (hrdt5 : doc.report_description ≠ "Form Get_Currency_T500C")
    (hrdt1 : doc.report_description ≠ "Form Get_Currency_T001")
    (hdd : ∀ h ∈ (["### 4.2 Selection Screen", "### 4.3 Detail Processing",
        "### 4.4 Detail Process Only valid datasets", "### Form Get_Country_Info",
        "### Form Get_Currency_T500C", "### Form Get_Currency_T001",
        "## 5. PENANGANAN ERROR", "## 6. PERSYARATAN PENGUJIAN"] : List String),
        composeReportDescription env doc ≠ h) :
    (doc.selection_parameters = [] →
      "### 4.2 Selection Screen" ∉ generateMarkdownLines env doc) ∧
    (doc.field_mappings = [] →
      "### 4.3 Detail Processing" ∉ generateMarkdownLines env doc) ∧
    (doc.valid_dataset_rules = [] →
      "### 4.4 Detail Process Only valid datasets" ∉ generateMarkdownLines env doc) ∧
    (doc.country_info = [] →
      "### Form Get_Country_Info" ∉ generateMarkdownLines env doc) ∧
    (doc.currency_t500c = [] →
      "### Form Get_Currency_T500C" ∉ generateMarkdownLines env doc) ∧
    (doc.currency_t001 = [] →
      "### Form Get_Currency_T001" ∉ generateMarkdownLines env doc) ∧
    (doc.error_scenarios = [] →
      "## 5. PENANGANAN ERROR" ∉ generateMarkdownLines env doc) ∧
    (doc.test_scenarios = [] →
      "## 6. PERSYARATAN PENGUJIAN" ∉ generateMarkdownLines env doc) := by
  refine ⟨fun he => ?_, fun he => ?_, fun he => ?_, fun he => ?_,
          fun he => ?_, fun he => ?_, fun he => ?_, fun he => ?_⟩
  · exact target_notMem_generateMarkdownLines env doc _
      (by decide) (by decide) (by decide) (by decide) (by decide) (by decide)
      (Ne.symm (startsWith_ne (pyStartsWith_append_self "## " doc.program_name) (by decide)))
      (fun h => hrd42 (strAppend_left_cancel
        ((show "### " ++ "4.2 Selection Screen" = "### 4.2 Selection Screen" by decide).trans h)).symm)
      (Ne.symm (hdd _ (by decide)))
      (by decide) (by decide) (by decide) (by decide) (by decide)
      (Or.inl he) (Or.inr (by decide)) (Or.inr (by decide)) (Or.inr (by decide))
      (Or.inr (by decide)) (Or.inr (by decide)) (Or.inr (by decide)) (Or.inr (by decide))
  · exact target_notMem_generateMarkdownLines env doc _
      (by decide) (by decide) (by decide) (by decide) (by decide) (by decide)
      (Ne.symm (startsWith_ne (pyStartsWith_append_self "## " doc.program_name) (by decide)))
      (fun h => hrd43 (strAppend_left_cancel
        ((show "### " ++ "4.3 Detail Processing" = "### 4.3 Detail Processing" by decide).trans h)).symm)
      (Ne.symm (hdd _ (by decide)))
      (by decide) (by decide) (by decide) (by decide) (by decide)
      (Or.inr (by decide)) (Or.inl he) (Or.inr (by decide)) (Or.inr (by decide))
      (Or.inr (by decide)) (Or.inr (by decide)) (Or.inr (by decide)) (Or.inr (by decide))
  · exact target_notMem_generateMarkdownLines env doc _
      (by decide) (by decide) (by decide) (by decide) (by decide) (by decide)
      (Ne.symm (startsWith_ne (pyStartsWith_append_self "## " doc.program_name) (by decide)))
      (fun h => hrd44 (strAppend_left_cancel
        ((show "### " ++ "4.4 Detail Process Only valid datasets" =
            "### 4.4 Detail Process Only valid datasets" by decide).trans h)).symm)
      (Ne.symm (hdd _ (by decide)))
      (by decide) (by decide) (by decide) (by decide) (by decide)
      (Or.inr (by decide)) (Or.inr (by decide)) (Or.inl he) (Or.inr (by decide))
      (Or.inr (by decide)) (Or.inr (by decide)) (Or.inr (by decide)) (Or.inr (by decide))
  · exact target_notMem_generateMarkdownLines env doc _
      (by decide) (by decide) (by decide) (by decide) (by decide) (by decide)
      (Ne.symm (startsWith_ne (pyStartsWith_append_self "## " doc.program_name) (by decide)))
      (fun h => hrdci (strAppend_left_cancel
        ((show "### " ++ "Form Get_Country_Info" = "### Form Get_Country_Info" by decide).trans h)).symm)
      (Ne.symm (hdd _ (by decide)))
      (by decide) (by decide) (by decide) (by decide) (by decide)
      (Or.inr (by decide)) (Or.inr (by decide)) (Or.inr (by decide)) (Or.inl he)
      (Or.inr (by decide)) (Or.inr (by decide)) (Or.inr (by decide)) (Or.inr (by decide))
  · exact target_notMem_generateMarkdownLines env doc _
      (by decide) (by decide) (by decide) (by decide) (by decide) (by decide)
      (Ne.symm (startsWith_ne (pyStartsWith_append_self "## " doc.program_name) (by decide)))
      (fun h => hrdt5 (strAppend_left_cancel
        ((show "### " ++ "Form Get_Currency_T500C" = "### Form Get_Currency_T500C" by decide).trans h)).symm)
      (Ne.symm (hdd _ (by decide)))
      (by decide) (by decide) (by decide) (by decide) (by decide)
      (Or.inr (by decide)) (Or.inr (by decide)) (Or.inr (by decide)) (Or.inr (by decide))
      (Or.inl he) (Or.inr (by decide)) (Or.inr (by decide)) (Or.inr (by decide))
  · exact target_notMem_generateMarkdownLines env doc _
      (by decide) (by decide) (by decide) (by decide) (by decide) (by decide)
      (Ne.symm (startsWith_ne (pyStartsWith_append_self "## " doc.program_name) (by decide)))
      (fun h => hrdt1 (strAppend_left_cancel
        ((show "### " ++ "Form Get_Currency_T001" = "### Form Get_Currency_T001" by decide).trans h)).symm)
      (Ne.symm (hdd _ (by decide)))
      (by decide) (by decide) (by decide) (by decide) (by decide)
      (Or.inr (by decide)) (Or.inr (by decide)) (Or.inr (by decide)) (Or.inr (by decide))
      (Or.inr (by decide)) (Or.inl he) (Or.inr (by decide)) (Or.inr (by decide))
  · exact target_notMem_generateMarkdownLines env doc _
      (by decide) (by decide) (by decide) (by decide) (by decide) (by decide)
      (fun h => hpn5 (strAppend_left_cancel
        ((show "## " ++ "5. PENANGANAN ERROR" = "## 5. PENANGANAN ERROR" by decide).trans h)).symm)
      (Ne.symm (startsWith_ne (pyStartsWith_append_self "### " doc.report_description) (by decide)))
      (Ne.symm (hdd _ (by decide)))
      (by decide) (by decide) (by decide) (by decide) (by decide)
      (Or.inr (by decide)) (Or.inr (by decide)) (Or.inr (by decide)) (Or.inr (by decide))
      (Or.inr (by decide)) (Or.inr (by decide)) (Or.inl he) (Or.inr (by decide))
  · exact target_notMem_generateMarkdownLines env doc _
      (by decide) (by decide) (by decide) (by decide) (by decide) (by decide)
      (fun h => hpn6 (strAppend_left_cancel
        ((show "## " ++ "6. PERSYARATAN PENGUJIAN" = "## 6. PERSYARATAN PENGUJIAN" by decide).trans h)).symm)
      (Ne.symm (startsWith_ne (pyStartsWith_append_self "### " doc.report_description) (by decide)))
      (Ne.symm (hdd _ (by decide)))
      (by decide) (by decide) (by decide) (by decide) (by decide)
      (Or.inr (by decide)) (Or.inr (by decide)) (Or.inr (by decide)) (Or.inr (by decide))
      (Or.inr (by decide)) (Or.inr (by decide)) (Or.inr (by decide)) (Or.inl he)

/-- A clean concrete document for witnesses: all record lists empty, scalar
fields that do not clash with any heading text. -/
def docClean : FSDDocument :=
  { project_name := "MIS SSoT", program_name := "ZHR_R_IT0015",
    report_description := "Laporan tunjangan tidak tetap" }

/-- C2 witness: the amended theorem applied at a concrete clean document —
all record lists are empty and none of the eight section headings occurs in
the rendered line list. -/
theorem C2_empty_list_no_heading_witness :
    "## 5. PENANGANAN ERROR" ∉ generateMarkdownLines envA docClean ∧
      "### 4.2 Selection Screen" ∉ generateMarkdownLines envA docClean := by
  have h := C2_empty_list_no_heading envA docClean
    (by decide) (by decide) (by decide) (by decide) (by decide) (by decide)
    (by decide) (by decide) (by decide)
  exact ⟨h.2.2.2.2.2.2.1 rfl, h.1 rfl⟩

/-! ## Claim C6 -/

/-- The single selection parameter of end-to-end scenario 1. -/
def paramC6 : SelectionParameter :=
  { name := "P_BUKRS", type := "BUKRS", description := "Company Code",
    is_mandatory := true, is_select_option := false, has_no_intervals := false }

/-- Scenario-1 document: exactly one selection parameter. -/
def docC6 : FSDDocument := { selection_parameters := [paramC6] }

/-- C6: for the document whose selection_parameters list is exactly
`[P_BUKRS/BUKRS/Company Code, mandatory, not select-option, no-intervals
false]`, the rendered Markdown contains the `4.2 Selection Screen` heading
immediately followed by the fixed header row, the separator, and the data
row `| P_BUKRS | BUKRS | Company Code | Yes | No | No |` — booleans rendered
Yes/No in field declaration order. -/
theorem C6_selection_screen_scenario :
    ["### 4.2 Selection Screen",
     "",
     "| Parameter | Type | Description | Mandatory | Select-Option | No Intervals |",
     "|-----------|------|-------------|-----------|---------------|--------------|",
     "| P_BUKRS | BUKRS | Company Code | Yes | No | No |"]
      <:+: generateMarkdownLines envA docC6 := by decide

/-! ## Claim C5 -/

/-- Environment refuting C5's "each reference is attempted" reading: the
lookup table resolves `B` but not `A`. -/
def envC5cx : RenderEnv :=
  { lookupNodinRaw := fun id => if id = "B" then .ok (some "V") else .ok none,
    lookupReqDescRaw := fun _ => .ok none,
    improveRaw := fun _ => .error "llm unavailable",
    now := "2024-01-01 00:00:00" }

/-- Document with two RICEFW references; only the second one resolves. -/
def docC5cx : FSDDocument :=
  { program_name := "ORIG",
    related_documents := ["RICEFW ID: A", "RICEFW ID: B"] }

/-- C5 counterexample: the claim says the renderer attempts to resolve each
`"RICEFW ID: X"` reference and that a successful lookup's value replaces the
original on the rendered line.  With references A (unresolvable) and B
(resolving to `"V"`), the lookup for B succeeds, yet the rendered Program
Name line still carries the original value: the loop at main.py lines
835-841 breaks after the first `"RICEFW ID:"` entry, so B is never
attempted. -/
theorem C5_counterexample :
    "RICEFW ID: B" ∈ docC5cx.related_documents ∧
      lookupAssignNodin envC5cx "B" = some "V" ∧
      "- **Program Name**: ORIG" ∈ generateMarkdownLines envC5cx docC5cx ∧
      "- **Program Name**: V" ∉ generateMarkdownLines envC5cx docC5cx := by
  refine ⟨by decide, by decide, by decide, by decide⟩

/-- C5 (amended): the Renderer resolves only the first related-document
reference of the form `"RICEFW ID: X"`.  For every document and every oracle
behaviour (including raising lookups — the wrappers catch all exceptions, so
rendering is total): the Program Name line always carries
`resolveProgramNameValue` and the User Requirements line always carries
`resolveRequirementValue`; when the first reference's nodin lookup succeeds
with a nonempty value, that value replaces the program name; when it returns
nothing, raises, or no reference exists, the original field value is
rendered unchanged; the requirement lookup behaves the same, except a
successful value is additionally passed through `_improve_text`. -/
theorem C5_first_reference_resolution (env : RenderEnv) (doc : FSDDocument) :
    ("- **Program Name**: " ++ resolveProgramNameValue env doc)
        ∈ generateMarkdownLines env doc ∧
    ("**User Requirements**: " ++ resolveRequirementValue env doc)
        ∈ generateMarkdownLines env doc ∧
    (∀ d, firstRicefwDoc doc.related_documents = some d →
      ∀ v, lookupAssignNodin env (ricefwIdOf d) = some v → v ≠ "" →
        resolveProgramNameValue env doc = v) ∧
    (firstRicefwDoc doc.related_documents = none →
      resolveProgramNameValue env doc = doc.program_name) ∧
    (∀ d, firstRicefwDoc doc.related_documents = some d →
      lookupAssignNodin env (ricefwIdOf d) = none →
        resolveProgramNameValue env doc = doc.program_name) ∧
    (∀ d e, firstRicefwDoc doc.related_documents = some d →
      env.lookupNodinRaw (ricefwIdOf d) = .error e →
        resolveProgramNameValue env doc = doc.program_name) ∧
    (∀ d, firstRicefwDoc doc.related_documents = some d →
      ∀ v, lookupRequirementDescription env (ricefwIdOf d) = some v → v ≠ "" →
        resolveRequirementValue env doc = improveText env v) ∧
    (∀ d e, firstRicefwDoc doc.related_documents = some d →
      env.lookupReqDescRaw (ricefwIdOf d) = .error e →
        resolveRequirementValue env doc = doc.user_requirements) := by
  refine ⟨?_, ?_, ?_, ?_, ?_, ?_, ?_, ?_⟩
  · simp [generateMarkdownLines, List.mem_append]
  · simp [generateMarkdownLines, List.mem_append]
  · intro d hd v hv hne
    simp [resolveProgramNameValue, hd, hv, hne]
  · intro hd
    simp [resolveProgramNameValue, hd]
  · intro d hd hv
    simp [resolveProgramNameValue, hd, hv]
  · intro d e hd he
    simp [resolveProgramNameValue, hd, lookupAssignNodin, he]
  · intro d hd v hv hne
    simp [resolveRequirementValue, hd, hv, hne]
  · intro d e hd he
    simp [resolveRequirementValue, hd, lookupRequirementDescription, he]

/-- Scenario-2 environment: the reference table maps `RHR006` to
`"Laporan Tunjangan"`. -/
def envC5w : RenderEnv :=
  { lookupNodinRaw := fun id =>
      if id = "RHR006" then .ok (some "Laporan Tunjangan") else .ok none,
    lookupReqDescRaw := fun _ => .ok none,
    improveRaw := fun _ => .error "llm unavailable",
    now := "2024-01-01 00:00:00" }

/-- Scenario-2 document. -/
def docC5w : FSDDocument :=
  { program_name := "ZHR_R_IT0015",
    related_documents := ["RICEFW ID: RHR006"] }

/-- C5 witness: end-to-end scenario 2 — with related_documents
`["RICEFW ID: RHR006"]` and the table mapping RHR006 to
`"Laporan Tunjangan"`, the rendered Program Name line reads
`- **Program Name**: Laporan Tunjangan`. -/
theorem C5_first_reference_resolution_witness :
    "- **Program Name**: Laporan Tunjangan" ∈ generateMarkdownLines envC5w docC5w ∧
      resolveProgramNameValue envC5w docC5w = "Laporan Tunjangan" := by
  have h := C5_first_reference_resolution envC5w docC5w
  have hv : resolveProgramNameValue envC5w docC5w = "Laporan Tunjangan" :=
    h.2.2.1 "RICEFW ID: RHR006" (by decide) "Laporan Tunjangan" (by decide) (by decide)
  refine ⟨?_, hv⟩
  have h1 := h.1
  rw [hv] at h1
  exact h1

/-! ## JSON values and Python dynamic-access semantics

Task results arrive as parsed JSON (`Dict[str, Any]`).  `Json` models the
values; the accessors mirror Python's dynamic behaviour, raising (`Except`)
exactly where the Python would raise: `.get` on a non-dict raises
`AttributeError`, iterating a non-iterable raises `TypeError`.  The embedding
is strict about value shapes where the Python would silently store an
ill-typed value in a typed slot (noted on each helper). -/

inductive PyErr where
  | valueError (msg : String)
  | typeError (msg : String)
  | attributeError (msg : String)
  | keyError (msg : String)
  | indexError (msg : String)
  | exception (msg : String)
deriving Repr, DecidableEq

inductive Json where
  | null
  | bool (b : Bool)
  | num (n : Int)
  | str (s : String)
  | arr (elems : List Json)
  | obj (fields : List (String × Json))

/-- Python truthiness of a JSON value. -/
def jTruthy : Json → Bool
  | .null => false
  | .bool b => b
  | .num n => n ≠ 0
  | .str s => s ≠ ""
  | .arr l => !l.isEmpty
  | .obj l => !l.isEmpty

/-- First-match association lookup (dict keys are unique in Python). -/
def jObjLookup (l : List (String × Json)) (k : String) : Option Json :=
  (l.find? (fun kv => kv.1 = k)).map (fun kv => kv.2)

/-- `value.get(k, d)`: raises `AttributeError` unless `value` is a dict. -/
def jGetD (j : Json) (k : String) (d : Json) : Except PyErr Json :=
  match j with
  | .obj l => .ok ((jObjLookup l k).getD d)
  | _ => .error (.attributeError "object has no attribute get")

/-- Iteration: lists yield elements, strings yield characters, dicts yield
keys, everything else raises `TypeError`. -/
def jIter : Json → Except PyErr (List Json)
  | .arr l => .ok l
  | .str s => .ok (s.data.map (fun c => .str ⟨[c]⟩))
  | .obj l => .ok (l.map (fun kv => .str kv.1))
  | _ => .error (.typeError "object is not iterable")

/-- Extract a string for a typed `str` slot.  Python would store a non-`str`
value silently; the embedding is strict and raises instead — every claim
settled against the merge constrains these slots to strings, so the
difference is unobservable here. -/
def jAsStr : Json → Except PyErr String
  | .str s => .ok s
  | _ => .error (.typeError "embedding: expected str")

/-- `value.get(k, d)` followed by the strict string extraction. -/
def jGetStr (j : Json) (k : String) (d : String) : Except PyErr String := do
  let v ← jGetD j k (.str d)
  jAsStr v

/-- Extract a list of strings (`' & '.join` raises `TypeError` on non-`str`
elements in Python; for plain list slots the same strictness note as
`jAsStr` applies). -/
def jAsStrList (j : Json) : Except PyErr (List String) := do
  let elems ← jIter j
  elems.mapM jAsStr

/-- The `FieldProcessingType(value)` enum constructor (main.py line 1681):
a member value yields the member, any other hashable value raises
`ValueError`, an unhashable value (list/dict) raises `TypeError`. -/
def fieldProcessingTypeInit : Json → Except PyErr FieldProcessingType
  | .str "DIRECT" => .ok .DIRECT
  | .str "LOOKUP" => .ok .LOOKUP
  | .str "CALCULATION" => .ok .CALCULATION
  | .str "CONSTANT" => .ok .CONSTANT
  | .str "AGGREGATION" => .ok .AGGREGATION
  | .arr _ => .error (.typeError "unhashable type: list")
  | .obj _ => .error (.typeError "unhashable type: dict")
  | _ => .error (.valueError "not a valid FieldProcessingType")

/-- The `try: FieldProcessingType(...) except ValueError: DIRECT` coercion
(main.py lines 1680-1683): only `ValueError` is caught. -/
def coerceProcessingType (j : Json) : Except PyErr FieldProcessingType :=
  match fieldProcessingTypeInit j with
  | .ok t => .ok t
  | .error (.valueError _) => .ok .DIRECT
  | .error e => .error e

/-! ## `IntelligentFSDMapper._map_fixed_results_to_fsd` (main.py 1626-1772)

Each block of the method becomes one function; the method is their
sequential composition.  `results.get(name, {})` never raises, the
subsequent `if <facet>:` is Python truthiness, and all appends go to the end
of the already-present lists. -/

/-- Basic-info block (main.py lines 1629-1660). -/
def mapBasicInfo (results : List (String × Json)) (doc : FSDDocument) :
    Except PyErr FSDDocument := do
  let basic_info := (jObjLookup results "basic_info").getD (.obj [])
  if jTruthy basic_info then do
    let program_name ← jGetStr basic_info "program_name" ""
    let report_description ← jGetStr basic_info "report_description" ""
    let desain_report_description ← jGetStr basic_info "desain_report_description" ""
    let user_requirements ← jGetStr basic_info "user_requirements" ""
    let assumptionsJ ← jGetD basic_info "assumptions" (.arr [])
    let assumptions ← jAsStrList assumptionsJ
    let transaction_code ← jGetStr basic_info "transaction_code" ""
    let menu_path ← jGetStr basic_info "menu_path" "N/A"
    let doc := { doc with
      program_name := program_name
      report_description := report_description
      desain_report_description := desain_report_description
      user_requirements := user_requirements
      assumptions := assumptions
      transaction_code := transaction_code
      menu_path := menu_path }
    let ricefwJ ← jGetD basic_info "ricefw_id" (.str "")
    let doc ←
      if jTruthy ricefwJ then do
        let r ← jAsStr ricefwJ
        pure { doc with
          related_documents := doc.related_documents ++ ["RICEFW ID: " ++ r] }
      else pure doc
    let cdJ ← jGetD basic_info "created_date" (.str "")
    let cbJ ← jGetD basic_info "created_by" (.str "")
    let doc ←
      if jTruthy cdJ ∧ jTruthy cbJ then do
        let cd ← jAsStr cdJ
        let cb ← jAsStr cbJ
        pure { doc with
          version_history := doc.version_history ++
            [{ version := "0.01", change := "Initial draft", author := cb, date := cd }] }
      else pure doc
    let fcJ ← jGetD basic_info "functional_contact" (.str "")
    if jTruthy fcJ then do
      let fc ← jAsStr fcJ
      pure { doc with
        reviewers := doc.reviewers ++ [{ role := "Functional Lead", name := fc }] }
    else pure doc
  else pure doc

/-- One selection-parameter entry (main.py lines 1666-1674); booleans are
stored by truthiness, which is how the renderer consumes them. -/
def parseSelectionParameter (p : Json) : Except PyErr SelectionParameter := do
  let name ← jGetStr p "name" ""
  let ty ← jGetStr p "type" ""
  let description ← jGetStr p "description" ""
  let mand ← jGetD p "is_mandatory" (.bool false)
  let selOpt ← jGetD p "is_select_option" (.bool false)
  let noInt ← jGetD p "has_no_intervals" (.bool false)
  let default_value ← jGetStr p "default_value" ""
  pure { name := name
         type := ty
         description := description
         is_mandatory := jTruthy mand
         is_select_option := jTruthy selOpt
         has_no_intervals := jTruthy noInt
         default_value := default_value }

/-- Selection-screen block (main.py lines 1662-1674). -/
def mapSelectionScreen (results : List (String × Json)) (doc : FSDDocument) :
    Except PyErr FSDDocument := do
  let selection_screen := (jObjLookup results "selection_screen").getD (.obj [])
  if jTruthy selection_screen then do
    let paramsJ ← jGetD selection_screen "selection_parameters" (.arr [])
    let entries ← jIter paramsJ
    let params ← entries.mapM parseSelectionParameter
    pure { doc with selection_parameters := doc.selection_parameters ++ params }
  else pure doc

/-- One field-mapping entry (main.py lines 1679-1693), with the enum
coercion. -/
def parseFieldMapping (f : Json) : Except PyErr FieldMapping := do
  let ptJ ← jGetD f "processing_type" (.str "DIRECT")
  let processing_type ← coerceProcessingType ptJ
  let display_name ← jGetStr f "display_name" ""
  let technical_field ← jGetStr f "technical_field" ""
  let source_table ← jGetStr f "source_table" ""
  let processing_logic ← jGetStr f "processing_logic" ""
  let join_condition ← jGetStr f "join_condition" ""
  let where_condition ← jGetStr f "where_condition" ""
  pure { display_name := display_name
         technical_field := technical_field
         source_table := source_table
         processing_logic := processing_logic
         processing_type := processing_type
         join_condition := join_condition
         where_condition := where_condition }

/-- Field-mappings block (main.py lines 1676-1693). -/
def mapFieldMappings (results : List (String × Json)) (doc : FSDDocument) :
    Except PyErr FSDDocument := do
  let field_mappings := (jObjLookup results "complete_field_mappings").getD (.obj [])
  if jTruthy field_mappings then do
    let fmJ ← jGetD field_mappings "field_mappings" (.arr [])
    let entries ← jIter fmJ
    let fms ← entries.mapM parseFieldMapping
    pure { doc with field_mappings := doc.field_mappings ++ fms }
  else pure doc

/-- One Data/Condition entry of the valid-datasets block
(main.py lines 1698-1702). -/
def parseDatasetRule (r : Json) : Except PyErr DataConditionRow := do
  let data ← jGetStr r "data" ""
  let condition ← jGetStr r "condition" ""
  pure { data := data, condition := condition }

/-- Valid-datasets block (main.py lines 1695-1702). -/
def mapValidDatasets (results : List (String × Json)) (doc : FSDDocument) :
    Except PyErr FSDDocument := do
  let valid_datasets := (jObjLookup results "complete_valid_datasets").getD (.obj [])
  if jTruthy valid_datasets then do
    let rulesJ ← jGetD valid_datasets "valid_dataset_rules" (.arr [])
    let entries ← jIter rulesJ
    let rules ← entries.mapM parseDatasetRule
    pure { doc with valid_dataset_rules := doc.valid_dataset_rules ++ rules }
  else pure doc

/-- One lookup-form entry (main.py lines 1708-1714): the row's `data` is
`' & '.join(target_fields)` with a per-category default field list. -/
def parseLookupRule (defaultField : String) (r : Json) :
    Except PyErr DataConditionRow := do
  let condition ← jGetStr r "condition" ""
  let tfJ ← jGetD r "target_fields" (.arr [.str defaultField])
  let tf ← jAsStrList tfJ
  pure { data := String.intercalate " & " tf, condition := condition }

/-- Lookup-forms block (main.py lines 1704-1742): company-code rules flow into
`country_info`, business-area into `currency_t500c`, wage-type and
payroll-reason both into `currency_t001`. -/
def mapLookupForms (results : List (String × Json)) (doc : FSDDocument) :
    Except PyErr FSDDocument := do
  let lookup_forms := (jObjLookup results "complete_lookup_forms").getD (.obj [])
  if jTruthy lookup_forms then do
    let ccJ ← jGetD lookup_forms "company_code_lookup" (.arr [])
    let ccEntries ← jIter ccJ
    let cc ← ccEntries.mapM (parseLookupRule "BUTXT")
    let doc := { doc with country_info := doc.country_info ++ cc }
    let baJ ← jGetD lookup_forms "business_area_lookup" (.arr [])
    let baEntries ← jIter baJ
    let ba ← baEntries.mapM (parseLookupRule "GTEXT")
    let doc := { doc with currency_t500c := doc.currency_t500c ++ ba }
    let wtJ ← jGetD lookup_forms "wage_type_lookup" (.arr [])
    let wtEntries ← jIter wtJ
    let wt ← wtEntries.mapM (parseLookupRule "LGTXT")
    let doc := { doc with currency_t001 := doc.currency_t001 ++ wt }
    let prJ ← jGetD lookup_forms "payroll_reason_lookup" (.arr [])
    let prEntries ← jIter prJ
    let pr ← prEntries.mapM (parseLookupRule "OCRTX")
    pure { doc with currency_t001 := doc.currency_t001 ++ pr }
  else pure doc

/-- One error-scenario entry (main.py lines 1747-1753). -/
def parseErrorScenario (e : Json) : Except PyErr ErrorScenario := do
  let error_description ← jGetStr e "error_description" ""
  let resolution ← jGetStr e "resolution" ""
  let error_code ← jGetStr e "error_code" ""
  let severity ← jGetStr e "severity" "ERROR"
  pure { error_description := error_description
         resolution := resolution
         error_code := error_code
         severity := severity }

/-- Error-handling block (main.py lines 1744-1753). -/
def mapErrorScenarios (results : List (String × Json)) (doc : FSDDocument) :
    Except PyErr FSDDocument := do
  let error_handling := (jObjLookup results "error_handling").getD (.obj [])
  if jTruthy error_handling then do
    let esJ ← jGetD error_handling "error_scenarios" (.arr [])
    let entries ← jIter esJ
    let es ← entries.mapM parseErrorScenario
    pure { doc with error_scenarios := doc.error_scenarios ++ es }
  else pure doc

/-- One test-scenario entry (main.py lines 1757-1763). -/
def parseTestScenario (t : Json) : Except PyErr TestScenario := do
  let condition ← jGetStr t "condition" ""
  let expected_result ← jGetStr t "expected_result" ""
  let test_data ← jGetStr t "test_data" ""
  let priority ← jGetStr t "priority" "HIGH"
  pure { condition := condition
         expected_result := expected_result
         test_data := test_data
         priority := priority }

/-- Test-scenarios block (main.py lines 1755-1763). -/
def mapTestScenarios (results : List (String × Json)) (doc : FSDDocument) :
    Except PyErr FSDDocument := do
  let test_scenarios := (jObjLookup results "test_scenarios").getD (.obj [])
  if jTruthy test_scenarios then do
    let tsJ ← jGetD test_scenarios "test_scenarios" (.arr [])
    let entries ← jIter tsJ
    let ts ← entries.mapM parseTestScenario
    pure { doc with test_scenarios := doc.test_scenarios ++ ts }
  else pure doc

/-- Validation-rules block (main.py lines 1765-1767, a plain `extend`). -/
def mapValidationRules (results : List (String × Json)) (doc : FSDDocument) :
    Except PyErr FSDDocument := do
  let validation_rules := (jObjLookup results "validation_rules").getD (.obj [])
  if jTruthy validation_rules then do
    let vJ ← jGetD validation_rules "validation_rules" (.arr [])
    let v ← jAsStrList vJ
    pure { doc with validation_rules := doc.validation_rules ++ v }
  else pure doc

/-- Authorization block (main.py lines 1769-1772, two `extend`s). -/
def mapAuthorization (results : List (String × Json)) (doc : FSDDocument) :
    Except PyErr FSDDocument := do
  let authorization := (jObjLookup results "authorization").getD (.obj [])
  if jTruthy authorization then do
    let aoJ ← jGetD authorization "authorization_objects" (.arr [])
    let ao ← jAsStrList aoJ
    let urJ ← jGetD authorization "user_roles" (.arr [])
    let ur ← jAsStrList urJ
    pure { doc with
      authorization_objects := doc.authorization_objects ++ ao
      user_roles := doc.user_roles ++ ur }
  else pure doc

/-- `_map_fixed_results_to_fsd` (main.py lines 1626-1772): the nine facet
blocks applied in source order. -/
def mapFixedResultsToFSD (results : List (String × Json)) (doc : FSDDocument) :
    Except PyErr FSDDocument := do
  let doc ← mapBasicInfo results doc
  let doc ← mapSelectionScreen results doc
  let doc ← mapFieldMappings results doc
  let doc ← mapValidDatasets results doc
  let doc ← mapLookupForms results doc
  let doc ← mapErrorScenarios results doc
  let doc ← mapTestScenarios results doc
  let doc ← mapValidationRules results doc
  mapAuthorization results doc

@[simp] theorem exceptBind_ok {α β ε : Type} (a : α) (f : α → Except ε β) :
    (Except.ok a >>= f) = f a := rfl

@[simp] theorem exceptBind_err {α β ε : Type} (e : ε) (f : α → Except ε β) :
    ((Except.error e : Except ε α) >>= f) = .error e := rfl

@[simp] theorem exceptPure_eq {α ε : Type} (a : α) :
    (pure a : Except ε α) = .ok a := rfl

/-! ## `dataclass_to_dict` (main.py lines 149-166) on an `FSDDocument`

`asdict` walks the dataclass in field-declaration order; enums are replaced
by their `.value`, nested dataclasses and dicts become dicts, lists stay
lists.  Nothing in an `FSDDocument` hits the string fallback. -/

def selectionParameterToJson (p : SelectionParameter) : Json :=
  .obj [("name", .str p.name), ("type", .str p.type),
        ("description", .str p.description), ("is_mandatory", .bool p.is_mandatory),
        ("is_select_option", .bool p.is_select_option),
        ("has_no_intervals", .bool p.has_no_intervals),
        ("default_value", .str p.default_value)]

def fieldMappingToJson (f : FieldMapping) : Json :=
  .obj [("display_name", .str f.display_name),
        ("technical_field", .str f.technical_field),
        ("source_table", .str f.source_table),
        ("processing_logic", .str f.processing_logic),
        ("processing_type", .str f.processing_type.value),
        ("join_condition", .str f.join_condition),
        ("where_condition", .str f.where_condition)]

def errorScenarioToJson (e : ErrorScenario) : Json :=
  .obj [("error_description", .str e.error_description), ("resolution", .str e.resolution),
        ("error_code", .str e.error_code), ("severity", .str e.severity)]

def testScenarioToJson (t : TestScenario) : Json :=
  .obj [("condition", .str t.condition), ("expected_result", .str t.expected_result),
        ("test_data", .str t.test_data), ("priority", .str t.priority)]

def dataConditionRowToJson (r : DataConditionRow) : Json :=
  .obj [("data", .str r.data), ("condition", .str r.condition)]

def reviewerToJson (r : Reviewer) : Json :=
  .obj [("role", .str r.role), ("name", .str r.name)]

def versionEntryToJson (v : VersionEntry) : Json :=
  .obj [("version", .str v.version), ("change", .str v.change),
        ("author", .str v.author), ("date", .str v.date)]

/-- The JSON dump of a document, fields in declaration order. -/
def fsdDocumentToJson (d : FSDDocument) : Json :=
  .obj [("project_name", .str d.project_name),
        ("document_location", .str d.document_location),
        ("related_documents", .arr (d.related_documents.map Json.str)),
        ("reviewers", .arr (d.reviewers.map reviewerToJson)),
        ("version_history", .arr (d.version_history.map versionEntryToJson)),
        ("user_requirements", .str d.user_requirements),
        ("assumptions", .arr (d.assumptions.map Json.str)),
        ("program_name", .str d.program_name),
        ("transaction_code", .str d.transaction_code),
        ("menu_path", .str d.menu_path),
        ("report_description", .str d.report_description),
        ("desain_report_description", .str d.desain_report_description),
        ("selection_parameters", .arr (d.selection_parameters.map selectionParameterToJson)),
        ("field_mappings", .arr (d.field_mappings.map fieldMappingToJson)),
        ("validation_rules", .arr (d.validation_rules.map Json.str)),
        ("valid_dataset_rules", .arr (d.valid_dataset_rules.map dataConditionRowToJson)),
        ("country_info", .arr (d.country_info.map dataConditionRowToJson)),
        ("currency_t500c", .arr (d.currency_t500c.map dataConditionRowToJson)),
        ("currency_t001", .arr (d.currency_t001.map dataConditionRowToJson)),
        ("authorization_objects", .arr (d.authorization_objects.map Json.str)),
        ("user_roles", .arr (d.user_roles.map Json.str)),
        ("constraints", .arr (d.constraints.map Json.str)),
        ("dependencies", .arr (d.dependencies.map Json.str)),
        ("error_scenarios", .arr (d.error_scenarios.map errorScenarioToJson)),
        ("test_scenarios", .arr (d.test_scenarios.map testScenarioToJson)),
        ("test_data_location", .str d.test_data_location),
        ("design_changes", .arr (d.design_changes.map Json.str))]

/-! ## Well-typedness of task results

The shapes under which the Python merge runs without raising and the strict
embedding coincides with it exactly: facet values are dicts, list-valued
keys hold lists of dicts, and slots read into `str` fields hold strings.
Boolean slots and the `processing_type` slot are unconstrained except that
`processing_type` must be hashable (not a list/dict) for the `ValueError`
catch to apply. -/

def analysisTaskNames : List String :=
  ["basic_info", "selection_screen", "complete_field_mappings",
   "complete_valid_datasets", "complete_lookup_forms", "error_handling",
   "test_scenarios", "validation_rules", "authorization"]

def isStrJson : Json → Bool
  | .str _ => true
  | _ => false

def strOk (o : List (String × Json)) (k : String) : Bool :=
  match jObjLookup o k with
  | none => true
  | some v => isStrJson v

def strListOk : Json → Bool
  | .arr l => l.all isStrJson
  | _ => false

def strListKeyOk (o : List (String × Json)) (k : String) : Bool :=
  match jObjLookup o k with
  | none => true
  | some v => strListOk v

def listKeyOk (o : List (String × Json)) (k : String) (entryOk : Json → Bool) : Bool :=
  match jObjLookup o k with
  | none => true
  | some (.arr l) => l.all entryOk
  | some _ => false

def selEntryOk : Json → Bool
  | .obj o => strOk o "name" && strOk o "type" && strOk o "description"
      && strOk o "default_value"
  | _ => false

/-- Hashable (so that `FieldProcessingType(x)` raises at most `ValueError`). -/
def hashableJson : Json → Bool
  | .arr _ => false
  | .obj _ => false
  | _ => true

def fmEntryOk : Json → Bool
  | .obj o => strOk o "display_name" && strOk o "technical_field"
      && strOk o "source_table" && strOk o "processing_logic"
      && strOk o "join_condition" && strOk o "where_condition"
      && (match jObjLookup o "processing_type" with
          | none => true
          | some v => hashableJson v)
  | _ => false

def dcEntryOk : Json → Bool
  | .obj o => strOk o "data" && strOk o "condition"
  | _ => false

def lookupEntryOk : Json → Bool
  | .obj o => strOk o "condition" && strListKeyOk o "target_fields"
  | _ => false

def errEntryOk : Json → Bool
  | .obj o => strOk o "error_description" && strOk o "resolution"
      && strOk o "error_code" && strOk o "severity"
  | _ => false

def testEntryOk : Json → Bool
  | .obj o => strOk o "condition" && strOk o "expected_result"
      && strOk o "test_data" && strOk o "priority"
  | _ => false

def facetWellTyped (task : String) : Json → Bool
  | .obj o =>
    if task = "basic_info" then
      strOk o "program_name" && strOk o "report_description"
        && strOk o "desain_report_description" && strOk o "user_requirements"
        && strListKeyOk o "assumptions" && strOk o "transaction_code"
        && strOk o "menu_path" && strOk o "ricefw_id" && strOk o "created_date"
        && strOk o "created_by" && strOk o "functional_contact"
    else if task = "selection_screen" then
      listKeyOk o "selection_parameters" selEntryOk
    else if task = "complete_field_mappings" then
      listKeyOk o "field_mappings" fmEntryOk
    else if task = "complete_valid_datasets" then
      listKeyOk o "valid_dataset_rules" dcEntryOk
    else if task = "complete_lookup_forms" then
      listKeyOk o "company_code_lookup" lookupEntryOk
        && listKeyOk o "business_area_lookup" lookupEntryOk
        && listKeyOk o "wage_type_lookup" lookupEntryOk
        && listKeyOk o "payroll_reason_lookup" lookupEntryOk
    else if task = "error_handling" then
      listKeyOk o "error_scenarios" errEntryOk
    else if task = "test_scenarios" then
      listKeyOk o "test_scenarios" testEntryOk
    else if task = "validation_rules" then
      strListKeyOk o "validation_rules"
    else if task = "authorization" then
      strListKeyOk o "authorization_objects" && strListKeyOk o "user_roles"
    else true
  | _ => false

def resultsWellTyped (results : List (String × Json)) : Bool :=
  results.all (fun kv =>
    if kv.1 ∈ analysisTaskNames then facetWellTyped kv.1 kv.2 else true)

/-! ## Success lemmas for the merge under well-typed inputs -/

theorem lookup_facetWellTyped {results : List (String × Json)}
    (h : resultsWellTyped results = true) {t : String} {v : Json}
    (ht : t ∈ analysisTaskNames) (hv : jObjLookup results t = some v) :
    facetWellTyped t v = true := by
  unfold jObjLookup at hv
  obtain ⟨kv, hfind, hv2⟩ := Option.map_eq_some'.mp hv
  have hmem := List.mem_of_find?_eq_some hfind
  have hkey := List.find?_some hfind
  simp only [decide_eq_true_eq] at hkey
  have hall := List.all_eq_true.mp h kv hmem
  rw [hkey] at hall
  simp only [ht, if_pos] at hall
  rw [← hv2]
  exact hall

theorem jGetStr_ok {o : List (String × Json)} {k : String}
    (h : strOk o k = true) (d : String) :
    ∃ s, jGetStr (.obj o) k d = .ok s := by
  unfold strOk at h
  unfold jGetStr jGetD
  cases hv : jObjLookup o k with
  | none => exact ⟨d, by simp [hv, jAsStr]⟩
  | some v =>
    rw [hv] at h
    cases v with
    | str s => exact ⟨s, by simp [hv, jAsStr]⟩
    | null => simp [isStrJson] at h
    | bool b => simp [isStrJson] at h
    | num n => simp [isStrJson] at h
    | arr l => simp [isStrJson] at h
    | obj l => simp [isStrJson] at h

theorem jAsStrList_ok {j : Json} (h : strListOk j = true) :
    ∃ l, jAsStrList j = .ok l := by
  cases j with
  | arr elems =>
    unfold jAsStrList jIter
    simp only [exceptBind_ok]
    unfold strListOk at h
    induction elems with
    | nil => exact ⟨[], rfl⟩
    | cons e rest ih =>
      simp only [List.all_cons, Bool.and_eq_true] at h
      obtain ⟨l', hl'⟩ := ih h.2
      cases e with
      | str s =>
        refine ⟨s :: l', ?_⟩
        rw [List.mapM_cons, show jAsStr (.str s) = .ok s from rfl, hl']
        rfl
      | null => simp [isStrJson] at h
      | bool b => simp [isStrJson] at h
      | num n => simp [isStrJson] at h
      | arr l2 => simp [isStrJson] at h
      | obj l2 => simp [isStrJson] at h
  | null => simp [strListOk] at h
  | bool b => simp [strListOk] at h
  | num n => simp [strListOk] at h
  | str s => simp [strListOk] at h
  | obj l => simp [strListOk] at h

theorem jGetStrList_ok {o : List (String × Json)} {k : String}
    (h : strListKeyOk o k = true) (d : List Json) (hd : strListOk (.arr d) = true) :
    ∃ v ls, jGetD (.obj o) k (.arr d) = .ok v ∧ jAsStrList v = .ok ls := by
  unfold strListKeyOk at h
  unfold jGetD
  cases hv : jObjLookup o k with
  | none =>
    obtain ⟨ls, hls⟩ := jAsStrList_ok hd
    exact ⟨.arr d, ls, by simp [hv], hls⟩
  | some v =>
    rw [hv] at h
    obtain ⟨ls, hls⟩ := jAsStrList_ok h
    exact ⟨v, ls, by simp [hv], hls⟩

theorem mapM_ok_of_all {α β ε : Type} {l : List α} {f : α → Except ε β}
    (h : ∀ e ∈ l, ∃ y, f e = .ok y) : ∃ ys, l.mapM f = .ok ys := by
  induction l with
  | nil => exact ⟨[], rfl⟩
  | cons e rest ih =>
    obtain ⟨y, hy⟩ := h e (List.mem_cons_self e rest)
    obtain ⟨ys, hys⟩ := ih (fun x hx => h x (List.mem_cons_of_mem e hx))
    refine ⟨y :: ys, ?_⟩
    rw [List.mapM_cons, hy, hys]
    rfl

theorem mapM_get {α β ε : Type} {l : List α} {f : α → Except ε β} {ys : List β} :
    l.mapM f = .ok ys → ∀ (i : Nat) (e : α), l.get? i = some e →
      ∃ y, ys.get? i = some y ∧ f e = .ok y := by
  induction l generalizing ys with
  | nil => intro _ i e he; simp at he
  | cons a rest ih =>
    intro h i e he
    rw [List.mapM_cons] at h
    cases ha : f a with
    | error err => rw [ha] at h; simp at h
    | ok y =>
      rw [ha] at h
      simp only [exceptBind_ok] at h
      cases hrest : rest.mapM f with
      | error err => rw [hrest] at h; simp [bind, Except.bind] at h
      | ok ys' =>
        rw [hrest] at h
        simp only [exceptBind_ok, exceptPure_eq, Except.ok.injEq] at h
        subst h
        cases i with
        | zero =>
          simp only [List.get?_cons_zero, Option.some_inj] at he
          subst he
          exact ⟨y, by simp, ha⟩
        | succ n =>
          simp only [List.get?_cons_succ] at he
          obtain ⟨y', hy', hf⟩ := ih hrest n e he
          exact ⟨y', by simpa using hy', hf⟩

theorem parseSelectionParameter_ok {p : Json} (h : selEntryOk p = true) :
    ∃ sp, parseSelectionParameter p = .ok sp := by
  cases p with
  | obj o =>
    simp only [selEntryOk, Bool.and_eq_true] at h
    obtain ⟨⟨⟨h1, h2⟩, h3⟩, h4⟩ := h
    obtain ⟨s1, e1⟩ := jGetStr_ok h1 ""
    obtain ⟨s2, e2⟩ := jGetStr_ok h2 ""
    obtain ⟨s3, e3⟩ := jGetStr_ok h3 ""
    obtain ⟨s4, e4⟩ := jGetStr_ok h4 ""
    cases hE : parseSelectionParameter (.obj o) with
    | ok sp => exact ⟨sp, rfl⟩
    | error err =>
      unfold parseSelectionParameter at hE
      simp only [e1, e2, e3, e4, exceptBind_ok, exceptPure_eq, jGetD] at hE
      exact Except.noConfusion hE
  | null => simp [selEntryOk] at h
  | bool b => simp [selEntryOk] at h
  | num n => simp [selEntryOk] at h
  | str s => simp [selEntryOk] at h
  | arr l => simp [selEntryOk] at h

theorem coerceProcessingType_ok {j : Json} (h : hashableJson j = true) :
    ∃ t, coerceProcessingType j = .ok t := by
  unfold coerceProcessingType fieldProcessingTypeInit
  cases j with
  | str s =>
    by_cases h1 : s = "DIRECT"
    · subst h1; exact ⟨.DIRECT, rfl⟩
    · by_cases h2 : s = "LOOKUP"
      · subst h2; exact ⟨.LOOKUP, rfl⟩
      · by_cases h3 : s = "CALCULATION"
        · subst h3; exact ⟨.CALCULATION, rfl⟩
        · by_cases h4 : s = "CONSTANT"
          · subst h4; exact ⟨.CONSTANT, rfl⟩
          · by_cases h5 : s = "AGGREGATION"
            · subst h5; exact ⟨.AGGREGATION, rfl⟩
            · refine ⟨.DIRECT, ?_⟩
              simp [h1, h2, h3, h4, h5]
  | null => exact ⟨.DIRECT, rfl⟩
  | bool b => exact ⟨.DIRECT, rfl⟩
  | num n => exact ⟨.DIRECT, rfl⟩
  | arr l => simp [hashableJson] at h
  | obj o => simp [hashableJson] at h

theorem parseFieldMapping_ok {f : Json} (h : fmEntryOk f = true) :
    ∃ fm, parseFieldMapping f = .ok fm := by
  cases f with
  | obj o =>
    simp only [fmEntryOk, Bool.and_eq_true] at h
    obtain ⟨⟨⟨⟨⟨⟨h1, h2⟩, h3⟩, h4⟩, h5⟩, h6⟩, h7⟩ := h
    obtain ⟨s1, e1⟩ := jGetStr_ok h1 ""
    obtain ⟨s2, e2⟩ := jGetStr_ok h2 ""
    obtain ⟨s3, e3⟩ := jGetStr_ok h3 ""
    obtain ⟨s4, e4⟩ := jGetStr_ok h4 ""
    obtain ⟨s5, e5⟩ := jGetStr_ok h5 ""
    obtain ⟨s6, e6⟩ := jGetStr_ok h6 ""
    have hpt : ∃ v t, jGetD (.obj o) "processing_type" (.str "DIRECT") = .ok v ∧
        coerceProcessingType v = .ok t := by
      unfold jGetD
      cases hv : jObjLookup o "processing_type" with
      | none =>
        exact ⟨.str "DIRECT", .DIRECT, by simp [hv], rfl⟩
      | some v =>
        rw [hv] at h7
        obtain ⟨t, ht⟩ := coerceProcessingType_ok h7
        exact ⟨v, t, by simp [hv], ht⟩
    obtain ⟨v, t, ev, et⟩ := hpt
    cases hE : parseFieldMapping (.obj o) with
    | ok fm => exact ⟨fm, rfl⟩
    | error err =>
      unfold parseFieldMapping at hE
      simp only [ev, et, e1, e2, e3, e4, e5, e6, exceptBind_ok, exceptPure_eq] at hE
      exact Except.noConfusion hE
  | null => simp [fmEntryOk] at h
  | bool b => simp [fmEntryOk] at h
  | num n => simp [fmEntryOk] at h
  | str s => simp [fmEntryOk] at h
  | arr l => simp [fmEntryOk] at h

theorem parseDatasetRule_ok {r : Json} (h : dcEntryOk r = true) :
    ∃ row, parseDatasetRule r = .ok row := by
  cases r with
  | obj o =>
    simp only [dcEntryOk, Bool.and_eq_true] at h
    obtain ⟨s1, e1⟩ := jGetStr_ok h.1 ""
    obtain ⟨s2, e2⟩ := jGetStr_ok h.2 ""
    cases hE : parseDatasetRule (.obj o) with
    | ok row => exact ⟨row, rfl⟩
    | error err =>
      unfold parseDatasetRule at hE
      simp only [e1, e2, exceptBind_ok, exceptPure_eq] at hE
      exact Except.noConfusion hE
  | null => simp [dcEntryOk] at h
  | bool b => simp [dcEntryOk] at h
  | num n => simp [dcEntryOk] at h
  | str s => simp [dcEntryOk] at h
  | arr l => simp [dcEntryOk] at h

theorem parseLookupRule_ok {r : Json} (h : lookupEntryOk r = true) (df : String) :
    ∃ row, parseLookupRule df r = .ok row := by
  cases r with
  | obj o =>
    simp only [lookupEntryOk, Bool.and_eq_true] at h
    obtain ⟨s1, e1⟩ := jGetStr_ok h.1 ""
    obtain ⟨v, ls, ev, els⟩ := jGetStrList_ok h.2 [.str df] (by simp [strListOk, isStrJson])
    cases hE : parseLookupRule df (.obj o) with
    | ok row => exact ⟨row, rfl⟩
    | error err =>
      unfold parseLookupRule at hE
      simp only [e1, ev, els, exceptBind_ok, exceptPure_eq] at hE
      exact Except.noConfusion hE
  | null => simp [lookupEntryOk] at h
  | bool b => simp [lookupEntryOk] at h
  | num n => simp [lookupEntryOk] at h
  | str s => simp [lookupEntryOk] at h
  | arr l => simp [lookupEntryOk] at h

theorem parseErrorScenario_ok {e : Json} (h : errEntryOk e = true) :
    ∃ es, parseErrorScenario e = .ok es := by
  cases e with
  | obj o =>
    simp only [errEntryOk, Bool.and_eq_true] at h
    obtain ⟨⟨⟨h1, h2⟩, h3⟩, h4⟩ := h
    obtain ⟨s1, e1⟩ := jGetStr_ok h1 ""
    obtain ⟨s2, e2⟩ := jGetStr_ok h2 ""
    obtain ⟨s3, e3⟩ := jGetStr_ok h3 ""
    obtain ⟨s4, e4⟩ := jGetStr_ok h4 "ERROR"
    cases hE : parseErrorScenario (.obj o) with
    | ok es => exact ⟨es, rfl⟩
    | error err =>
      unfold parseErrorScenario at hE
      simp only [e1, e2, e3, e4, exceptBind_ok, exceptPure_eq] at hE
      exact Except.noConfusion hE
  | null => simp [errEntryOk] at h
  | bool b => simp [errEntryOk] at h
  | num n => simp [errEntryOk] at h
  | str s => simp [errEntryOk] at h
  | arr l => simp [errEntryOk] at h

theorem parseTestScenario_ok {t : Json} (h : testEntryOk t = true) :
    ∃ ts, parseTestScenario t = .ok ts := by
  cases t with
  | obj o =>
    simp only [testEntryOk, Bool.and_eq_true] at h
    obtain ⟨⟨⟨h1, h2⟩, h3⟩, h4⟩ := h
    obtain ⟨s1, e1⟩ := jGetStr_ok h1 ""
    obtain ⟨s2, e2⟩ := jGetStr_ok h2 ""
    obtain ⟨s3, e3⟩ := jGetStr_ok h3 ""
    obtain ⟨s4, e4⟩ := jGetStr_ok h4 "HIGH"
    cases hE : parseTestScenario (.obj o) with
    | ok ts => exact ⟨ts, rfl⟩
    | error err =>
      unfold parseTestScenario at hE
      simp only [e1, e2, e3, e4, exceptBind_ok, exceptPure_eq] at hE
      exact Except.noConfusion hE
  | null => simp [testEntryOk] at h
  | bool b => simp [testEntryOk] at h
  | num n => simp [testEntryOk] at h
  | str s => simp [testEntryOk] at h
  | arr l => simp [testEntryOk] at h

/-- The JSON entry list a task's list-valued key will feed into the merge
(empty when the facet or the key is absent). -/
def listEntriesOf (results : List (String × Json)) (task key : String) : List Json :=
  match jObjLookup results task with
  | some (.obj o) =>
    match jObjLookup o key with
    | some (.arr l) => l
    | _ => []
  | _ => []

theorem mapSelectionScreen_spec (results : List (String × Json)) (doc : FSDDocument)
    (hw : resultsWellTyped results = true) :
    ∃ ps, (listEntriesOf results "selection_screen" "selection_parameters").mapM
        parseSelectionParameter = .ok ps ∧
      mapSelectionScreen results doc =
        .ok { doc with selection_parameters := doc.selection_parameters ++ ps } := by
  cases hf : jObjLookup results "selection_screen" with
  | none =>
    refine ⟨[], by simp only [listEntriesOf, hf]; rfl, ?_⟩
    unfold mapSelectionScreen
    rw [hf]
    simp only [Option.getD_none, jTruthy, List.isEmpty_nil, Bool.not_true,
      Bool.false_eq_true, if_false, List.append_nil]
    rfl
  | some v =>
    have hft := lookup_facetWellTyped hw (by decide) hf
    cases v with
    | obj o =>
      have hk : listKeyOk o "selection_parameters" selEntryOk = true := by
        simpa [facetWellTyped] using hft
      cases o with
      | nil =>
        refine ⟨[], by simp only [listEntriesOf, hf]; rfl, ?_⟩
        unfold mapSelectionScreen
        rw [hf]
        simp only [Option.getD_some, jTruthy, List.isEmpty_nil, Bool.not_true,
          Bool.false_eq_true, if_false, List.append_nil]
        rfl
      | cons kv o' =>
        unfold listKeyOk at hk
        cases hv2 : jObjLookup (kv :: o') "selection_parameters" with
        | none =>
          refine ⟨[], by simp only [listEntriesOf, hf, hv2]; rfl, ?_⟩
          unfold mapSelectionScreen
          rw [hf]
          simp only [Option.getD_some, jTruthy, List.isEmpty_cons, Bool.not_false,
            if_true, jGetD, hv2, Option.getD_none, exceptBind_ok, jIter]
          show Except.ok _ = _
          simp only [List.reverse_nil, List.append_nil]
        | some w =>
          rw [hv2] at hk
          cases w with
          | arr l =>
            obtain ⟨ps, hps⟩ := mapM_ok_of_all
              (fun e he => parseSelectionParameter_ok (List.all_eq_true.mp hk e he))
            refine ⟨ps, by simp only [listEntriesOf, hf, hv2]; exact hps, ?_⟩
            unfold mapSelectionScreen
            rw [hf]
            simp only [Option.getD_some, jTruthy, List.isEmpty_cons, Bool.not_false,
              if_true, jGetD, hv2, exceptBind_ok, jIter]
            rw [hps]
            rfl
          | null => simp at hk
          | bool b => simp at hk
          | num n => simp at hk
          | str s => simp at hk
          | obj l => simp at hk
    | null => simp [facetWellTyped] at hft
    | bool b => simp [facetWellTyped] at hft
    | num n => simp [facetWellTyped] at hft
    | str s => simp [facetWellTyped] at hft
    | arr l => simp [facetWellTyped] at hft

theorem mapFieldMappings_spec (results : List (String × Json)) (doc : FSDDocument)
    (hw : resultsWellTyped results = true) :
    ∃ ps, (listEntriesOf results "complete_field_mappings" "field_mappings").mapM
        parseFieldMapping = .ok ps ∧
      mapFieldMappings results doc =
        .ok { doc with field_mappings := doc.field_mappings ++ ps } := by
  cases hf : jObjLookup results "complete_field_mappings" with
  | none =>
    refine ⟨[], by simp only [listEntriesOf, hf]; rfl, ?_⟩
    unfold mapFieldMappings
    rw [hf]
    simp only [Option.getD_none, jTruthy, List.isEmpty_nil, Bool.not_true,
      Bool.false_eq_true, if_false, List.append_nil]
    rfl
  | some v =>
    have hft := lookup_facetWellTyped hw (by decide) hf
    cases v with
    | obj o =>
      have hk : listKeyOk o "field_mappings" fmEntryOk = true := by
        simpa [facetWellTyped] using hft
      cases o with
      | nil =>
        refine ⟨[], by simp only [listEntriesOf, hf]; rfl, ?_⟩
        unfold mapFieldMappings
        rw [hf]
        simp only [Option.getD_some, jTruthy, List.isEmpty_nil, Bool.not_true,
          Bool.false_eq_true, if_false, List.append_nil]
        rfl
      | cons kv o' =>
        unfold listKeyOk at hk
        cases hv2 : jObjLookup (kv :: o') "field_mappings" with
        | none =>
          refine ⟨[], by simp only [listEntriesOf, hf, hv2]; rfl, ?_⟩
          unfold mapFieldMappings
          rw [hf]
          simp only [Option.getD_some, jTruthy, List.isEmpty_cons, Bool.not_false,
            if_true, jGetD, hv2, Option.getD_none, exceptBind_ok, jIter]
          show Except.ok _ = _
          simp only [List.reverse_nil, List.append_nil]
        | some w =>
          rw [hv2] at hk
          cases w with
          | arr l =>
            obtain ⟨ps, hps⟩ := mapM_ok_of_all
              (fun e he => parseFieldMapping_ok (List.all_eq_true.mp hk e he))
            refine ⟨ps, by simp only [listEntriesOf, hf, hv2]; exact hps, ?_⟩
            unfold mapFieldMappings
            rw [hf]
            simp only [Option.getD_some, jTruthy, List.isEmpty_cons, Bool.not_false,
              if_true, jGetD, hv2, exceptBind_ok, jIter]
            rw [hps]
            rfl
          | null => simp at hk
          | bool b => simp at hk
          | num n => simp at hk
          | str s => simp at hk
          | obj l => simp at hk
    | null => simp [facetWellTyped] at hft
    | bool b => simp [facetWellTyped] at hft
    | num n => simp [facetWellTyped] at hft
    | str s => simp [facetWellTyped] at hft
    | arr l => simp [facetWellTyped] at hft

theorem mapValidDatasets_spec (results : List (String × Json)) (doc : FSDDocument)
    (hw : resultsWellTyped results = true) :
    ∃ ps, (listEntriesOf results "complete_valid_datasets" "valid_dataset_rules").mapM
        parseDatasetRule = .ok ps ∧
      mapValidDatasets results doc =
        .ok { doc with valid_dataset_rules := doc.valid_dataset_rules ++ ps } := by
  cases hf : jObjLookup results "complete_valid_datasets" with
  | none =>
    refine ⟨[], by simp only [listEntriesOf, hf]; rfl, ?_⟩
    unfold mapValidDatasets
    rw [hf]
    simp only [Option.getD_none, jTruthy, List.isEmpty_nil, Bool.not_true,
      Bool.false_eq_true, if_false, List.append_nil]
    rfl
  | some v =>
    have hft := lookup_facetWellTyped hw (by decide) hf
    cases v with
    | obj o =>
      have hk : listKeyOk o "valid_dataset_rules" dcEntryOk = true := by
        simpa [facetWellTyped] using hft
      cases o with
      | nil =>
        refine ⟨[], by simp only [listEntriesOf, hf]; rfl, ?_⟩
        unfold mapValidDatasets
        rw [hf]
        simp only [Option.getD_some, jTruthy, List.isEmpty_nil, Bool.not_true,
          Bool.false_eq_true, if_false, List.append_nil]
        rfl
      | cons kv o' =>
        unfold listKeyOk at hk
        cases hv2 : jObjLookup (kv :: o') "valid_dataset_rules" with
        | none =>
          refine ⟨[], by simp only [listEntriesOf, hf, hv2]; rfl, ?_⟩
          unfold mapValidDatasets
          rw [hf]
          simp only [Option.getD_some, jTruthy, List.isEmpty_cons, Bool.not_false,
            if_true, jGetD, hv2, Option.getD_none, exceptBind_ok, jIter]
          show Except.ok _ = _
          simp only [List.reverse_nil, List.append_nil]
        | some w =>
          rw [hv2] at hk
          cases w with
          | arr l =>
            obtain ⟨ps, hps⟩ := mapM_ok_of_all
              (fun e he => parseDatasetRule_ok (List.all_eq_true.mp hk e he))
            refine ⟨ps, by simp only [listEntriesOf, hf, hv2]; exact hps, ?_⟩
            unfold mapValidDatasets
            rw [hf]
            simp only [Option.getD_some, jTruthy, List.isEmpty_cons, Bool.not_false,
              if_true, jGetD, hv2, exceptBind_ok, jIter]
            rw [hps]
            rfl
          | null => simp at hk
          | bool b => simp at hk
          | num n => simp at hk
          | str s => simp at hk
          | obj l => simp at hk
    | null => simp [facetWellTyped] at hft
    | bool b => simp [facetWellTyped] at hft
    | num n => simp [facetWellTyped] at hft
    | str s => simp [facetWellTyped] at hft
    | arr l => simp [facetWellTyped] at hft

theorem mapErrorScenarios_spec (results : List (String × Json)) (doc : FSDDocument)
    (hw : resultsWellTyped results = true) :
    ∃ ps, (listEntriesOf results "error_handling" "error_scenarios").mapM
        parseErrorScenario = .ok ps ∧
      mapErrorScenarios results doc =
        .ok { doc with error_scenarios := doc.error_scenarios ++ ps } := by
  cases hf : jObjLookup results "error_handling" with
  | none =>
    refine ⟨[], by simp only [listEntriesOf, hf]; rfl, ?_⟩
    unfold mapErrorScenarios
    rw [hf]
    simp only [Option.getD_none, jTruthy, List.isEmpty_nil, Bool.not_true,
      Bool.false_eq_true, if_false, List.append_nil]
    rfl
  | some v =>
    have hft := lookup_facetWellTyped hw (by decide) hf
    cases v with
    | obj o =>
      have hk : listKeyOk o "error_scenarios" errEntryOk = true := by
        simpa [facetWellTyped] using hft
      cases o with
      | nil =>
        refine ⟨[], by simp only [listEntriesOf, hf]; rfl, ?_⟩
        unfold mapErrorScenarios
        rw [hf]
        simp only [Option.getD_some, jTruthy, List.isEmpty_nil, Bool.not_true,
          Bool.false_eq_true, if_false, List.append_nil]
        rfl
      | cons kv o' =>
        unfold listKeyOk at hk
        cases hv2 : jObjLookup (kv :: o') "error_scenarios" with
        | none =>
          refine ⟨[], by simp only [listEntriesOf, hf, hv2]; rfl, ?_⟩
          unfold mapErrorScenarios
          rw [hf]
          simp only [Option.getD_some, jTruthy, List.isEmpty_cons, Bool.not_false,
            if_true, jGetD, hv2, Option.getD_none, exceptBind_ok, jIter]
          show Except.ok _ = _
          simp only [List.reverse_nil, List.append_nil]
        | some w =>
          rw [hv2] at hk
          cases w with
          | arr l =>
            obtain ⟨ps, hps⟩ := mapM_ok_of_all
              (fun e he => parseErrorScenario_ok (List.all_eq_true.mp hk e he))
            refine ⟨ps, by simp only [listEntriesOf, hf, hv2]; exact hps, ?_⟩
            unfold mapErrorScenarios
            rw [hf]
            simp only [Option.getD_some, jTruthy, List.isEmpty_cons, Bool.not_false,
              if_true, jGetD, hv2, exceptBind_ok, jIter]
            rw [hps]
            rfl
          | null => simp at hk
          | bool b => simp at hk
          | num n => simp at hk
          | str s => simp at hk
          | obj l => simp at hk
    | null => simp [facetWellTyped] at hft
    | bool b => simp [facetWellTyped] at hft
    | num n => simp [facetWellTyped] at hft
    | str s => simp [facetWellTyped] at hft
    | arr l => simp [facetWellTyped] at hft

theorem mapTestScenarios_spec (results : List (String × Json)) (doc : FSDDocument)
    (hw : resultsWellTyped results = true) :
    ∃ ps, (listEntriesOf results "test_scenarios" "test_scenarios").mapM
        parseTestScenario = .ok ps ∧
      mapTestScenarios results doc =
        .ok { doc with test_scenarios := doc.test_scenarios ++ ps } := by
  cases hf : jObjLookup results "test_scenarios" with
  | none =>
    refine ⟨[], by simp only [listEntriesOf, hf]; rfl, ?_⟩
    unfold mapTestScenarios
    rw [hf]
    simp only [Option.getD_none, jTruthy, List.isEmpty_nil, Bool.not_true,
      Bool.false_eq_true, if_false, List.append_nil]
    rfl
  | some v =>
    have hft := lookup_facetWellTyped hw (by decide) hf
    cases v with
    | obj o =>
      have hk : listKeyOk o "test_scenarios" testEntryOk = true := by
        simpa [facetWellTyped] using hft
      cases o with
      | nil =>
        refine ⟨[], by simp only [listEntriesOf, hf]; rfl, ?_⟩
        unfold mapTestScenarios
        rw [hf]
        simp only [Option.getD_some, jTruthy, List.isEmpty_nil, Bool.not_true,
          Bool.false_eq_true, if_false, List.append_nil]
        rfl
      | cons kv o' =>
        unfold listKeyOk at hk
        cases hv2 : jObjLookup (kv :: o') "test_scenarios" with
        | none =>
          refine ⟨[], by simp only [listEntriesOf, hf, hv2]; rfl, ?_⟩
          unfold mapTestScenarios
          rw [hf]
          simp only [Option.getD_some, jTruthy, List.isEmpty_cons, Bool.not_false,
            if_true, jGetD, hv2, Option.getD_none, exceptBind_ok, jIter]
          show Except.ok _ = _
          simp only [List.reverse_nil, List.append_nil]
        | some w =>
          rw [hv2] at hk
          cases w with
          | arr l =>
            obtain ⟨ps, hps⟩ := mapM_ok_of_all
              (fun e he => parseTestScenario_ok (List.all_eq_true.mp hk e he))
            refine ⟨ps, by simp only [listEntriesOf, hf, hv2]; exact hps, ?_⟩
            unfold mapTestScenarios
            rw [hf]
            simp only [Option.getD_some, jTruthy, List.isEmpty_cons, Bool.not_false,
              if_true, jGetD, hv2, exceptBind_ok, jIter]
            rw [hps]
            rfl
          | null => simp at hk
          | bool b => simp at hk
          | num n => simp at hk
          | str s => simp at hk
          | obj l => simp at hk
    | null => simp [facetWellTyped] at hft
    | bool b => simp [facetWellTyped] at hft
    | num n => simp [facetWellTyped] at hft
    | str s => simp [facetWellTyped] at hft
    | arr l => simp [facetWellTyped] at hft

/-- The JSON entry list under one key of a facet object. -/
def keyEntries (o : List (String × Json)) (key : String) : List Json :=
  match jObjLookup o key with
  | some (.arr l) => l
  | _ => []

theorem strListSegment_ok {o : List (String × Json)} {key : String}
    (hk : strListKeyOk o key = true) :
    ∃ ls, jGetD (.obj o) key (.arr []) = .ok (.arr (keyEntries o key)) ∧
      jAsStrList (.arr (keyEntries o key)) = .ok ls := by
  unfold strListKeyOk at hk
  unfold keyEntries jGetD
  cases hv : jObjLookup o key with
  | none => exact ⟨[], by simp [hv], rfl⟩
  | some v =>
    rw [hv] at hk
    cases v with
    | arr l =>
      obtain ⟨ls, hls⟩ := jAsStrList_ok hk
      exact ⟨ls, by simp [hv], hls⟩
    | null => simp [strListOk] at hk
    | bool b => simp [strListOk] at hk
    | num n => simp [strListOk] at hk
    | str s => simp [strListOk] at hk
    | obj l => simp [strListOk] at hk

theorem listSegment_ok {o : List (String × Json)} {key : String}
    {entryOk : Json → Bool} {α : Type} {parse : Json → Except PyErr α}
    (hk : listKeyOk o key entryOk = true)
    (hparse : ∀ e, entryOk e = true → ∃ y, parse e = .ok y) :
    ∃ ys, jGetD (.obj o) key (.arr []) = .ok (.arr (keyEntries o key)) ∧
      (keyEntries o key).mapM parse = .ok ys := by
  unfold listKeyOk at hk
  unfold keyEntries jGetD
  cases hv : jObjLookup o key with
  | none => exact ⟨[], by simp [hv], rfl⟩
  | some v =>
    rw [hv] at hk
    cases v with
    | arr l =>
      obtain ⟨ys, hys⟩ := mapM_ok_of_all
        (fun e he => hparse e (List.all_eq_true.mp hk e he))
      exact ⟨ys, by simp [hv], hys⟩
    | null => simp at hk
    | bool b => simp at hk
    | num n => simp at hk
    | str s => simp at hk
    | obj l => simp at hk

theorem mapValidationRules_spec (results : List (String × Json)) (doc : FSDDocument)
    (hw : resultsWellTyped results = true) :
    ∃ vs, jAsStrList (.arr (listEntriesOf results "validation_rules" "validation_rules"))
        = .ok vs ∧
      mapValidationRules results doc =
        .ok { doc with validation_rules := doc.validation_rules ++ vs } := by
  cases hf : jObjLookup results "validation_rules" with
  | none =>
    refine ⟨[], by simp only [listEntriesOf, hf]; rfl, ?_⟩
    unfold mapValidationRules
    rw [hf]
    simp only [Option.getD_none, jTruthy, List.isEmpty_nil, Bool.not_true,
      Bool.false_eq_true, if_false, List.append_nil]
    rfl
  | some v =>
    have hft := lookup_facetWellTyped hw (by decide) hf
    cases v with
    | obj o =>
      have hk : strListKeyOk o "validation_rules" = true := by
        simpa [facetWellTyped] using hft
      obtain ⟨ls, hg, hls⟩ := strListSegment_ok hk
      have hentries : listEntriesOf results "validation_rules" "validation_rules"
          = keyEntries o "validation_rules" := by
        simp only [listEntriesOf, keyEntries, hf]
      cases o with
      | nil =>
        refine ⟨[], by rw [hentries]; rfl, ?_⟩
        unfold mapValidationRules
        rw [hf]
        simp only [Option.getD_some, jTruthy, List.isEmpty_nil, Bool.not_true,
          Bool.false_eq_true, if_false, List.append_nil]
        rfl
      | cons kv o' =>
        refine ⟨ls, by rw [hentries]; exact hls, ?_⟩
        unfold mapValidationRules
        rw [hf]
        simp only [Option.getD_some, jTruthy, List.isEmpty_cons, Bool.not_false, if_true]
        rw [hg]
        simp only [exceptBind_ok]
        rw [hls]
        rfl
    | null => simp [facetWellTyped] at hft
    | bool b => simp [facetWellTyped] at hft
    | num n => simp [facetWellTyped] at hft
    | str s => simp [facetWellTyped] at hft
    | arr l => simp [facetWellTyped] at hft

theorem mapAuthorization_spec (results : List (String × Json)) (doc : FSDDocument)
    (hw : resultsWellTyped results = true) :
    ∃ ao ur,
      jAsStrList (.arr (listEntriesOf results "authorization" "authorization_objects"))
        = .ok ao ∧
      jAsStrList (.arr (listEntriesOf results "authorization" "user_roles")) = .ok ur ∧
      mapAuthorization results doc =
        .ok { doc with
          authorization_objects := doc.authorization_objects ++ ao
          user_roles := doc.user_roles ++ ur } := by
  cases hf : jObjLookup results "authorization" with
  | none =>
    refine ⟨[], [], by simp only [listEntriesOf, hf]; rfl,
      by simp only [listEntriesOf, hf]; rfl, ?_⟩
    unfold mapAuthorization
    rw [hf]
    simp only [Option.getD_none, jTruthy, List.isEmpty_nil, Bool.not_true,
      Bool.false_eq_true, if_false, List.append_nil]
    rfl
  | some v =>
    have hft := lookup_facetWellTyped hw (by decide) hf
    cases v with
    | obj o =>
      have hk : strListKeyOk o "authorization_objects" = true ∧
          strListKeyOk o "user_roles" = true := by
        simpa [facetWellTyped] using hft
      obtain ⟨ao, hg1, hao⟩ := strListSegment_ok hk.1
      obtain ⟨ur, hg2, hur⟩ := strListSegment_ok hk.2
      have he1 : listEntriesOf results "authorization" "authorization_objects"
          = keyEntries o "authorization_objects" := by
        simp only [listEntriesOf, keyEntries, hf]
      have he2 : listEntriesOf results "authorization" "user_roles"
          = keyEntries o "user_roles" := by
        simp only [listEntriesOf, keyEntries, hf]
      cases o with
      | nil =>
        refine ⟨[], [], by rw [he1]; rfl, by rw [he2]; rfl, ?_⟩
        unfold mapAuthorization
        rw [hf]
        simp only [Option.getD_some, jTruthy, List.isEmpty_nil, Bool.not_true,
          Bool.false_eq_true, if_false, List.append_nil]
        rfl
      | cons kv o' =>
        refine ⟨ao, ur, by rw [he1]; exact hao, by rw [he2]; exact hur, ?_⟩
        unfold mapAuthorization
        rw [hf]
        simp only [Option.getD_some, jTruthy, List.isEmpty_cons, Bool.not_false, if_true]
        rw [hg1]
        simp only [exceptBind_ok]
        rw [hao]
        simp only [exceptBind_ok]
        rw [hg2]
        simp only [exceptBind_ok]
        rw [hur]
        rfl
    | null => simp [facetWellTyped] at hft
    | bool b => simp [facetWellTyped] at hft
    | num n => simp [facetWellTyped] at hft
    | str s => simp [facetWellTyped] at hft
    | arr l => simp [facetWellTyped] at hft

theorem mapLookupForms_spec (results : List (String × Json)) (doc : FSDDocument)
    (hw : resultsWellTyped results = true) :
    ∃ cc ba wt pr,
      (listEntriesOf results "complete_lookup_forms" "company_code_lookup").mapM
        (parseLookupRule "BUTXT") = .ok cc ∧
      (listEntriesOf results "complete_lookup_forms" "business_area_lookup").mapM
        (parseLookupRule "GTEXT") = .ok ba ∧
      (listEntriesOf results "complete_lookup_forms" "wage_type_lookup").mapM
        (parseLookupRule "LGTXT") = .ok wt ∧
      (listEntriesOf results "complete_lookup_forms" "payroll_reason_lookup").mapM
        (parseLookupRule "OCRTX") = .ok pr ∧
      mapLookupForms results doc =
        .ok { doc with
          country_info := doc.country_info ++ cc
          currency_t500c := doc.currency_t500c ++ ba
          currency_t001 := doc.currency_t001 ++ wt ++ pr } := by
  cases hf : jObjLookup results "complete_lookup_forms" with
  | none =>
    refine ⟨[], [], [], [], by simp only [listEntriesOf, hf]; rfl,
      by simp only [listEntriesOf, hf]; rfl, by simp only [listEntriesOf, hf]; rfl,
      by simp only [listEntriesOf, hf]; rfl, ?_⟩
    unfold mapLookupForms
    rw [hf]
    simp only [Option.getD_none, jTruthy, List.isEmpty_nil, Bool.not_true,
      Bool.false_eq_true, if_false, List.append_nil]
    rfl
  | some v =>
    have hft := lookup_facetWellTyped hw (by decide) hf
    cases v with
    | obj o =>
      have hk : listKeyOk o "company_code_lookup" lookupEntryOk = true ∧
          listKeyOk o "business_area_lookup" lookupEntryOk = true ∧
          listKeyOk o "wage_type_lookup" lookupEntryOk = true ∧
          listKeyOk o "payroll_reason_lookup" lookupEntryOk = true := by
        simpa [facetWellTyped, and_assoc] using hft
      obtain ⟨cc, hg1, hcc⟩ := listSegment_ok hk.1
        (fun e he => parseLookupRule_ok he "BUTXT")
      obtain ⟨ba, hg2, hba⟩ := listSegment_ok hk.2.1
        (fun e he => parseLookupRule_ok he "GTEXT")
      obtain ⟨wt, hg3, hwt⟩ := listSegment_ok hk.2.2.1
        (fun e he => parseLookupRule_ok he "LGTXT")
      obtain ⟨pr, hg4, hpr⟩ := listSegment_ok hk.2.2.2
        (fun e he => parseLookupRule_ok he "OCRTX")
      have he1 : listEntriesOf results "complete_lookup_forms" "company_code_lookup"
          = keyEntries o "company_code_lookup" := by
        simp only [listEntriesOf, keyEntries, hf]
      have he2 : listEntriesOf results "complete_lookup_forms" "business_area_lookup"
          = keyEntries o "business_area_lookup" := by
        simp only [listEntriesOf, keyEntries, hf]
      have he3 : listEntriesOf results "complete_lookup_forms" "wage_type_lookup"
          = keyEntries o "wage_type_lookup" := by
        simp only [listEntriesOf, keyEntries, hf]
      have he4 : listEntriesOf results "complete_lookup_forms" "payroll_reason_lookup"
          = keyEntries o "payroll_reason_lookup" := by
        simp only [listEntriesOf, keyEntries, hf]
      cases o with
      | nil =>
        refine ⟨[], [], [], [], by rw [he1]; rfl, by rw [he2]; rfl,
          by rw [he3]; rfl, by rw [he4]; rfl, ?_⟩
        unfold mapLookupForms
        rw [hf]
        simp only [Option.getD_some, jTruthy, List.isEmpty_nil, Bool.not_true,
          Bool.false_eq_true, if_false, List.append_nil]
        rfl
      | cons kv o' =>
        refine ⟨cc, ba, wt, pr, by rw [he1]; exact hcc, by rw [he2]; exact hba,
          by rw [he3]; exact hwt, by rw [he4]; exact hpr, ?_⟩
        unfold mapLookupForms
        rw [hf]
        simp only [Option.getD_some, jTruthy, List.isEmpty_cons, Bool.not_false, if_true]
        rw [hg1]
        simp only [exceptBind_ok, jIter]
        rw [hcc]
        simp only [exceptBind_ok]
        rw [hg2]
        simp only [exceptBind_ok, jIter]
        rw [hba]
        simp only [exceptBind_ok]
        rw [hg3]
        simp only [exceptBind_ok, jIter]
        rw [hwt]
        simp only [exceptBind_ok]
        rw [hg4]
        simp only [exceptBind_ok, jIter]
        rw [hpr]
        rfl
    | null => simp [facetWellTyped] at hft
    | bool b => simp [facetWellTyped] at hft
    | num n => simp [facetWellTyped] at hft
    | str s => simp [facetWellTyped] at hft
    | arr l => simp [facetWellTyped] at hft

theorem strSlot_ok {o : List (String × Json)} {k : String}
    (h : strOk o k = true) (d : String) :
    ∃ s, (jObjLookup o k).getD (.str d) = .str s := by
  unfold strOk at h
  cases hv : jObjLookup o k with
  | none => exact ⟨d, by simp [hv]⟩
  | some v =>
    rw [hv] at h
    cases v with
    | str s => exact ⟨s, by simp [hv]⟩
    | null => simp [isStrJson] at h
    | bool b => simp [isStrJson] at h
    | num n => simp [isStrJson] at h
    | arr l => simp [isStrJson] at h
    | obj l => simp [isStrJson] at h

theorem mapBasicInfo_spec (results : List (String × Json)) (doc : FSDDocument)
    (hw : resultsWellTyped results = true) :
    ∃ pn rd dd ur asms tc mp rdocs vh rvw,
      mapBasicInfo results doc = .ok { doc with
        program_name := pn
        report_description := rd
        desain_report_description := dd
        user_requirements := ur
        assumptions := asms
        transaction_code := tc
        menu_path := mp
        related_documents := doc.related_documents ++ rdocs
        version_history := doc.version_history ++ vh
        reviewers := doc.reviewers ++ rvw } ∧
      (asms = doc.assumptions ∨
        jAsStrList (.arr (listEntriesOf results "basic_info" "assumptions")) = .ok asms) := by
  cases hf : jObjLookup results "basic_info" with
  | none =>
    refine ⟨doc.program_name, doc.report_description, doc.desain_report_description,
      doc.user_requirements, doc.assumptions, doc.transaction_code, doc.menu_path,
      [], [], [], ?_, Or.inl rfl⟩
    unfold mapBasicInfo
    rw [hf]
    simp only [Option.getD_none, jTruthy, List.isEmpty_nil, Bool.not_true,
      Bool.false_eq_true, if_false, List.append_nil]
    rfl
  | some v =>
    have hft := lookup_facetWellTyped hw (by decide) hf
    cases v with
    | obj o =>
      have hb : strOk o "program_name" = true ∧ strOk o "report_description" = true ∧
          strOk o "desain_report_description" = true ∧ strOk o "user_requirements" = true ∧
          strListKeyOk o "assumptions" = true ∧ strOk o "transaction_code" = true ∧
          strOk o "menu_path" = true ∧ strOk o "ricefw_id" = true ∧
          strOk o "created_date" = true ∧ strOk o "created_by" = true ∧
          strOk o "functional_contact" = true := by
        simpa [facetWellTyped, and_assoc] using hft
      cases o with
      | nil =>
        refine ⟨doc.program_name, doc.report_description, doc.desain_report_description,
          doc.user_requirements, doc.assumptions, doc.transaction_code, doc.menu_path,
          [], [], [], ?_, Or.inl rfl⟩
        unfold mapBasicInfo
        rw [hf]
        simp only [Option.getD_some, jTruthy, List.isEmpty_nil, Bool.not_true,
          Bool.false_eq_true, if_false, List.append_nil]
        rfl
      | cons kv o' =>
        obtain ⟨s1, e1⟩ := jGetStr_ok hb.1 ""
        obtain ⟨s2, e2⟩ := jGetStr_ok hb.2.1 ""
        obtain ⟨s3, e3⟩ := jGetStr_ok hb.2.2.1 ""
        obtain ⟨s4, e4⟩ := jGetStr_ok hb.2.2.2.1 ""
        obtain ⟨asms, hga, hasms⟩ := strListSegment_ok hb.2.2.2.2.1
        obtain ⟨s6, e6⟩ := jGetStr_ok hb.2.2.2.2.2.1 ""
        obtain ⟨s7, e7⟩ := jGetStr_ok hb.2.2.2.2.2.2.1 "N/A"
        obtain ⟨r, hr⟩ := strSlot_ok hb.2.2.2.2.2.2.2.1 ""
        obtain ⟨cd, hcd⟩ := strSlot_ok hb.2.2.2.2.2.2.2.2.1 ""
        obtain ⟨cb, hcb⟩ := strSlot_ok hb.2.2.2.2.2.2.2.2.2.1 ""
        obtain ⟨fc, hfc⟩ := strSlot_ok hb.2.2.2.2.2.2.2.2.2.2 ""
        have hentries : listEntriesOf results "basic_info" "assumptions"
            = keyEntries (kv :: o') "assumptions" := by
          simp only [listEntriesOf, keyEntries, hf]
        refine ⟨s1, s2, s3, s4, asms, s6, s7,
          (if r = "" then [] else ["RICEFW ID: " ++ r]),
          (if cd ≠ "" ∧ cb ≠ "" then
            [{ version := "0.01", change := "Initial draft", author := cb, date := cd }]
          else []),
          (if fc = "" then [] else [{ role := "Functional Lead", name := fc }]),
          ?_, Or.inr (by rw [hentries]; exact hasms)⟩
        unfold mapBasicInfo
        rw [hf]
        simp only [Option.getD_some, jTruthy, List.isEmpty_cons, Bool.not_false, if_true]
        simp only [e1, e2, e3, e4, exceptBind_ok]
        rw [hga]
        simp only [exceptBind_ok]
        rw [hasms]
        simp only [exceptBind_ok, e6, e7, jGetD]
        rw [hr, hcd, hcb, hfc]
        by_cases hrt : r = "" <;> by_cases hvt : cd ≠ "" ∧ cb ≠ "" <;>
          by_cases hfct : fc = "" <;>
          simp [hrt, hvt, hfct, jTruthy, jAsStr]
    | null => simp [facetWellTyped] at hft
    | bool b => simp [facetWellTyped] at hft
    | num n => simp [facetWellTyped] at hft
    | str s => simp [facetWellTyped] at hft
    | arr l => simp [facetWellTyped] at hft

/-- Master specification of the merge: it succeeds on every well-typed
result mapping, each facet extends exactly its own lists, and the amounts
appended are the parses of the facet's entry lists. -/
theorem mapFixedResults_spec (results : List (String × Json)) (doc0 : FSDDocument)
    (hw : resultsWellTyped results = true) :
    ∃ d ps fms vds cc ba wt pr errs tests vs ao ur asms,
      mapFixedResultsToFSD results doc0 = .ok d ∧
      (listEntriesOf results "selection_screen" "selection_parameters").mapM
        parseSelectionParameter = .ok ps ∧
      (listEntriesOf results "complete_field_mappings" "field_mappings").mapM
        parseFieldMapping = .ok fms ∧
      (listEntriesOf results "complete_valid_datasets" "valid_dataset_rules").mapM
        parseDatasetRule = .ok vds ∧
      (listEntriesOf results "complete_lookup_forms" "company_code_lookup").mapM
        (parseLookupRule "BUTXT") = .ok cc ∧
      (listEntriesOf results "complete_lookup_forms" "business_area_lookup").mapM
        (parseLookupRule "GTEXT") = .ok ba ∧
      (listEntriesOf results "complete_lookup_forms" "wage_type_lookup").mapM
        (parseLookupRule "LGTXT") = .ok wt ∧
      (listEntriesOf results "complete_lookup_forms" "payroll_reason_lookup").mapM
        (parseLookupRule "OCRTX") = .ok pr ∧
      (listEntriesOf results "error_handling" "error_scenarios").mapM
        parseErrorScenario = .ok errs ∧
      (listEntriesOf results "test_scenarios" "test_scenarios").mapM
        parseTestScenario = .ok tests ∧
      jAsStrList (.arr (listEntriesOf results "validation_rules" "validation_rules"))
        = .ok vs ∧
      jAsStrList (.arr (listEntriesOf results "authorization" "authorization_objects"))
        = .ok ao ∧
      jAsStrList (.arr (listEntriesOf results "authorization" "user_roles")) = .ok ur ∧
      (asms = doc0.assumptions ∨
        jAsStrList (.arr (listEntriesOf results "basic_info" "assumptions")) = .ok asms) ∧
      d.selection_parameters = doc0.selection_parameters ++ ps ∧
      d.field_mappings = doc0.field_mappings ++ fms ∧
      d.valid_dataset_rules = doc0.valid_dataset_rules ++ vds ∧
      d.country_info = doc0.country_info ++ cc ∧
      d.currency_t500c = doc0.currency_t500c ++ ba ∧
      d.currency_t001 = doc0.currency_t001 ++ wt ++ pr ∧
      d.error_scenarios = doc0.error_scenarios ++ errs ∧
      d.test_scenarios = doc0.test_scenarios ++ tests ∧
      d.validation_rules = doc0.validation_rules ++ vs ∧
      d.authorization_objects = doc0.authorization_objects ++ ao ∧
      d.user_roles = doc0.user_roles ++ ur ∧
      d.assumptions = asms := by
  obtain ⟨pn, rd, dd, ur0, asms, tc, mp, rdocs, vh, rvw, e_b, hasms⟩ :=
    mapBasicInfo_spec results doc0 hw
  generalize hD1 : ({ doc0 with
    program_name := pn
    report_description := rd
    desain_report_description := dd
    user_requirements := ur0
    assumptions := asms
    transaction_code := tc
    menu_path := mp
    related_documents := doc0.related_documents ++ rdocs
    version_history := doc0.version_history ++ vh
    reviewers := doc0.reviewers ++ rvw } : FSDDocument) = D1 at e_b
  obtain ⟨ps, hps, e_sel⟩ := mapSelectionScreen_spec results D1 hw
  generalize hD2 : ({ D1 with
    selection_parameters := D1.selection_parameters ++ ps } : FSDDocument) = D2 at e_sel
  obtain ⟨fms, hfms, e_fm⟩ := mapFieldMappings_spec results D2 hw
  generalize hD3 : ({ D2 with
    field_mappings := D2.field_mappings ++ fms } : FSDDocument) = D3 at e_fm
  obtain ⟨vds, hvds, e_vd⟩ := mapValidDatasets_spec results D3 hw
  generalize hD4 : ({ D3 with
    valid_dataset_rules := D3.valid_dataset_rules ++ vds } : FSDDocument) = D4 at e_vd
  obtain ⟨cc, ba, wt, pr, hcc, hba, hwt, hpr, e_lf⟩ := mapLookupForms_spec results D4 hw
  generalize hD5 : ({ D4 with
    country_info := D4.country_info ++ cc
    currency_t500c := D4.currency_t500c ++ ba
    currency_t001 := D4.currency_t001 ++ wt ++ pr } : FSDDocument) = D5 at e_lf
  obtain ⟨errs, herrs, e_er⟩ := mapErrorScenarios_spec results D5 hw
  generalize hD6 : ({ D5 with
    error_scenarios := D5.error_scenarios ++ errs } : FSDDocument) = D6 at e_er
  obtain ⟨tests, htests, e_ts⟩ := mapTestScenarios_spec results D6 hw
  generalize hD7 : ({ D6 with
    test_scenarios := D6.test_scenarios ++ tests } : FSDDocument) = D7 at e_ts
  obtain ⟨vs, hvs, e_vr⟩ := mapValidationRules_spec results D7 hw
  generalize hD8 : ({ D7 with
    validation_rules := D7.validation_rules ++ vs } : FSDDocument) = D8 at e_vr
  obtain ⟨ao, ur, hao, hur, e_au⟩ := mapAuthorization_spec results D8 hw
  generalize hD9 : ({ D8 with
    authorization_objects := D8.authorization_objects ++ ao
    user_roles := D8.user_roles ++ ur } : FSDDocument) = D9 at e_au
  refine ⟨D9, ps, fms, vds, cc, ba, wt, pr, errs, tests, vs, ao, ur, asms,
    ?_, hps, hfms, hvds, hcc, hba, hwt, hpr, herrs, htests, hvs, hao, hur, hasms,
    ?_, ?_, ?_, ?_, ?_, ?_, ?_, ?_, ?_, ?_, ?_, ?_⟩
  · unfold mapFixedResultsToFSD
    rw [e_b]
    simp only [exceptBind_ok]
    rw [e_sel]
    simp only [exceptBind_ok]
    rw [e_fm]
    simp only [exceptBind_ok]
    rw [e_vd]
    simp only [exceptBind_ok]
    rw [e_lf]
    simp only [exceptBind_ok]
    rw [e_er]
    simp only [exceptBind_ok]
    rw [e_ts]
    simp only [exceptBind_ok]
    rw [e_vr]
    simp only [exceptBind_ok]
    rw [e_au]
  · rw [← hD9, ← hD8, ← hD7, ← hD6, ← hD5, ← hD4, ← hD3, ← hD2, ← hD1]
  · rw [← hD9, ← hD8, ← hD7, ← hD6, ← hD5, ← hD4, ← hD3, ← hD2, ← hD1]
  · rw [← hD9, ← hD8, ← hD7, ← hD6, ← hD5, ← hD4, ← hD3, ← hD2, ← hD1]
  · rw [← hD9, ← hD8, ← hD7, ← hD6, ← hD5, ← hD4, ← hD3, ← hD2, ← hD1]
  · rw [← hD9, ← hD8, ← hD7, ← hD6, ← hD5, ← hD4, ← hD3, ← hD2, ← hD1]
  · rw [← hD9, ← hD8, ← hD7, ← hD6, ← hD5, ← hD4, ← hD3, ← hD2, ← hD1]
  · rw [← hD9, ← hD8, ← hD7, ← hD6, ← hD5, ← hD4, ← hD3, ← hD2, ← hD1]
  · rw [← hD9, ← hD8, ← hD7, ← hD6, ← hD5, ← hD4, ← hD3, ← hD2, ← hD1]
  · rw [← hD9, ← hD8, ← hD7, ← hD6, ← hD5, ← hD4, ← hD3, ← hD2, ← hD1]
  · rw [← hD9, ← hD8, ← hD7, ← hD6, ← hD5, ← hD4, ← hD3, ← hD2, ← hD1]
  · rw [← hD9, ← hD8, ← hD7, ← hD6, ← hD5, ← hD4, ← hD3, ← hD2, ← hD1]
  · rw [← hD9, ← hD8, ← hD7, ← hD6, ← hD5, ← hD4, ← hD3, ← hD2, ← hD1]

theorem coerceProcessingType_unknown {s : String}
    (h : s ∉ (["DIRECT", "LOOKUP", "CALCULATION", "CONSTANT", "AGGREGATION"] : List String)) :
    coerceProcessingType (.str s) = .ok .DIRECT := by
  simp only [List.mem_cons, List.not_mem_nil, not_or, or_false] at h
  obtain ⟨h1, h2, h3, h4, h5⟩ := h
  have hinit : fieldProcessingTypeInit (.str s) =
      .error (.valueError "not a valid FieldProcessingType") := by
    unfold fieldProcessingTypeInit
    split <;> simp_all
  unfold coerceProcessingType
  rw [hinit]

/-! ## Claim C4 -/

/-- C4: merging a well-typed task-result mapping whose field-mapping entry
`i` carries a `processing_type` string outside the enum's five member values
does not raise; the merged document stores `DIRECT` for that entry, and the
JSON dump (`dataclass_to_dict`) emits the string `"DIRECT"` for that field.
(`doc0` is the document under construction, whose `field_mappings` list is
still empty, as it always is when `_map_fixed_results_to_fsd` runs.) -/
theorem C4_unknown_processing_type_merges_as_DIRECT
    (results : List (String × Json)) (doc0 : FSDDocument)
    (o : List (String × Json)) (entries : List Json) (e : List (String × Json))
    (i : Nat) (s : String)
    (hdoc : doc0.field_mappings = [])
    (hw : resultsWellTyped results = true)
    (hf : jObjLookup results "complete_field_mappings" = some (.obj o))
    (hl : jObjLookup o "field_mappings" = some (.arr entries))
    (he : entries.get? i = some (.obj e))
    (hpt : jObjLookup e "processing_type" = some (.str s))
    (hs : s ∉ (["DIRECT", "LOOKUP", "CALCULATION", "CONSTANT", "AGGREGATION"] : List String)) :
    ∃ d fm, mapFixedResultsToFSD results doc0 = .ok d ∧
      d.field_mappings.get? i = some fm ∧
      fm.processing_type = .DIRECT ∧
      (match fsdDocumentToJson d with
       | .obj l => jObjLookup l "field_mappings"
       | _ => none) = some (.arr (d.field_mappings.map fieldMappingToJson)) ∧
      (d.field_mappings.map fieldMappingToJson).get? i
        = some (fieldMappingToJson fm) ∧
      jObjLookup (match fieldMappingToJson fm with | .obj l => l | _ => [])
        "processing_type" = some (.str "DIRECT") := by
  obtain ⟨d, ps, fms, vds, cc, ba, wt, pr, errs, tests, vs, ao, ur, asms,
    hrun, hps, hfms, hvds, hcc, hba, hwt, hpr, herrs, htests, hvs, hao, hur, hasms,
    hdsel, hdfm, hrest⟩ := mapFixedResults_spec results doc0 hw
  have hentries : listEntriesOf results "complete_field_mappings" "field_mappings"
      = entries := by
    simp only [listEntriesOf, hf, hl]
  rw [hentries] at hfms
  obtain ⟨fm, hget, hparse⟩ := mapM_get hfms i (.obj e) he
  -- the parsed mapping stores DIRECT
  have hok : listKeyOk o "field_mappings" fmEntryOk = true := by
    have hft := lookup_facetWellTyped hw (by decide) hf
    simpa [facetWellTyped] using hft
  have hemem : (Json.obj e) ∈ entries := List.get?_mem he
  have heok : fmEntryOk (.obj e) = true := by
    unfold listKeyOk at hok
    rw [hl] at hok
    exact List.all_eq_true.mp hok _ hemem
  simp only [fmEntryOk, Bool.and_eq_true] at heok
  obtain ⟨⟨⟨⟨⟨⟨h1, h2⟩, h3⟩, h4⟩, h5⟩, h6⟩, -⟩ := heok
  obtain ⟨s1, e1⟩ := jGetStr_ok h1 ""
  obtain ⟨s2, e2⟩ := jGetStr_ok h2 ""
  obtain ⟨s3, e3⟩ := jGetStr_ok h3 ""
  obtain ⟨s4, e4⟩ := jGetStr_ok h4 ""
  obtain ⟨s5, e5⟩ := jGetStr_ok h5 ""
  obtain ⟨s6, e6⟩ := jGetStr_ok h6 ""
  have hco := coerceProcessingType_unknown hs
  unfold parseFieldMapping at hparse
  simp only [jGetD, hpt, Option.getD_some, exceptBind_ok, hco,
    e1, e2, e3, e4, e5, e6, exceptPure_eq, Except.ok.injEq] at hparse
  have hfmpt : fm.processing_type = .DIRECT := by
    rw [← hparse]
  refine ⟨d, fm, hrun, ?_, hfmpt, rfl, ?_, ?_⟩
  · rw [hdfm, hdoc]
    simpa using hget
  · have hdf : d.field_mappings = fms := by rw [hdfm, hdoc]; simp
    rw [hdf]
    simp [List.get?_eq_getElem?, List.getElem?_map, List.get?_eq_getElem? fms i ▸ hget]
  · simp only [fieldMappingToJson, hfmpt]
    rfl

def resultsC4 : List (String × Json) :=
  [("complete_field_mappings", .obj [("field_mappings", .arr [Json.obj
      [("display_name", .str "Company Code"), ("technical_field", .str "BUKRS"),
       ("source_table", .str "T001"), ("processing_logic", .str "direct copy"),
       ("processing_type", .str "BOGUS")]])])]

/-- C4 witness: end-to-end scenario 4 — a field-mapping entry carrying
`processing_type: "BOGUS"` merges without raising, stores `DIRECT`, and the
dumped JSON field is the string `"DIRECT"`. -/
theorem C4_unknown_processing_type_merges_as_DIRECT_witness :
    ∃ d fm, mapFixedResultsToFSD resultsC4 (freshFSDDocument "P") = .ok d ∧
      d.field_mappings.get? 0 = some fm ∧
      fm.processing_type = .DIRECT ∧
      (match fsdDocumentToJson d with
       | .obj l => jObjLookup l "field_mappings"
       | _ => none) = some (.arr (d.field_mappings.map fieldMappingToJson)) ∧
      (d.field_mappings.map fieldMappingToJson).get? 0
        = some (fieldMappingToJson fm) ∧
      jObjLookup (match fieldMappingToJson fm with | .obj l => l | _ => [])
        "processing_type" = some (.str "DIRECT") :=
  C4_unknown_processing_type_merges_as_DIRECT resultsC4 (freshFSDDocument "P")
    _ _ _ 0 "BOGUS" rfl (by decide) rfl rfl rfl rfl (by decide)

/-! ## Claim C7

`_map_fixed_results_to_fsd` reads each list-valued facet key with
`.get(key, [])` and appends; a key that is absent (or a facet that is
absent) contributes nothing.  `listKeyAbsent` states that the task's
mapping, if present as a dict, has no entry for `key`. -/

def listKeyAbsent (results : List (String × Json)) (t k : String) : Bool :=
  match jObjLookup results t with
  | some (.obj o) => (jObjLookup o k).isNone
  | _ => true

def listValuedKeysAbsent (results : List (String × Json)) : Bool :=
  listKeyAbsent results "basic_info" "assumptions" &&
  (listKeyAbsent results "selection_screen" "selection_parameters" &&
  (listKeyAbsent results "complete_field_mappings" "field_mappings" &&
  (listKeyAbsent results "complete_valid_datasets" "valid_dataset_rules" &&
  (listKeyAbsent results "complete_lookup_forms" "company_code_lookup" &&
  (listKeyAbsent results "complete_lookup_forms" "business_area_lookup" &&
  (listKeyAbsent results "complete_lookup_forms" "wage_type_lookup" &&
  (listKeyAbsent results "complete_lookup_forms" "payroll_reason_lookup" &&
  (listKeyAbsent results "error_handling" "error_scenarios" &&
  (listKeyAbsent results "test_scenarios" "test_scenarios" &&
  (listKeyAbsent results "validation_rules" "validation_rules" &&
  (listKeyAbsent results "authorization" "authorization_objects" &&
  listKeyAbsent results "authorization" "user_roles")))))))))))

theorem listEntriesOf_eq_nil_of_absent {results : List (String × Json)} {t k : String}
    (h : listKeyAbsent results t k = true) : listEntriesOf results t k = [] := by
  unfold listKeyAbsent at h
  unfold listEntriesOf
  cases hf : jObjLookup results t with
  | none => rfl
  | some v =>
    rw [hf] at h
    cases v with
    | obj o =>
      have h2 : (jObjLookup o k).isNone = true := h
      have hg : jObjLookup o k = none := Option.isNone_iff_eq_none.mp h2
      show (match jObjLookup o k with
            | some (Json.arr l) => l
            | _ => ([] : List Json)) = []
      rw [hg]
    | null => rfl
    | bool b => rfl
    | num n => rfl
    | str s => rfl
    | arr l => rfl

/-- C7: every list-typed field of a freshly constructed `FSDDocument` is
the empty list (the `field(default_factory=list)` defaults, main.py lines
97-146); merging any well-typed task-result mapping never raises; and when
the list-valued keys are absent from the mapping, every facet list of the
merged document is still the empty list, so renderers can iterate all of
them without null checks. -/
theorem C7_list_fields_default_empty_and_survive_merge
    (pn : String) (results : List (String × Json))
    (hw : resultsWellTyped results = true) :
    ((freshFSDDocument pn).related_documents = [] ∧
     (freshFSDDocument pn).reviewers = [] ∧
     (freshFSDDocument pn).version_history = [] ∧
     (freshFSDDocument pn).assumptions = [] ∧
     (freshFSDDocument pn).selection_parameters = [] ∧
     (freshFSDDocument pn).field_mappings = [] ∧
     (freshFSDDocument pn).validation_rules = [] ∧
     (freshFSDDocument pn).valid_dataset_rules = [] ∧
     (freshFSDDocument pn).country_info = [] ∧
     (freshFSDDocument pn).currency_t500c = [] ∧
     (freshFSDDocument pn).currency_t001 = [] ∧
     (freshFSDDocument pn).authorization_objects = [] ∧
     (freshFSDDocument pn).user_roles = [] ∧
     (freshFSDDocument pn).constraints = [] ∧
     (freshFSDDocument pn).dependencies = [] ∧
     (freshFSDDocument pn).error_scenarios = [] ∧
     (freshFSDDocument pn).test_scenarios = [] ∧
     (freshFSDDocument pn).design_changes = []) ∧
    ∃ d, mapFixedResultsToFSD results (freshFSDDocument pn) = .ok d ∧
      (listValuedKeysAbsent results = true →
        d.selection_parameters = [] ∧ d.field_mappings = [] ∧
        d.valid_dataset_rules = [] ∧ d.country_info = [] ∧
        d.currency_t500c = [] ∧ d.currency_t001 = [] ∧
        d.error_scenarios = [] ∧ d.test_scenarios = [] ∧
        d.validation_rules = [] ∧ d.authorization_objects = [] ∧
        d.user_roles = [] ∧ d.assumptions = []) := by
  refine ⟨⟨rfl, rfl, rfl, rfl, rfl, rfl, rfl, rfl, rfl, rfl, rfl, rfl, rfl, rfl,
    rfl, rfl, rfl, rfl⟩, ?_⟩
  obtain ⟨d, ps, fms, vds, cc, ba, wt, pr, errs, tests, vs, ao, ur, asms,
    hrun, hps, hfms, hvds, hcc, hba, hwt, hpr, herrs, htests, hvs, hao, hur, hasms,
    hdsel, hdfm, hdvd, hdcc, hdt5, hdt1, hder, hdts, hdvr, hdao, hdur, hdas⟩ :=
    mapFixedResults_spec results (freshFSDDocument pn) hw
  refine ⟨d, hrun, fun habs => ?_⟩
  simp only [listValuedKeysAbsent, Bool.and_eq_true] at habs
  obtain ⟨a1, a2, a3, a4, a5, a6, a7, a8, a9, a10, a11, a12, a13⟩ := habs
  rw [listEntriesOf_eq_nil_of_absent a2] at hps
  rw [listEntriesOf_eq_nil_of_absent a3] at hfms
  rw [listEntriesOf_eq_nil_of_absent a4] at hvds
  rw [listEntriesOf_eq_nil_of_absent a5] at hcc
  rw [listEntriesOf_eq_nil_of_absent a6] at hba
  rw [listEntriesOf_eq_nil_of_absent a7] at hwt
  rw [listEntriesOf_eq_nil_of_absent a8] at hpr
  rw [listEntriesOf_eq_nil_of_absent a9] at herrs
  rw [listEntriesOf_eq_nil_of_absent a10] at htests
  rw [listEntriesOf_eq_nil_of_absent a11] at hvs
  rw [listEntriesOf_eq_nil_of_absent a12] at hao
  rw [listEntriesOf_eq_nil_of_absent a13] at hur
  simp only [List.mapM_nil, exceptPure_eq, Except.ok.injEq] at hps hfms hvds hcc hba hwt hpr herrs htests
  have hnilStr : jAsStrList (.arr ([] : List Json)) = .ok [] := rfl
  rw [hnilStr, Except.ok.injEq] at hvs hao hur
  have hasms0 : asms = [] := by
    rcases hasms with h | h
    · exact h
    · rw [listEntriesOf_eq_nil_of_absent a1, hnilStr, Except.ok.injEq] at h
      exact h.symm
  subst hps hfms hvds hcc hba hwt hpr herrs htests hvs hao hur hasms0
  refine ⟨?_, ?_, ?_, ?_, ?_, ?_, ?_, ?_, ?_, ?_, ?_, ?_⟩
  · rw [hdsel]; rfl
  · rw [hdfm]; rfl
  · rw [hdvd]; rfl
  · rw [hdcc]; rfl
  · rw [hdt5]; rfl
  · rw [hdt1]; rfl
  · rw [hder]; rfl
  · rw [hdts]; rfl
  · rw [hdvr]; rfl
  · rw [hdao]; rfl
  · rw [hdur]; rfl
  · exact hdas

def resultsC7 : List (String × Json) :=
  [("basic_info", .obj [("program_name", .str "ZHR_REPORT")])]

/-- C7 witness: a concrete well-typed result mapping carrying only a
`basic_info.program_name` string — every list-valued key absent — merges
into a fresh document with all facet lists still empty. -/
theorem C7_list_fields_default_empty_and_survive_merge_witness :
    resultsWellTyped resultsC7 = true ∧ listValuedKeysAbsent resultsC7 = true ∧
    (((freshFSDDocument "P").related_documents = [] ∧
      (freshFSDDocument "P").reviewers = [] ∧
      (freshFSDDocument "P").version_history = [] ∧
      (freshFSDDocument "P").assumptions = [] ∧
      (freshFSDDocument "P").selection_parameters = [] ∧
      (freshFSDDocument "P").field_mappings = [] ∧
      (freshFSDDocument "P").validation_rules = [] ∧
      (freshFSDDocument "P").valid_dataset_rules = [] ∧
      (freshFSDDocument "P").country_info = [] ∧
      (freshFSDDocument "P").currency_t500c = [] ∧
      (freshFSDDocument "P").currency_t001 = [] ∧
      (freshFSDDocument "P").authorization_objects = [] ∧
      (freshFSDDocument "P").user_roles = [] ∧
      (freshFSDDocument "P").constraints = [] ∧
      (freshFSDDocument "P").dependencies = [] ∧
      (freshFSDDocument "P").error_scenarios = [] ∧
      (freshFSDDocument "P").test_scenarios = [] ∧
      (freshFSDDocument "P").design_changes = []) ∧
     ∃ d, mapFixedResultsToFSD resultsC7 (freshFSDDocument "P") = .ok d ∧
       (listValuedKeysAbsent resultsC7 = true →
         d.selection_parameters = [] ∧ d.field_mappings = [] ∧
         d.valid_dataset_rules = [] ∧ d.country_info = [] ∧
         d.currency_t500c = [] ∧ d.currency_t001 = [] ∧
         d.error_scenarios = [] ∧ d.test_scenarios = [] ∧
         d.validation_rules = [] ∧ d.authorization_objects = [] ∧
         d.user_roles = [] ∧ d.assumptions = [])) :=
  ⟨by decide, by decide,
    C7_list_fields_default_empty_and_survive_merge "P" resultsC7 (by decide)⟩

/-! ## Claim C1: the LLM battery

`LLMClient.analyze` (main.py lines 1025-1033) wraps prompt building, the
HTTP call and response parsing in a catch-all `except` that returns `{}`.
`_analyze_with_fixed_comprehensive_llm` (lines 1183-1211) runs the fixed
nine-task battery, storing each task's `analyze` result under its name.
The remote call and `json.loads` become oracles; since every task uses a
distinct prompt and context (`{"task": task_name}`), the call oracle is
keyed by the task name. -/

structure LLMEnv where
  callApi : String → Except PyErr Json
  jsonLoads : String → Except PyErr Json

/-- `value[0]` (Python subscripting, as used in `_parse_response`): first
element of a list, first character of a string, `KeyError` on a dict
(where `0` is not a key), `TypeError` otherwise. -/
def pyIndex0 : Json → Except PyErr Json
  | .arr [] => .error (.indexError "list index out of range")
  | .arr (x :: _) => .ok x
  | .str s =>
    match s.data with
    | [] => .error (.indexError "string index out of range")
    | c :: _ => .ok (.str ⟨[c]⟩)
  | .obj _ => .error (.keyError "0")
  | _ => .error (.typeError "object is not subscriptable")

/-- The raising part of `LLMClient._parse_response` (main.py lines
1092-1099): the `.get`/`[0]` chain followed by `json.loads(content)`.
`json.loads` on a non-string raises `TypeError`. -/
def parseResponseCore (loads : String → Except PyErr Json) (response : Json) :
    Except PyErr Json := do
  let c1 ← jGetD response "candidates" (.arr [.obj []])
  let c2 ← pyIndex0 c1
  let c3 ← jGetD c2 "content" (.obj [])
  let c4 ← jGetD c3 "parts" (.arr [.obj []])
  let c5 ← pyIndex0 c4
  let t ← jGetD c5 "text" (.str "\x7b\x7d")
  match t with
  | .str s => loads s
  | _ => .error (.typeError "the JSON object must be str")

/-- The exception classes named by `_parse_response`'s `except` clause:
`json.JSONDecodeError` (a `ValueError`, the only `ValueError` the chain can
raise, from `json.loads`) and `KeyError`. -/
def caughtByParseResponse : PyErr → Bool
  | .valueError _ => true
  | .keyError _ => true
  | _ => false

def parseResponse (loads : String → Except PyErr Json) (response : Json) :
    Except PyErr Json :=
  match parseResponseCore loads response with
  | .ok j => .ok j
  | .error e => if caughtByParseResponse e then .ok (.obj []) else .error e

/-- `LLMClient.analyze` (main.py lines 1025-1033): any exception from the
call or the parse yields `{}`. -/
def analyze (env : LLMEnv) (task : String) : Json :=
  match env.callApi task with
  | .ok response =>
    match parseResponse env.jsonLoads response with
    | .ok j => j
    | .error _ => .obj []
  | .error _ => .obj []

/-- The battery loop of `_analyze_with_fixed_comprehensive_llm` (main.py
lines 1199-1208): `results[task_name] = await llm.analyze(...)` for each of
the nine tasks, in order. -/
def analyzeWithFixedComprehensiveLLM (env : LLMEnv) : List (String × Json) :=
  analysisTaskNames.map (fun t => (t, analyze env t))

theorem jObjLookup_cons_self (k : String) (v : Json) (r : List (String × Json)) :
    jObjLookup ((k, v) :: r) k = some v := by
  simp [jObjLookup, List.find?_cons]

theorem jObjLookup_cons_ne {k k' : String} (h : k ≠ k') (v : Json)
    (r : List (String × Json)) :
    jObjLookup ((k, v) :: r) k' = jObjLookup r k' := by
  simp [jObjLookup, List.find?_cons, h]

theorem jObjLookup_map_self {f : String → Json} {t : String} {l : List String}
    (ht : t ∈ l) :
    jObjLookup (l.map (fun u => (u, f u))) t = some (f t) := by
  induction l with
  | nil => cases ht
  | cons u r ih =>
    rw [List.map_cons]
    rw [List.mem_cons] at ht
    by_cases h : u = t
    · subst h
      exact jObjLookup_cons_self u (f u) _
    · rw [jObjLookup_cons_ne h]
      exact ih (ht.resolve_left fun e => h e.symm)

theorem analyze_congr {env env' : LLMEnv} {u : String}
    (h1 : env.callApi u = env'.callApi u) (h2 : env.jsonLoads = env'.jsonLoads) :
    analyze env u = analyze env' u := by
  unfold analyze
  rw [h1]
  simp only [h2]

/-- C1: if the remote call for one task of the fixed nine-task battery
fails with any exception, that task's entry in the batch result is the
empty mapping, and every other task's entry is exactly what it is under an
environment whose call oracle performs identically on the other tasks (the
failing task not failing); the battery itself is a total function, so the
loop never propagates the exception. -/
theorem C1_failed_task_yields_empty_and_is_isolated
    (env env' : LLMEnv) (t : String) (e : PyErr)
    (ht : t ∈ analysisTaskNames)
    (he : env.callApi t = .error e)
    (hagree : ∀ u, u ≠ t → env.callApi u = env'.callApi u)
    (hloads : env.jsonLoads = env'.jsonLoads) :
    jObjLookup (analyzeWithFixedComprehensiveLLM env) t = some (.obj []) ∧
    ∀ u, u ∈ analysisTaskNames → u ≠ t →
      jObjLookup (analyzeWithFixedComprehensiveLLM env) u
        = jObjLookup (analyzeWithFixedComprehensiveLLM env') u := by
  constructor
  · rw [analyzeWithFixedComprehensiveLLM, jObjLookup_map_self ht]
    unfold analyze
    rw [he]
  · intro u hu hne
    rw [analyzeWithFixedComprehensiveLLM, jObjLookup_map_self hu,
      analyzeWithFixedComprehensiveLLM, jObjLookup_map_self hu,
      analyze_congr (hagree u hne) hloads]

def responseC1 : Json :=
  let part : Json := .obj [("text", .str "payload")]
  let content : Json := .obj [("parts", .arr [part])]
  let candidate : Json := .obj [("content", content)]
  .obj [("candidates", .arr [candidate])]

def loadsC1 : String → Except PyErr Json := fun s =>
  if s = "payload" then .ok (.obj [("validation_rules", .arr [.str "r1"])])
  else .error (.valueError "Expecting value")

def envC1 : LLMEnv :=
  { callApi := fun u =>
      if u = "error_handling" then .error (.exception "TimeoutError")
      else .ok responseC1
    jsonLoads := loadsC1 }

def envC1ok : LLMEnv :=
  { callApi := fun _ => .ok responseC1
    jsonLoads := loadsC1 }

/-- C1 witness: with the `error_handling` call timing out and the other
eight calls returning a fixed well-formed response, the batch maps
`error_handling` to `{}` and agrees with the fully-successful environment
on every other task. -/
theorem C1_failed_task_yields_empty_and_is_isolated_witness :
    "error_handling" ∈ analysisTaskNames ∧
    envC1.callApi "error_handling" = .error (.exception "TimeoutError") ∧
    (jObjLookup (analyzeWithFixedComprehensiveLLM envC1) "error_handling"
        = some (.obj []) ∧
     ∀ u, u ∈ analysisTaskNames → u ≠ "error_handling" →
       jObjLookup (analyzeWithFixedComprehensiveLLM envC1) u
         = jObjLookup (analyzeWithFixedComprehensiveLLM envC1ok) u) :=
  ⟨by decide, rfl,
   C1_failed_task_yields_empty_and_is_isolated envC1 envC1ok "error_handling"
     (.exception "TimeoutError") (by decide) rfl
     (fun u hu => by simp [envC1, envC1ok, hu]) rfl⟩

/-! ## Claim C3: the Markdown structural parser

`MarkdownParser` (main.py lines 218-291) walks the markdown line by line,
building `self.parsed_data`: ONE dict whose keys are the section names of
`## ` headings (or `None`, for a `### ` heading before any `## ` heading)
together with the literal key `'title'` written by a `# ` heading — hence
`Option String` keys, the title at `some "title"`.  The value at `'title'`
is a plain string; every section write stores a dict of optional direct
`content` and subsections.  A section literally named `title` therefore
shares its slot with the document title: saving it finds a `str` and the
item assignment at main.py line 276, 284 or 286 raises `TypeError`, which
propagates out of `parse`.  Python dicts keep insertion order; key updates
leave position unchanged, new keys are appended — `updateAssoc`/`setAssoc`
below. -/

def pyDrop (s : String) (n : Nat) : String := ⟨s.data.drop n⟩

/-- Right strip: drop trailing whitespace. -/
def rstripChars (l : List Char) : List Char :=
  (l.reverse.dropWhile isPyWS).reverse

structure SectionData where
  content : Option (List String) := none
  subsections : List (String × List String) := []
deriving Repr, DecidableEq

/-- A value of the parser's single `parsed_data` dict: the plain string
stored at `'title'` (main.py line 237), or a section dict. -/
inductive PVal where
  | str (s : String)
  | sec (d : SectionData)
deriving Repr, DecidableEq

def PVal.isSec : PVal → Bool
  | .str _ => false
  | .sec _ => true

/-- `self.parsed_data` (main.py line 223). -/
abbrev ParsedData := List (Option String × PVal)

instance {ε α : Type} [DecidableEq ε] [DecidableEq α] : DecidableEq (Except ε α) :=
  fun a b =>
  match a, b with
  | .ok x, .ok y =>
      if h : x = y then .isTrue (by rw [h]) else .isFalse (by simp [h])
  | .error e, .error f =>
      if h : e = f then .isTrue (by rw [h]) else .isFalse (by simp [h])
  | .ok _, .error _ => .isFalse (by simp)
  | .error _, .ok _ => .isFalse (by simp)

/-- The keys of `parsed_data` that hold section dicts — the
section/subsection namespace recovered by the parse. -/
def pdSectionKeys (pd : ParsedData) : List (Option String) :=
  (pd.filter (fun kv => kv.2.isSec)).map Prod.fst

/-- Dict write `d[k] = f(d.get(k))`: update in place, else append. -/
def updateAssoc {α β : Type} [DecidableEq α] (l : List (α × β)) (k : α)
    (f : Option β → β) : List (α × β) :=
  match l with
  | [] => [(k, f none)]
  | (k', v) :: r => if k' = k then (k', f (some v)) :: r else (k', v) :: updateAssoc r k f

/-- Dict write `d[k] = v`. -/
def setAssoc {α β : Type} [DecidableEq α] (l : List (α × β)) (k : α) (v : β) :
    List (α × β) :=
  match l with
  | [] => [(k, v)]
  | (k', v') :: r => if k' = k then (k', v) :: r else (k', v') :: setAssoc r k v

/-- Dict read `d.get(k)`. -/
def lookupAssoc {α β : Type} [DecidableEq α] (l : List (α × β)) (k : α) :
    Option β :=
  match l with
  | [] => none
  | (k', v) :: r => if k' = k then some v else lookupAssoc r k

/-- `if section not in self.parsed_data: self.parsed_data[section] = {}`
(main.py lines 270-271 and 280-281). -/
def ensureSection (pd : ParsedData) (sec : Option String) : ParsedData :=
  updateAssoc pd sec (fun old => old.getD (.sec {}))

/-- `MarkdownParser._save_subsection` (main.py lines 278-286).  After the
ensure, the key is present; when its value is the title string, lines
283-286 operate on a `str`: whether the item assignment at line 284 or the
string indexing at line 286 fires first (decided by the substring test
`'subsections' not in <str>`), a `TypeError` is raised before any write. -/
def saveSubsection (pd0 : ParsedData) (sec : Option String) (sub : String)
    (content : List String) : Except PyErr ParsedData :=
  let pd := ensureSection pd0 sec
  match lookupAssoc pd sec with
  | some (.sec sd) => .ok (setAssoc pd sec (.sec
      { sd with subsections := setAssoc sd.subsections sub content }))
  | _ => .error (.typeError "str object does not support item assignment")

/-- `MarkdownParser._save_section` (main.py lines 268-276); `subsection`
is truthiness-tested, so `some ""` behaves like `none`.  The item
assignment `parsed_data[section]['content'] = content` at line 276 on the
title string raises `TypeError`. -/
def saveSection (pd0 : ParsedData) (sec : String) (sub : Option String)
    (content : List String) : Except PyErr ParsedData :=
  let pd := ensureSection pd0 (some sec)
  match sub with
  | some s =>
    if s ≠ "" then saveSubsection pd (some sec) s content
    else
      match lookupAssoc pd (some sec) with
      | some (.sec sd) => .ok (setAssoc pd (some sec)
          (.sec { sd with content := some content }))
      | _ => .error (.typeError "str object does not support item assignment")
  | none =>
      match lookupAssoc pd (some sec) with
      | some (.sec sd) => .ok (setAssoc pd (some sec)
          (.sec { sd with content := some content }))
      | _ => .error (.typeError "str object does not support item assignment")

/-- The loop state; `err` records a raised `TypeError`, which aborts the
loop (the remaining iterations are skipped and `parse` re-raises it). -/
structure PState where
  data : ParsedData := []
  currentSection : Option String := none
  currentSubsection : Option String := none
  currentContent : List String := []
  err : Option PyErr := none
deriving Repr, DecidableEq

/-- The `## ` branch (main.py lines 238-246): save the previous section if
truthy, then start the new one; an exception from the save aborts. -/
def secTransition (st : PState) (t : String) : PState :=
  match st.currentSection with
  | some sec =>
    if sec ≠ "" then
      match saveSection st.data sec st.currentSubsection st.currentContent with
      | .ok d =>
          { data := d
            currentSection := some t
            currentSubsection := none
            currentContent := []
            err := st.err }
      | .error e => { st with err := some e }
    else
      { st with
          currentSection := some t
          currentSubsection := none
          currentContent := [] }
  | none =>
      { st with
          currentSection := some t
          currentSubsection := none
          currentContent := [] }

/-- The `### ` branch (main.py lines 247-254): save the previous subsection
if truthy, then start the new one; an exception from the save aborts. -/
def subTransition (st : PState) (t : String) : PState :=
  match st.currentSubsection with
  | some sub =>
    if sub ≠ "" then
      match saveSubsection st.data st.currentSection sub st.currentContent with
      | .ok d =>
          { st with
              data := d
              currentSubsection := some t
              currentContent := [] }
      | .error e => { st with err := some e }
    else
      { st with
          currentSubsection := some t
          currentContent := [] }
  | none =>
      { st with
          currentSubsection := some t
          currentContent := [] }

/-- One iteration of the `MarkdownParser.parse` loop (main.py lines
232-260); once an exception is recorded the loop has aborted, so the step
is the identity. -/
def parseStep (st : PState) (raw : String) : PState :=
  if st.err.isSome then st else
  let line := pyStrip raw
  if pyStartsWith line "# " then
    { st with data := setAssoc st.data (some "title") (.str (pyStrip (pyDrop line 2))) }
  else if pyStartsWith line "## " then
    secTransition st (pyStrip (pyDrop line 3))
  else if pyStartsWith line "### " then
    subTransition st (pyStrip (pyDrop line 4))
  else if pyStartsWith line "|" && pyContains line "|" then
    { st with currentContent := st.currentContent ++ [line] }
  else if line ≠ "" then
    { st with currentContent := st.currentContent ++ [line] }
  else st

/-- The loop over all lines plus the final save (main.py lines 232-266):
an uncaught `TypeError` propagates out of `parse`. -/
def parseLines (lines : List String) : Except PyErr ParsedData :=
  let st := lines.foldl parseStep {}
  match st.err with
  | some e => .error e
  | none =>
    match st.currentSection with
    | some sec =>
      if sec ≠ "" then saveSection st.data sec st.currentSubsection st.currentContent
      else .ok st.data
    | none => .ok st.data

/-- `MarkdownParser.parse` (main.py lines 225-266) on the raw markdown
string: `self.markdown_content.split('\n')` then the line loop. -/
def MarkdownParser.parse (md : String) : Except PyErr ParsedData :=
  parseLines (pySplitChar md '\n')

/-- The section headings `_generate_markdown` emits (`## ` lines at main.py
lines 766, 775, 821, 846, 858, 931, 945), conditionals mirrored. -/
def emittedSectionTitles (doc : FSDDocument) : List String :=
  [doc.program_name, "1. INFORMASI DOKUMEN", "2. PERSYARATAN UMUM",
   "3. EXISTING SAP OBJECTS", "4. DESAIN"]
  ++ (if doc.error_scenarios ≠ [] then ["5. PENANGANAN ERROR"] else [])
  ++ (if doc.test_scenarios ≠ [] then ["6. PERSYARATAN PENGUJIAN"] else [])

/-- The subsection headings emitted under `4. DESAIN` (`### ` lines at
main.py lines 860, 869, 886, 900 and `append_form` calls 924-926). -/
def emittedDesignSubTitles (doc : FSDDocument) : List String :=
  ["4.1 Description detail dari Report"]
  ++ (if doc.selection_parameters ≠ [] then ["4.2 Selection Screen"] else [])
  ++ (if doc.field_mappings ≠ [] then ["4.3 Detail Processing"] else [])
  ++ (if doc.valid_dataset_rules ≠ [] then
        ["4.4 Detail Process Only valid datasets"] else [])
  ++ (if doc.country_info ≠ [] then ["Form Get_Country_Info"] else [])
  ++ (if doc.currency_t500c ≠ [] then ["Form Get_Currency_T500C"] else [])
  ++ (if doc.currency_t001 ≠ [] then ["Form Get_Currency_T001"] else [])

def docC3cx : FSDDocument :=
  { program_name := "PROG"
    report_description := "DESC"
    desain_report_description := "## FAKE" }

def docC3t : FSDDocument :=
  { program_name := "title"
    report_description := "DESC"
    desain_report_description := "D" }

/-- C3 counterexample, two failure modes of the unqualified round trip.
First, the description field is interpolated verbatim, so a
`desain_report_description` of `"## FAKE"` becomes a line of the rendered
markdown and the parser turns it into a section key `FAKE` that the
renderer never emitted as a heading.  Second, a program named `title`
collides with the `'title'` slot of the parser's single dict: saving that
section finds the title string and `parse` raises `TypeError` instead of
returning at all. -/
theorem C3_counterexample :
    ((MarkdownParser.parse (generateMarkdown envA docC3cx)).map
        (fun pd => (pdSectionKeys pd).contains (some "FAKE")) = .ok true ∧
      "FAKE" ∉ emittedSectionTitles docC3cx) ∧
    MarkdownParser.parse (generateMarkdown envA docC3t)
      = .error (.typeError "str object does not support item assignment") := by
  decide

/-! Splitting the joined markdown back into the rendered lines. -/

theorem splitOnChar_ne_nil (c : Char) (l : List Char) : splitOnChar c l ≠ [] := by
  cases l with
  | nil => simp [splitOnChar]
  | cons x xs =>
    unfold splitOnChar
    by_cases h : x = c
    · simp [h]
    · simp only [if_neg h]
      cases splitOnChar c xs with
      | nil => simp
      | cons y ys => simp

theorem splitOnChar_append (c : Char) (a b : List Char) :
    splitOnChar c (a ++ c :: b) = splitOnChar c a ++ splitOnChar c b := by
  induction a with
  | nil => simp [splitOnChar]
  | cons x xs ih =>
    by_cases h : x = c
    · simp only [List.cons_append, splitOnChar, if_pos h, List.append_eq]
      rw [ih]
    · simp only [List.cons_append, splitOnChar, if_neg h, List.append_eq]
      rw [ih]
      cases hs : splitOnChar c xs with
      | nil => exact absurd hs (splitOnChar_ne_nil c xs)
      | cons y ys => simp

theorem splitOnChar_no_sep {c : Char} {l : List Char} (h : l.contains c = false) :
    splitOnChar c l = [l] := by
  induction l with
  | nil => rfl
  | cons x xs ih =>
    simp only [List.contains_cons, Bool.or_eq_false_iff, beq_eq_false_iff_ne] at h
    unfold splitOnChar
    rw [if_neg (fun e => h.1 e.symm), ih h.2]

/-! Shape lemmas for `pyStrip` and the parser branch conditions. -/

theorem pyStrip_data (s : String) : (pyStrip s).data = stripChars s.data := rfl

theorem stripChars_cons_ws {c : Char} {l : List Char} (h : isPyWS c = true) :
    stripChars (c :: l) = stripChars l := by
  simp [stripChars, List.dropWhile_cons, h]

theorem dropWhile_append_singleton {p : Char → Bool} {c : Char} (m : List Char) :
    (m ++ [c]).dropWhile p
      = if (m.dropWhile p).isEmpty then [c].dropWhile p else m.dropWhile p ++ [c] := by
  induction m with
  | nil => simp
  | cons x xs ih =>
    by_cases hx : p x
    · simp [List.dropWhile_cons, hx, ih]
    · simp [List.dropWhile_cons, hx]

theorem rstripChars_cons_nonws {c : Char} {l : List Char} (h : isPyWS c = false) :
    rstripChars (c :: l) = c :: rstripChars l := by
  unfold rstripChars
  rw [List.reverse_cons, dropWhile_append_singleton]
  by_cases he : (l.reverse.dropWhile isPyWS).isEmpty
  · rw [if_pos he]
    rw [List.isEmpty_iff] at he
    rw [he]
    simp [List.dropWhile_cons, h]
  · rw [if_neg he]
    simp

theorem stripChars_cons_nonws {c : Char} {l : List Char} (h : isPyWS c = false) :
    stripChars (c :: l) = c :: rstripChars l := by
  have h1 : stripChars (c :: l) = rstripChars (c :: l) := by
    simp [stripChars, rstripChars, List.dropWhile_cons, h]
  rw [h1, rstripChars_cons_nonws h]

theorem startsWith_false_of_head_ne {s pre : String} {c p0 : Char}
    {l m : List Char} (hs : s.data = c :: l) (hp : pre.data = p0 :: m)
    (h : (c == p0) = false) : pyStartsWith s pre = false := by
  rw [beq_eq_false_iff_ne] at h
  simp [pyStartsWith, hs, hp, List.isPrefixOf, BEq.beq]
  intro he
  exact absurd he.symm h

/-- A line is neutral for the parser when its stripped form is not a
heading: the parser then at most appends to `current_content`. -/
def neutralLine (raw : String) : Prop :=
  pyStartsWith (pyStrip raw) "# " = false ∧
  pyStartsWith (pyStrip raw) "## " = false ∧
  pyStartsWith (pyStrip raw) "### " = false

theorem parseStep_neutral {st : PState} {raw : String} (h : neutralLine raw) :
    ∃ cc, parseStep st raw = { st with currentContent := cc } := by
  obtain ⟨h1, h2, h3⟩ := h
  unfold parseStep
  by_cases he : st.err.isSome
  · rw [if_pos he]
    exact ⟨st.currentContent, rfl⟩
  rw [if_neg he]
  simp only [h1, h2, h3, Bool.false_eq_true, if_false]
  by_cases hp : pyStartsWith (pyStrip raw) "|" && pyContains (pyStrip raw) "|"
  · rw [if_pos hp]
    exact ⟨st.currentContent ++ [pyStrip raw], rfl⟩
  · rw [if_neg hp]
    by_cases he : pyStrip raw ≠ ""
    · rw [if_pos he]
      exact ⟨st.currentContent ++ [pyStrip raw], rfl⟩
    · rw [if_neg he]
      exact ⟨st.currentContent, rfl⟩

theorem neutralLine_of_head {raw : String} {c : Char} {l : List Char}
    (hd : (pyStrip raw).data = c :: l) (hc : (c == '#') = false) :
    neutralLine raw :=
  ⟨startsWith_false_of_head_ne hd rfl hc,
   startsWith_false_of_head_ne hd rfl hc,
   startsWith_false_of_head_ne hd rfl hc⟩

theorem neutralLine_blank : neutralLine "" := by
  refine ⟨?_, ?_, ?_⟩ <;> decide

/-- A neutral head character survives `strip`: if `s` starts with the
non-whitespace character `c`, so does `s.strip()`. -/
theorem strip_head_of_data {s : String} {c : Char} {l : List Char}
    (hd : s.data = c :: l) (hws : isPyWS c = false) :
    (pyStrip s).data = c :: rstripChars l := by
  rw [pyStrip_data, hd, stripChars_cons_nonws hws]

theorem neutralLine_of_pref {raw P : String} {c : Char} {l : List Char}
    (h : pyStartsWith raw P = true) (hP : P.data = c :: l)
    (hws : isPyWS c = false) (hc : (c == '#') = false) : neutralLine raw := by
  have hpre : P.data <+: raw.data := by
    simpa [pyStartsWith, List.isPrefixOf_iff_prefix] using h
  obtain ⟨t, ht⟩ := hpre
  rw [hP] at ht
  exact neutralLine_of_head (strip_head_of_data ht.symm hws) hc

/-- Lines opening with `"  - "`: strip removes the two spaces, the dash
survives. -/
theorem neutralLine_of_indent {raw : String}
    (h : pyStartsWith raw "  - " = true) : neutralLine raw := by
  have hpre : ("  - " : String).data <+: raw.data := by
    simpa [pyStartsWith, List.isPrefixOf_iff_prefix] using h
  obtain ⟨t, ht⟩ := hpre
  have ht' : raw.data = ' ' :: ' ' :: '-' :: ' ' :: t := ht.symm
  have hd : (pyStrip raw).data = '-' :: rstripChars (' ' :: t) := by
    rw [pyStrip_data, ht', stripChars_cons_ws (by decide),
      stripChars_cons_ws (by decide), stripChars_cons_nonws (by decide)]
  exact neutralLine_of_head hd (by decide)

theorem foldl_parseStep_neutral {lines : List String}
    (h : ∀ raw ∈ lines, neutralLine raw) (st : PState) :
    ∃ cc, lines.foldl parseStep st = { st with currentContent := cc } := by
  induction lines generalizing st with
  | nil => exact ⟨st.currentContent, rfl⟩
  | cons x xs ih =>
    obtain ⟨c1, h1⟩ := @parseStep_neutral st _ (h x (by simp))
    obtain ⟨cc, hcc⟩ := ih (fun r hr => h r (List.mem_cons_of_mem _ hr))
      { st with currentContent := c1 }
    exact ⟨cc, by rw [List.foldl_cons, h1, hcc]⟩

/-! Heading steps of the parser. -/

theorem parseStep_blank (st : PState) : parseStep st "" = st := by
  unfold parseStep
  by_cases he : st.err.isSome
  · rw [if_pos he]
  · rw [if_neg he]
    rfl

theorem hash2_not_hash1 (t : String) : pyStartsWith ("## " ++ t) "# " = false := by
  have hd : ("## " ++ t).data = '#' :: '#' :: ' ' :: t.data := by
    rw [String.data_append]; rfl
  rw [pyStartsWith, hd, show ("# " : String).data = ['#', ' '] from rfl]
  simp [List.isPrefixOf]

theorem hash3_not_hash1 (t : String) : pyStartsWith ("### " ++ t) "# " = false := by
  have hd : ("### " ++ t).data = '#' :: '#' :: '#' :: ' ' :: t.data := by
    rw [String.data_append]; rfl
  rw [pyStartsWith, hd, show ("# " : String).data = ['#', ' '] from rfl]
  simp [List.isPrefixOf]

theorem hash3_not_hash2 (t : String) : pyStartsWith ("### " ++ t) "## " = false := by
  have hd : ("### " ++ t).data = '#' :: '#' :: '#' :: ' ' :: t.data := by
    rw [String.data_append]; rfl
  rw [pyStartsWith, hd, show ("## " : String).data = ['#', '#', ' '] from rfl]
  simp [List.isPrefixOf]

theorem pyDrop_append3 (P t : String) (h : P.data.length = 3) :
    pyDrop (P ++ t) 3 = t := by
  unfold pyDrop
  rw [String.data_append, ← h, List.drop_left]

theorem pyDrop_append4 (P t : String) (h : P.data.length = 4) :
    pyDrop (P ++ t) 4 = t := by
  unfold pyDrop
  rw [String.data_append, ← h, List.drop_left]

/-- A `## ` heading line whose text is strip-clean performs exactly the
section transition. -/
theorem parseStep_h2 (st : PState) (t : String) (he : st.err = none)
    (hstrip : pyStrip ("## " ++ t) = "## " ++ t) (ht : pyStrip t = t) :
    parseStep st ("## " ++ t) = secTransition st t := by
  unfold parseStep
  simp only [he, Option.isSome_none, hstrip, hash2_not_hash1,
    Bool.false_eq_true, if_false,
    pyStartsWith_append_self, if_true, pyDrop_append3 "## " t (by rfl), ht]

/-- A `### ` heading line whose text is strip-clean performs exactly the
subsection transition. -/
theorem parseStep_h3 (st : PState) (t : String) (he : st.err = none)
    (hstrip : pyStrip ("### " ++ t) = "### " ++ t) (ht : pyStrip t = t) :
    parseStep st ("### " ++ t) = subTransition st t := by
  unfold parseStep
  simp only [he, Option.isSome_none, hstrip, hash3_not_hash1, hash3_not_hash2,
    Bool.false_eq_true, if_false,
    pyStartsWith_append_self, if_true, pyDrop_append4 "### " t (by rfl), ht]

/-- The fixed document title line opening the rendered markdown writes the
title string at the dict key `'title'`. -/
theorem parseStep_title :
    parseStep {} "# Functional Specification Design (FSD)"
      = { data := [(some "title",
            .str "Functional Specification Design (FSD)")]
          currentSection := none
          currentSubsection := none
          currentContent := []
          err := none } := by
  unfold parseStep
  rw [if_neg (by decide)]
  rw [show pyStrip "# Functional Specification Design (FSD)"
      = "# Functional Specification Design (FSD)" from by decide]
  rw [if_pos (by decide)]
  rw [show pyStrip (pyDrop "# Functional Specification Design (FSD)" 2)
      = "Functional Specification Design (FSD)" from by decide]
  rfl

/-! Dictionary write shapes used by the walk over the rendered document. -/

theorem updateAssoc_not_mem {α β : Type} [DecidableEq α] {l : List (α × β)} {k : α}
    (h : k ∉ l.map Prod.fst) (f : Option β → β) :
    updateAssoc l k f = l ++ [(k, f none)] := by
  induction l with
  | nil => rfl
  | cons kv r ih =>
    simp only [List.map_cons, List.mem_cons, not_or] at h
    unfold updateAssoc
    rw [if_neg (fun e => h.1 e.symm), ih h.2]
    rfl

theorem updateAssoc_append_last {α β : Type} [DecidableEq α] {l : List (α × β)}
    {k : α} {v : β} (h : k ∉ l.map Prod.fst) (f : Option β → β) :
    updateAssoc (l ++ [(k, v)]) k f = l ++ [(k, f (some v))] := by
  induction l with
  | nil => simp [updateAssoc]
  | cons kv r ih =>
    simp only [List.map_cons, List.mem_cons, not_or] at h
    simp only [List.cons_append, updateAssoc, List.append_eq]
    rw [if_neg (fun e => h.1 e.symm), ih h.2]

theorem setAssoc_not_mem {α β : Type} [DecidableEq α] {l : List (α × β)} {k : α}
    (h : k ∉ l.map Prod.fst) (v : β) :
    setAssoc l k v = l ++ [(k, v)] := by
  induction l with
  | nil => rfl
  | cons kv r ih =>
    simp only [List.map_cons, List.mem_cons, not_or] at h
    unfold setAssoc
    rw [if_neg (fun e => h.1 e.symm), ih h.2]
    rfl

theorem setAssoc_append_last {α β : Type} [DecidableEq α] {l : List (α × β)}
    {k : α} {v : β} (h : k ∉ l.map Prod.fst) (w : β) :
    setAssoc (l ++ [(k, v)]) k w = l ++ [(k, w)] := by
  induction l with
  | nil => simp [setAssoc]
  | cons kv r ih =>
    simp only [List.map_cons, List.mem_cons, not_or] at h
    simp only [List.cons_append, setAssoc, List.append_eq]
    rw [if_neg (fun e => h.1 e.symm), ih h.2]

theorem lookupAssoc_append_last {α β : Type} [DecidableEq α] {l : List (α × β)}
    {k : α} {v : β} (h : k ∉ l.map Prod.fst) :
    lookupAssoc (l ++ [(k, v)]) k = some v := by
  induction l with
  | nil => simp [lookupAssoc]
  | cons kv r ih =>
    obtain ⟨a, b⟩ := kv
    simp only [List.map_cons, List.mem_cons, not_or] at h
    simp only [List.cons_append, lookupAssoc, List.append_eq]
    rw [if_neg (fun e => h.1 e.symm), ih h.2]

theorem ensureSection_not_mem {S : ParsedData} {sec : Option String}
    (h : sec ∉ S.map Prod.fst) :
    ensureSection S sec = S ++ [(sec, .sec {})] := by
  unfold ensureSection
  rw [updateAssoc_not_mem h]
  rfl

theorem ensureSection_last {S : ParsedData} {sec : Option String} {v : PVal}
    (h : sec ∉ S.map Prod.fst) :
    ensureSection (S ++ [(sec, v)]) sec = S ++ [(sec, v)] := by
  unfold ensureSection
  rw [updateAssoc_append_last h]
  rfl

theorem saveSubsection_new {S : ParsedData} {sec : Option String}
    (h : sec ∉ S.map Prod.fst) (sub : String) (c : List String) :
    saveSubsection S sec sub c
      = .ok (S ++ [(sec, .sec
          { content := none, subsections := [(sub, c)] })]) := by
  simp only [saveSubsection, ensureSection_not_mem h, lookupAssoc_append_last h,
    setAssoc_append_last h, setAssoc]

theorem saveSubsection_last {S : ParsedData} {sec : Option String}
    {sd : SectionData} (h : sec ∉ S.map Prod.fst)
    {sub : String} (hsub : sub ∉ sd.subsections.map Prod.fst) (c : List String) :
    saveSubsection (S ++ [(sec, .sec sd)]) sec sub c
      = .ok (S ++ [(sec, .sec
          { sd with subsections := sd.subsections ++ [(sub, c)] })]) := by
  simp only [saveSubsection, ensureSection_last h, lookupAssoc_append_last h,
    setAssoc_append_last h]
  rw [setAssoc_not_mem hsub]

theorem saveSection_new {S : ParsedData} {sec : String}
    (h : (some sec) ∉ S.map Prod.fst) (c : List String) :
    saveSection S sec none c
      = .ok (S ++ [(some sec, .sec
          { content := some c, subsections := [] })]) := by
  simp only [saveSection, ensureSection_not_mem h, lookupAssoc_append_last h,
    setAssoc_append_last h]

theorem saveSection_sub_new {S : ParsedData} {sec : String}
    (h : (some sec) ∉ S.map Prod.fst) {sub : String} (hsub : sub ≠ "")
    (c : List String) :
    saveSection S sec (some sub) c
      = .ok (S ++ [(some sec, .sec
          { content := none, subsections := [(sub, c)] })]) := by
  simp only [saveSection, ensureSection_not_mem h, if_pos hsub]
  rw [saveSubsection_last h (by simp) c]
  rfl

theorem saveSection_sub_last {S : ParsedData} {sec : String} {sd : SectionData}
    (h : (some sec) ∉ S.map Prod.fst) {sub : String} (hsub : sub ≠ "")
    (hmem : sub ∉ sd.subsections.map Prod.fst) (c : List String) :
    saveSection (S ++ [(some sec, .sec sd)]) sec (some sub) c
      = .ok (S ++ [(some sec, .sec
          { sd with subsections := sd.subsections ++ [(sub, c)] })]) := by
  simp only [saveSection, ensureSection_last h, if_pos hsub]
  rw [saveSubsection_last h hmem c]

theorem saveSection_content_last {S : ParsedData} {sec : String} {sd : SectionData}
    (h : (some sec) ∉ S.map Prod.fst) (c : List String) :
    saveSection (S ++ [(some sec, .sec sd)]) sec none c
      = .ok (S ++ [(some sec, .sec { sd with content := some c })]) := by
  simp only [saveSection, ensureSection_last h, lookupAssoc_append_last h,
    setAssoc_append_last h]

/-! The `4. DESAIN` table region: a run of optional `### ` blocks.  Each
block is its heading plus neutral lines; the parser saves the pending
subsection at each heading and the caller saves the last pending one. -/

def designBlockLines (b : String × List String) : List String :=
  ("### " ++ b.1) :: b.2

def secEntryOpt (sec : String) (subs : Option (List (String × List String))) :
    ParsedData :=
  match subs with
  | none => []
  | some sl => [(some sec, .sec { content := none, subsections := sl })]

theorem foldl_design_chain (sec : String) (blocks : List (String × List String))
    (S₀ : ParsedData)
    (subs : Option (List (String × List String))) (sub : String) (cc₀ : List String)
    (hsec : (some sec) ∉ S₀.map Prod.fst)
    (hsub : sub ≠ "")
    (hnodup : (sub :: blocks.map Prod.fst).Nodup)
    (hnotin : ∀ t ∈ sub :: blocks.map Prod.fst, t ∉ (subs.getD []).map Prod.fst)
    (hne : ∀ t ∈ blocks.map Prod.fst, t ≠ "")
    (hbn : ∀ b ∈ blocks, ∀ raw ∈ b.2, neutralLine raw)
    (hbt : ∀ b ∈ blocks, pyStrip ("### " ++ b.1) = "### " ++ b.1 ∧ pyStrip b.1 = b.1) :
    ∃ cc sub' D subsAll,
      List.foldl parseStep
        { data := S₀ ++ secEntryOpt sec subs
          currentSection := some sec
          currentSubsection := some sub
          currentContent := cc₀
          err := none }
        (blocks.flatMap designBlockLines)
      = { data := D
          currentSection := some sec
          currentSubsection := some sub'
          currentContent := cc
          err := none } ∧
      sub' ≠ "" ∧
      saveSection D sec (some sub') cc
        = .ok (S₀ ++ [(some sec,
            .sec { content := none, subsections := subsAll })]) ∧
      subsAll.map Prod.fst
        = (subs.getD []).map Prod.fst ++ sub :: blocks.map Prod.fst := by
  induction blocks generalizing subs sub cc₀ with
  | nil =>
    refine ⟨cc₀, sub, S₀ ++ secEntryOpt sec subs,
      (subs.getD []) ++ [(sub, cc₀)], by simp [designBlockLines], hsub, ?_, by simp⟩
    cases subs with
    | none =>
      rw [show secEntryOpt sec none = [] from rfl, List.append_nil]
      rw [saveSection_sub_new hsec hsub cc₀]
      rfl
    | some sl =>
      rw [show secEntryOpt sec (some sl)
        = [(some sec, .sec { content := none, subsections := sl })] from rfl]
      rw [saveSection_sub_last hsec hsub (hnotin sub (by simp)) cc₀]
      rfl
  | cons b rest ih =>
    simp only [List.flatMap_cons, designBlockLines, List.cons_append]
    rw [List.foldl_cons]
    rw [parseStep_h3 _ b.1 rfl (hbt b (by simp)).1 (hbt b (by simp)).2]
    have hstep : subTransition
        { data := S₀ ++ secEntryOpt sec subs
          currentSection := some sec
          currentSubsection := some sub
          currentContent := cc₀
          err := none } b.1
      = { data := S₀ ++ secEntryOpt sec (some ((subs.getD []) ++ [(sub, cc₀)]))
          currentSection := some sec
          currentSubsection := some b.1
          currentContent := []
          err := none } := by
      unfold subTransition
      simp only [if_pos hsub]
      cases subs with
      | none =>
        rw [show secEntryOpt sec none = [] from rfl, List.append_nil]
        rw [saveSubsection_new hsec sub cc₀]
        rfl
      | some sl =>
        rw [show secEntryOpt sec (some sl)
          = [(some sec, .sec { content := none, subsections := sl })] from rfl]
        rw [saveSubsection_last hsec (hnotin sub (by simp)) cc₀]
        rfl
    rw [hstep, List.foldl_append]
    obtain ⟨cc₁, hcc₁⟩ := foldl_parseStep_neutral (hbn b (by simp)) _
    rw [hcc₁]
    have hrest := ih (some ((subs.getD []) ++ [(sub, cc₀)])) b.1 cc₁
      (hne b.1 (by simp))
      (by
        have := hnodup.of_cons
        simpa using this)
      (by
        intro t ht
        simp only [Option.getD_some, List.map_append, List.mem_append] at *
        rintro (h1 | h2)
        · exact hnotin t (List.mem_cons_of_mem _ ht) h1
        · simp at h2
          rw [h2] at ht
          have := List.Nodup.not_mem hnodup
          exact this ht)
      (fun t ht => hne t (List.mem_cons_of_mem _ ht))
      (fun x hx => hbn x (List.mem_cons_of_mem _ hx))
      (fun x hx => hbt x (List.mem_cons_of_mem _ hx))
    obtain ⟨cc, sub', D, subsAll, h1, h2, h3, h4⟩ := hrest
    refine ⟨cc, sub', D, subsAll, h1, h2, h3, ?_⟩
    rw [h4]
    simp

/-! Decomposing the rendered document around the design-table region. -/

theorem flatMap_if_singleton {c : Prop} [Decidable c] {α β : Type} (b : α)
    (f : α → List β) :
    (if c then [b] else []).flatMap f = if c then f b else [] := by
  split <;> simp

/-- The lines of `_generate_markdown` before the optional design tables:
everything through the description under `### 4.1`. -/
def preDesignLines (env : RenderEnv) (doc : FSDDocument) : List String :=
  ["# Functional Specification Design (FSD)",
   "## " ++ doc.program_name,
   "### " ++ doc.report_description,
   "",
   "**Generated on:** " ++ env.now,
   ""]
  ++ ["## 1. INFORMASI DOKUMEN", "", "- **Project**: " ++ doc.project_name,
      "- **Document Location**: " ++ doc.document_location, ""]
  ++ (if doc.related_documents ≠ [] then
        ["- **Related Documents**:"]
          ++ doc.related_documents.map (relatedDocLine env) ++ [""] else [])
  ++ (if doc.reviewers ≠ [] then
        ["- **Reviewers**:"]
          ++ doc.reviewers.map (fun r => "  - " ++ r.role ++ ": " ++ r.name) ++ [""]
      else [])
  ++ (if doc.version_history ≠ [] then
        ["- **Version History**:"]
          ++ doc.version_history.map (fun v =>
               "  - " ++ v.version ++ ": " ++ v.change ++ " by " ++ v.author
                 ++ " on " ++ v.date) ++ [""]
      else [])
  ++ ["## 2. PERSYARATAN UMUM", "",
      "**User Requirements**: " ++ resolveRequirementValue env doc, "",
      "**Assumptions**:"]
  ++ doc.assumptions.map (fun a => "- " ++ a)
  ++ [""]
  ++ ["## 3. EXISTING SAP OBJECTS", "",
      "- **Program Name**: " ++ resolveProgramNameValue env doc,
      "- **Transaction Code**: " ++ doc.transaction_code,
      "- **Menu Path**: " ++ doc.menu_path, ""]
  ++ ["## 4. DESAIN", "", "### 4.1 Description detail dari Report", "",
      composeReportDescription env doc, ""]

/-- The optional design-table blocks (4.2, 4.3, 4.4 and the three forms),
as heading-title/body pairs. -/
def designTableBlocks (doc : FSDDocument) : List (String × List String) :=
  (if doc.selection_parameters ≠ [] then
     [("4.2 Selection Screen",
       ["",
        "| Parameter | Type | Description | Mandatory | Select-Option | No Intervals |",
        "|-----------|------|-------------|-----------|---------------|--------------|"]
        ++ doc.selection_parameters.map selectionRowLine ++ [""])] else [])
  ++ (if doc.field_mappings ≠ [] then
     [("4.3 Detail Processing",
       ["",
        "| Field Name | Technical Field | Source Table | Processing Logic | Processing Type |",
        "|------------|-----------------|--------------|------------------|-----------------|"]
        ++ doc.field_mappings.map fieldMappingRowLine ++ [""])] else [])
  ++ (if doc.valid_dataset_rules ≠ [] then
     [("4.4 Detail Process Only valid datasets",
       ["", "| Data | Kondisi |", "|------|---------|"]
        ++ doc.valid_dataset_rules.map dataCondRowLine ++ [""])] else [])
  ++ (if doc.country_info ≠ [] then
     [("Form Get_Country_Info",
       ["", "| Data | Kondisi |", "|------|---------|"]
        ++ doc.country_info.map dataCondRowLine ++ [""])] else [])
  ++ (if doc.currency_t500c ≠ [] then
     [("Form Get_Currency_T500C",
       ["", "| Data | Kondisi |", "|------|---------|"]
        ++ doc.currency_t500c.map dataCondRowLine ++ [""])] else [])
  ++ (if doc.currency_t001 ≠ [] then
     [("Form Get_Currency_T001",
       ["", "| Data | Kondisi |", "|------|---------|"]
        ++ doc.currency_t001.map dataCondRowLine ++ [""])] else [])

/-- The lines after the design region: the optional error and testing
sections. -/
def postDesignLines (doc : FSDDocument) : List String :=
  (if doc.error_scenarios ≠ [] then
     ["## 5. PENANGANAN ERROR", "",
      "| No | Error Description | Resolution | Error Code | Severity |",
      "|----|-------------------|------------|------------|----------|"]
      ++ errorRowLines 1 doc.error_scenarios ++ [""] else [])
  ++ (if doc.test_scenarios ≠ [] then
     ["## 6. PERSYARATAN PENGUJIAN", "",
      "| No | Test Condition | Expected Result | Test Data | Priority |",
      "|----|----------------|-----------------|-----------|----------|"]
      ++ testRowLines 1 doc.test_scenarios else [])

theorem generateMarkdownLines_decomp (env : RenderEnv) (doc : FSDDocument) :
    generateMarkdownLines env doc
      = preDesignLines env doc ++ (designTableBlocks doc).flatMap designBlockLines
          ++ postDesignLines doc := by
  unfold generateMarkdownLines preDesignLines designTableBlocks postDesignLines
    appendFormLines
  simp only [List.flatMap_append, flatMap_if_singleton, designBlockLines,
    List.append_assoc, List.cons_append, List.nil_append]
  simp

/-! Properties of the design-table blocks. -/

theorem if_singleton_sublist {c : Prop} [Decidable c] {α : Type} (x : α) :
    List.Sublist (if c then [x] else []) [x] := by
  split
  · exact List.Sublist.refl _
  · exact List.nil_sublist _

theorem map_if_singleton {c : Prop} [Decidable c] {α β : Type} (x : α) (f : α → β) :
    (if c then [x] else []).map f = if c then [f x] else [] := by
  split <;> simp

def designSubTitlePool : List String :=
  ["4.2 Selection Screen", "4.3 Detail Processing",
   "4.4 Detail Process Only valid datasets", "Form Get_Country_Info",
   "Form Get_Currency_T500C", "Form Get_Currency_T001"]

theorem designTableBlocks_titles_sublist (doc : FSDDocument) :
    List.Sublist ((designTableBlocks doc).map Prod.fst) designSubTitlePool := by
  unfold designTableBlocks
  simp only [List.map_append, map_if_singleton, List.append_assoc]
  show List.Sublist _
    (["4.2 Selection Screen"] ++ (["4.3 Detail Processing"] ++
     (["4.4 Detail Process Only valid datasets"] ++ (["Form Get_Country_Info"] ++
     (["Form Get_Currency_T500C"] ++ ["Form Get_Currency_T001"])))))
  refine List.Sublist.append (if_singleton_sublist _) ?_
  refine List.Sublist.append (if_singleton_sublist _) ?_
  refine List.Sublist.append (if_singleton_sublist _) ?_
  refine List.Sublist.append (if_singleton_sublist _) ?_
  exact List.Sublist.append (if_singleton_sublist _) (if_singleton_sublist _)

theorem designTableBlocks_titles_nodup (doc : FSDDocument) :
    ("4.1 Description detail dari Report"
      :: (designTableBlocks doc).map Prod.fst).Nodup := by
  have hs : List.Sublist
      ("4.1 Description detail dari Report" :: (designTableBlocks doc).map Prod.fst)
      ("4.1 Description detail dari Report" :: designSubTitlePool) :=
    (designTableBlocks_titles_sublist doc).cons₂ _
  exact List.Nodup.sublist hs (by decide)

theorem designTableBlocks_titles_ne (doc : FSDDocument) :
    ∀ t ∈ (designTableBlocks doc).map Prod.fst, t ≠ "" := by
  intro t ht
  have hp := (designTableBlocks_titles_sublist doc).subset ht
  simp only [designSubTitlePool, List.mem_cons, List.not_mem_nil, or_false] at hp
  rcases hp with rfl | rfl | rfl | rfl | rfl | rfl <;> decide

theorem designTableBlocks_titles_tidy (doc : FSDDocument) :
    ∀ b ∈ designTableBlocks doc,
      pyStrip ("### " ++ b.1) = "### " ++ b.1 ∧ pyStrip b.1 = b.1 := by
  intro b hb
  have hm : b.1 ∈ (designTableBlocks doc).map Prod.fst := List.mem_map_of_mem _ hb
  have hp := (designTableBlocks_titles_sublist doc).subset hm
  simp only [designSubTitlePool, List.mem_cons, List.not_mem_nil, or_false] at hp
  rcases hp with h | h | h | h | h | h <;> rw [h] <;> exact ⟨by decide, by decide⟩

theorem designTableBlocks_neutral (doc : FSDDocument) :
    ∀ b ∈ designTableBlocks doc, ∀ raw ∈ b.2, neutralLine raw := by
  intro b hb raw hraw
  simp only [designTableBlocks, List.mem_append] at hb
  rcases hb with ((((hb | hb) | hb) | hb) | hb) | hb <;>
    (split at hb
     · simp only [List.mem_singleton] at hb
       subst hb
       simp only [List.mem_append, List.mem_cons, List.not_mem_nil, or_false,
         List.mem_map, List.mem_singleton] at hraw
       rcases hraw with ((rfl | rfl | rfl) | hrow) | rfl
       · exact neutralLine_blank
       · refine ⟨by decide, by decide, by decide⟩
       · refine ⟨by decide, by decide, by decide⟩
       · obtain ⟨p, hp, rfl⟩ := hrow
         first
         | exact neutralLine_of_pref (selectionRowLine_pipe p) rfl (by decide) (by decide)
         | exact neutralLine_of_pref (fieldMappingRowLine_pipe p) rfl (by decide) (by decide)
         | exact neutralLine_of_pref (dataCondRowLine_pipe p) rfl (by decide) (by decide)
       · exact neutralLine_blank
     · simp at hb)

/-! Step-shape lemmas for the walk over the rendered document. -/

theorem secTransition_fresh (dat : ParsedData) (sub : Option String)
    (cc : List String) (t : String) :
    secTransition { data := dat
                    currentSection := none
                    currentSubsection := sub
                    currentContent := cc
                    err := none } t
      = { data := dat
          currentSection := some t
          currentSubsection := none
          currentContent := []
          err := none } := rfl

theorem subTransition_fresh (dat : ParsedData) (sec : Option String)
    (cc : List String) (t : String) :
    subTransition { data := dat
                    currentSection := sec
                    currentSubsection := none
                    currentContent := cc
                    err := none } t
      = { data := dat
          currentSection := sec
          currentSubsection := some t
          currentContent := []
          err := none } := rfl

theorem secTransition_filled (dat : ParsedData) (sec : String) (sub : Option String)
    (cc : List String) (t : String) (hsec : sec ≠ "") (d : ParsedData)
    (hsave : saveSection dat sec sub cc = .ok d) :
    secTransition { data := dat
                    currentSection := some sec
                    currentSubsection := sub
                    currentContent := cc
                    err := none } t
      = { data := d
          currentSection := some t
          currentSubsection := none
          currentContent := []
          err := none } := by
  unfold secTransition
  simp only [if_pos hsec, hsave]

theorem subTransition_filled (dat : ParsedData) (sec : Option String) (sub : String)
    (cc : List String) (t : String) (hsub : sub ≠ "") (d : ParsedData)
    (hsave : saveSubsection dat sec sub cc = .ok d) :
    subTransition { data := dat
                    currentSection := sec
                    currentSubsection := some sub
                    currentContent := cc
                    err := none } t
      = { data := d
          currentSection := sec
          currentSubsection := some t
          currentContent := []
          err := none } := by
  unfold subTransition
  simp only [if_pos hsub, hsave]

theorem parseStep_neutral_eq {st : PState} {raw : String} (h : neutralLine raw) :
    parseStep st raw
      = { data := st.data
          currentSection := st.currentSection
          currentSubsection := st.currentSubsection
          currentContent := (parseStep st raw).currentContent
          err := st.err } := by
  obtain ⟨cc, hcc⟩ := @parseStep_neutral st _ h
  rw [hcc]

theorem foldl_neutral_eq {lines : List String} (h : ∀ raw ∈ lines, neutralLine raw)
    (st : PState) :
    lines.foldl parseStep st
      = { data := st.data
          currentSection := st.currentSection
          currentSubsection := st.currentSubsection
          currentContent := (lines.foldl parseStep st).currentContent
          err := st.err } := by
  obtain ⟨cc, hcc⟩ := foldl_parseStep_neutral h st
  rw [hcc]

theorem parseStep_neutral_eq2 (dat : ParsedData) (sec sub : Option String)
    (cc : List String) {raw : String} (h : neutralLine raw) :
    parseStep { data := dat
                currentSection := sec
                currentSubsection := sub
                currentContent := cc
                err := none } raw
      = { data := dat
          currentSection := sec
          currentSubsection := sub
          currentContent := (parseStep { data := dat
                                         currentSection := sec
                                         currentSubsection := sub
                                         currentContent := cc
                                         err := none } raw).currentContent
          err := none } :=
  parseStep_neutral_eq h

theorem foldl_neutral_eq2 (dat : ParsedData) (sec sub : Option String)
    (cc : List String) {lines : List String}
    (h : ∀ raw ∈ lines, neutralLine raw) :
    lines.foldl parseStep { data := dat
                            currentSection := sec
                            currentSubsection := sub
                            currentContent := cc
                            err := none }
      = { data := dat
          currentSection := sec
          currentSubsection := sub
          currentContent := (lines.foldl parseStep
            { data := dat
              currentSection := sec
              currentSubsection := sub
              currentContent := cc
              err := none }).currentContent
          err := none } :=
  foldl_neutral_eq h _

theorem foldl_preDesign (env : RenderEnv) (doc : FSDDocument)
    (hpn_strip : pyStrip doc.program_name = doc.program_name)
    (hpn0 : doc.program_name ≠ "")
    (hpnL : pyStrip ("## " ++ doc.program_name) = "## " ++ doc.program_name)
    (hpnT : doc.program_name ≠ "title")
    (hpn1 : doc.program_name ≠ "1. INFORMASI DOKUMEN")
    (hpn2 : doc.program_name ≠ "2. PERSYARATAN UMUM")
    (hpn3 : doc.program_name ≠ "3. EXISTING SAP OBJECTS")
    (hrd_strip : pyStrip doc.report_description = doc.report_description)
    (hrd0 : doc.report_description ≠ "")
    (hrdL : pyStrip ("### " ++ doc.report_description) = "### " ++ doc.report_description)
    (hD : neutralLine (composeReportDescription env doc)) :
    ∃ g c1 c2 c3 c4,
      List.foldl parseStep {} (preDesignLines env doc)
        = ⟨[(some "title", .str "Functional Specification Design (FSD)"),
            (some doc.program_name, .sec ⟨none, [(doc.report_description, g)]⟩),
            (some "1. INFORMASI DOKUMEN", .sec ⟨some c1, []⟩),
            (some "2. PERSYARATAN UMUM", .sec ⟨some c2, []⟩),
            (some "3. EXISTING SAP OBJECTS", .sec ⟨some c3, []⟩)],
           some "4. DESAIN", some "4.1 Description detail dari Report", c4, none⟩ := by
  have hIF1 : ∀ raw ∈ (if doc.related_documents ≠ [] then
      ["- **Related Documents**:"]
        ++ doc.related_documents.map (relatedDocLine env) ++ [""] else []),
      neutralLine raw := by
    intro raw hraw
    split at hraw
    · simp only [List.mem_append, List.mem_cons, List.not_mem_nil, or_false,
        List.mem_map, List.mem_singleton] at hraw
      rcases hraw with (rfl | ⟨d, hd, rfl⟩) | rfl
      · exact ⟨by decide, by decide, by decide⟩
      · exact neutralLine_of_indent (relatedDocLine_indent env d)
      · exact neutralLine_blank
    · simp at hraw
  have hIF2 : ∀ raw ∈ (if doc.reviewers ≠ [] then
      ["- **Reviewers**:"]
        ++ doc.reviewers.map (fun r => "  - " ++ r.role ++ ": " ++ r.name) ++ [""]
      else []), neutralLine raw := by
    intro raw hraw
    split at hraw
    · simp only [List.mem_append, List.mem_cons, List.not_mem_nil, or_false,
        List.mem_map, List.mem_singleton] at hraw
      rcases hraw with (rfl | ⟨r, hr, rfl⟩) | rfl
      · exact ⟨by decide, by decide, by decide⟩
      · refine neutralLine_of_indent ?_
        repeat first | exact pyStartsWith_append_self _ _ | apply pyStartsWith_append_left
      · exact neutralLine_blank
    · simp at hraw
  have hIF3 : ∀ raw ∈ (if doc.version_history ≠ [] then
      ["- **Version History**:"]
        ++ doc.version_history.map (fun v =>
             "  - " ++ v.version ++ ": " ++ v.change ++ " by " ++ v.author
               ++ " on " ++ v.date) ++ [""]
      else []), neutralLine raw := by
    intro raw hraw
    split at hraw
    · simp only [List.mem_append, List.mem_cons, List.not_mem_nil, or_false,
        List.mem_map, List.mem_singleton] at hraw
      rcases hraw with (rfl | ⟨v, hv, rfl⟩) | rfl
      · exact ⟨by decide, by decide, by decide⟩
      · refine neutralLine_of_indent ?_
        repeat first | exact pyStartsWith_append_self _ _ | apply pyStartsWith_append_left
      · exact neutralLine_blank
    · simp at hraw
  have hMAP : ∀ raw ∈ doc.assumptions.map (fun a => "- " ++ a), neutralLine raw := by
    intro raw hraw
    obtain ⟨a, ha, rfl⟩ := List.mem_map.mp hraw
    exact neutralLine_of_pref (pyStartsWith_append_self "- " a) rfl
      (by decide) (by decide)
  apply Exists.intro
  apply Exists.intro
  apply Exists.intro
  apply Exists.intro
  apply Exists.intro
  unfold preDesignLines
  simp only [List.foldl_append, List.foldl_cons, List.foldl_nil, parseStep_blank]
  rw [parseStep_title]
  rw [parseStep_h2 _ _ rfl hpnL hpn_strip, secTransition_fresh]
  rw [parseStep_h3 _ _ rfl hrdL hrd_strip, subTransition_fresh]
  rw [parseStep_neutral_eq2 _ _ _ _ (neutralLine_of_pref
    (pyStartsWith_append_self "**Generated on:** " env.now) rfl (by decide) (by decide))]
  rw [show ("## 1. INFORMASI DOKUMEN" : String)
    = "## " ++ "1. INFORMASI DOKUMEN" from by decide]
  rw [parseStep_h2 _ "1. INFORMASI DOKUMEN" rfl (by decide) (by decide)]
  rw [secTransition_filled _ _ _ _ _ hpn0 _
    (saveSection_sub_new (by simp [hpnT]) hrd0 _)]
  rw [parseStep_neutral_eq2 _ _ _ _ (neutralLine_of_pref
    (pyStartsWith_append_self "- **Project**: " doc.project_name) rfl
    (by decide) (by decide))]
  rw [parseStep_neutral_eq2 _ _ _ _ (neutralLine_of_pref
    (pyStartsWith_append_self "- **Document Location**: " doc.document_location) rfl
    (by decide) (by decide))]
  rw [foldl_neutral_eq2 _ _ _ _ hIF1]
  rw [foldl_neutral_eq2 _ _ _ _ hIF2]
  rw [foldl_neutral_eq2 _ _ _ _ hIF3]
  rw [show ("## 2. PERSYARATAN UMUM" : String)
    = "## " ++ "2. PERSYARATAN UMUM" from by decide]
  rw [parseStep_h2 _ "2. PERSYARATAN UMUM" rfl (by decide) (by decide)]
  rw [secTransition_filled _ _ _ _ _ (by decide) _
    (saveSection_new (by simp; exact fun e => hpn1 e.symm) _)]
  rw [parseStep_neutral_eq2 _ _ _ _ (neutralLine_of_pref
    (pyStartsWith_append_self "**User Requirements**: "
      (resolveRequirementValue env doc)) rfl (by decide) (by decide))]
  rw [parseStep_neutral_eq2 _ _ _ _
    (show neutralLine "**Assumptions**:" from ⟨by decide, by decide, by decide⟩)]
  rw [foldl_neutral_eq2 _ _ _ _ hMAP]
  rw [show ("## 3. EXISTING SAP OBJECTS" : String)
    = "## " ++ "3. EXISTING SAP OBJECTS" from by decide]
  rw [parseStep_h2 _ "3. EXISTING SAP OBJECTS" rfl (by decide) (by decide)]
  rw [secTransition_filled _ _ _ _ _ (by decide) _
    (saveSection_new (by simp; exact fun e => hpn2 e.symm) _)]
  rw [parseStep_neutral_eq2 _ _ _ _ (neutralLine_of_pref
    (pyStartsWith_append_self "- **Program Name**: "
      (resolveProgramNameValue env doc)) rfl (by decide) (by decide))]
  rw [parseStep_neutral_eq2 _ _ _ _ (neutralLine_of_pref
    (pyStartsWith_append_self "- **Transaction Code**: " doc.transaction_code) rfl
    (by decide) (by decide))]
  rw [parseStep_neutral_eq2 _ _ _ _ (neutralLine_of_pref
    (pyStartsWith_append_self "- **Menu Path**: " doc.menu_path) rfl
    (by decide) (by decide))]
  rw [show ("## 4. DESAIN" : String) = "## " ++ "4. DESAIN" from by decide]
  rw [parseStep_h2 _ "4. DESAIN" rfl (by decide) (by decide)]
  rw [secTransition_filled _ _ _ _ _ (by decide) _
    (saveSection_new (by simp; exact fun e => hpn3 e.symm) _)]
  rw [show ("### 4.1 Description detail dari Report" : String)
    = "### " ++ "4.1 Description detail dari Report" from by decide]
  rw [parseStep_h3 _ "4.1 Description detail dari Report" rfl (by decide) (by decide)]
  rw [subTransition_fresh]
  rw [parseStep_neutral_eq2 _ _ _ _ hD]
  rfl

theorem designTableBlocks_titles_eq (doc : FSDDocument) :
    "4.1 Description detail dari Report" :: (designTableBlocks doc).map Prod.fst
      = emittedDesignSubTitles doc := by
  unfold designTableBlocks emittedDesignSubTitles
  simp only [List.map_append, map_if_singleton]
  rfl

theorem parseLines_eq {lines : List String} {dat : ParsedData} {sec : String}
    {sub : Option String} {cc : List String}
    (h : lines.foldl parseStep {} = ⟨dat, some sec, sub, cc, none⟩) (hsec : sec ≠ "") :
    parseLines lines = saveSection dat sec sub cc := by
  unfold parseLines
  rw [h]
  show (if sec ≠ "" then saveSection dat sec sub cc else .ok dat)
    = saveSection dat sec sub cc
  rw [if_pos hsec]

theorem generateMarkdownLines_ne_nil (env : RenderEnv) (doc : FSDDocument) :
    generateMarkdownLines env doc ≠ [] := by
  unfold generateMarkdownLines
  simp

theorem pySplitChar_pyJoinLines {lines : List String} (hne : lines ≠ [])
    (h : ∀ l ∈ lines, l.data.contains '\n' = false) :
    pySplitChar (pyJoinLines lines) '\n' = lines := by
  induction lines with
  | nil => exact absurd rfl hne
  | cons l ls ih =>
    cases ls with
    | nil =>
      show pySplitChar l '\n' = [l]
      unfold pySplitChar
      rw [splitOnChar_no_sep (h l (by simp))]
      rfl
    | cons m ms =>
      have hj : pyJoinLines (l :: m :: ms) = l ++ "\n" ++ pyJoinLines (m :: ms) := rfl
      rw [hj]
      unfold pySplitChar
      have hd : (l ++ "\n" ++ pyJoinLines (m :: ms)).data
          = l.data ++ '\n' :: (pyJoinLines (m :: ms)).data := by
        rw [String.data_append, String.data_append]
        rw [show ("\n" : String).data = ['\n'] from rfl]
        simp
      rw [hd, splitOnChar_append, splitOnChar_no_sep (h l (by simp)), List.map_append]
      have hih := ih (by simp) (fun x hx => h x (List.mem_cons_of_mem _ hx))
      unfold pySplitChar at hih
      rw [hih]
      rfl

/-- C3 (amended): for a tidy document — its interpolated fields contain no
newline, program name and report description are strip-clean, nonempty,
distinct from the fixed section titles and (for the program name) from the
parser's reserved dict key `title`, and the composed design description
does not itself look like a heading — parsing the rendered markdown raises
nothing and recovers exactly the emitted structure: one dict holding the
fixed title string at `'title'`, one section-dict entry per emitted `## `
heading in order (the conditional error/testing sections present iff their
lists are nonempty), the report description as the sole subsection of the
program-name section, and under `4. DESAIN` exactly the emitted `### `
subsection headings — so the section keys are exactly the emitted section
titles. -/
theorem C3_render_parse_section_round_trip (env : RenderEnv) (doc : FSDDocument)
    (hnl : ∀ l ∈ generateMarkdownLines env doc, l.data.contains '\n' = false)
    (hpn_strip : pyStrip doc.program_name = doc.program_name)
    (hpn0 : doc.program_name ≠ "")
    (hpnL : pyStrip ("## " ++ doc.program_name) = "## " ++ doc.program_name)
    (hpnT : doc.program_name ≠ "title")
    (hpn1 : doc.program_name ≠ "1. INFORMASI DOKUMEN")
    (hpn2 : doc.program_name ≠ "2. PERSYARATAN UMUM")
    (hpn3 : doc.program_name ≠ "3. EXISTING SAP OBJECTS")
    (hpn4 : doc.program_name ≠ "4. DESAIN")
    (hpn5 : doc.program_name ≠ "5. PENANGANAN ERROR")
    (hpn6 : doc.program_name ≠ "6. PERSYARATAN PENGUJIAN")
    (hrd_strip : pyStrip doc.report_description = doc.report_description)
    (hrd0 : doc.report_description ≠ "")
    (hrdL : pyStrip ("### " ++ doc.report_description) = "### " ++ doc.report_description)
    (hD1 : pyStartsWith (pyStrip (composeReportDescription env doc)) "# " = false)
    (hD2 : pyStartsWith (pyStrip (composeReportDescription env doc)) "## " = false)
    (hD3 : pyStartsWith (pyStrip (composeReportDescription env doc)) "### " = false) :
    ∃ g c1 c2 c3 subD post5 post6,
      MarkdownParser.parse (generateMarkdown env doc)
        = .ok ([(some "title", .str "Functional Specification Design (FSD)"),
            (some doc.program_name, .sec ⟨none, [(doc.report_description, g)]⟩),
            (some "1. INFORMASI DOKUMEN", .sec ⟨some c1, []⟩),
            (some "2. PERSYARATAN UMUM", .sec ⟨some c2, []⟩),
            (some "3. EXISTING SAP OBJECTS", .sec ⟨some c3, []⟩),
            (some "4. DESAIN", .sec ⟨none, subD⟩)] ++ post5 ++ post6) ∧
      subD.map Prod.fst = emittedDesignSubTitles doc ∧
      (∃ c5, post5 = if doc.error_scenarios ≠ [] then
          [(some "5. PENANGANAN ERROR", .sec ⟨some c5, []⟩)] else []) ∧
      (∃ c6, post6 = if doc.test_scenarios ≠ [] then
          [(some "6. PERSYARATAN PENGUJIAN", .sec ⟨some c6, []⟩)] else []) ∧
      pdSectionKeys
          ([(some "title", .str "Functional Specification Design (FSD)"),
            (some doc.program_name, .sec ⟨none, [(doc.report_description, g)]⟩),
            (some "1. INFORMASI DOKUMEN", .sec ⟨some c1, []⟩),
            (some "2. PERSYARATAN UMUM", .sec ⟨some c2, []⟩),
            (some "3. EXISTING SAP OBJECTS", .sec ⟨some c3, []⟩),
            (some "4. DESAIN", .sec ⟨none, subD⟩)] ++ post5 ++ post6)
        = (emittedSectionTitles doc).map some := by
  obtain ⟨g, c1, c2, c3, c4, hpre⟩ := foldl_preDesign env doc hpn_strip hpn0 hpnL
    hpnT hpn1 hpn2 hpn3 hrd_strip hrd0 hrdL ⟨hD1, hD2, hD3⟩
  obtain ⟨cc, sub', D, subsAll, hfold, hsub', hsave, hkeys⟩ :=
    foldl_design_chain "4. DESAIN" (designTableBlocks doc)
      [(some "title", .str "Functional Specification Design (FSD)"),
       (some doc.program_name, .sec ⟨none, [(doc.report_description, g)]⟩),
       (some "1. INFORMASI DOKUMEN", .sec ⟨some c1, []⟩),
       (some "2. PERSYARATAN UMUM", .sec ⟨some c2, []⟩),
       (some "3. EXISTING SAP OBJECTS", .sec ⟨some c3, []⟩)]
      none "4.1 Description detail dari Report" c4
      (by simp; exact fun e => hpn4 e.symm)
      (by decide)
      (designTableBlocks_titles_nodup doc)
      (by simp)
      (designTableBlocks_titles_ne doc)
      (designTableBlocks_neutral doc)
      (designTableBlocks_titles_tidy doc)
  simp only [show secEntryOpt "4. DESAIN" none = [] from rfl, List.append_nil] at hfold
  have hsubkeys : subsAll.map Prod.fst = emittedDesignSubTitles doc := by
    rw [hkeys]
    simp only [Option.getD_none, List.map_nil, List.nil_append]
    exact designTableBlocks_titles_eq doc
  have hparse0 : MarkdownParser.parse (generateMarkdown env doc)
      = parseLines (preDesignLines env doc
          ++ (designTableBlocks doc).flatMap designBlockLines
          ++ postDesignLines doc) := by
    unfold MarkdownParser.parse generateMarkdown
    rw [pySplitChar_pyJoinLines (generateMarkdownLines_ne_nil env doc) hnl,
      generateMarkdownLines_decomp]
  have hmid : List.foldl parseStep
      (List.foldl parseStep (List.foldl parseStep {} (preDesignLines env doc))
        ((designTableBlocks doc).flatMap designBlockLines)) (postDesignLines doc)
      = List.foldl parseStep
        ⟨D, some "4. DESAIN", some sub', cc, none⟩ (postDesignLines doc) := by
    rw [hpre]
    rw [hfold]
  rw [hparse0]
  have hrowsE : ∀ raw ∈ errorRowLines 1 doc.error_scenarios, neutralLine raw :=
    fun raw hr => neutralLine_of_pref (mem_errorRowLines_pipe 1 _ hr) rfl
      (by decide) (by decide)
  have hrowsT : ∀ raw ∈ testRowLines 1 doc.test_scenarios, neutralLine raw :=
    fun raw hr => neutralLine_of_pref (mem_testRowLines_pipe 1 _ hr) rfl
      (by decide) (by decide)
  by_cases herr : doc.error_scenarios = [] <;> by_cases htst : doc.test_scenarios = []
  · -- no error section, no testing section: the final save closes 4. DESAIN
    have hpost : postDesignLines doc = [] := by
      simp [postDesignLines, herr, htst]
    have hfull : (preDesignLines env doc
        ++ (designTableBlocks doc).flatMap designBlockLines
        ++ postDesignLines doc).foldl parseStep ({} : PState)
        = ⟨D, some "4. DESAIN", some sub', cc, none⟩ := by
      rw [List.foldl_append, List.foldl_append, hmid, hpost, List.foldl_nil]
    have hfinal := parseLines_eq hfull (by decide)
    rw [hfinal, hsave]
    refine ⟨g, c1, c2, c3, subsAll, [], [], ?_, hsubkeys,
      ⟨[], by simp [herr]⟩, ⟨[], by simp [htst]⟩, ?_⟩
    · simp
    · simp [pdSectionKeys, PVal.isSec, emittedSectionTitles, herr, htst]
  · -- testing section only
    have hpost : postDesignLines doc
        = ["## 6. PERSYARATAN PENGUJIAN", "",
           "| No | Test Condition | Expected Result | Test Data | Priority |",
           "|----|----------------|-----------------|-----------|----------|"]
          ++ testRowLines 1 doc.test_scenarios := by
      simp [postDesignLines, herr, htst]
    have hwalk : ∃ c6', List.foldl parseStep ⟨D, some "4. DESAIN", some sub', cc, none⟩
        (postDesignLines doc)
        = ⟨[(some "title", .str "Functional Specification Design (FSD)"),
            (some doc.program_name, .sec ⟨none, [(doc.report_description, g)]⟩),
            (some "1. INFORMASI DOKUMEN", .sec ⟨some c1, []⟩),
            (some "2. PERSYARATAN UMUM", .sec ⟨some c2, []⟩),
            (some "3. EXISTING SAP OBJECTS", .sec ⟨some c3, []⟩)]
            ++ [(some "4. DESAIN", .sec ⟨none, subsAll⟩)],
           some "6. PERSYARATAN PENGUJIAN", none, c6', none⟩ := by
      apply Exists.intro
      rw [hpost]
      simp only [List.foldl_append, List.foldl_cons, List.foldl_nil, parseStep_blank]
      rw [show ("## 6. PERSYARATAN PENGUJIAN" : String)
        = "## " ++ "6. PERSYARATAN PENGUJIAN" from by decide]
      rw [parseStep_h2 _ "6. PERSYARATAN PENGUJIAN" rfl (by decide) (by decide)]
      rw [secTransition_filled _ _ _ _ _ (by decide) _ hsave]
      rw [parseStep_neutral_eq2 _ _ _ _
        (show neutralLine
          "| No | Test Condition | Expected Result | Test Data | Priority |"
          from ⟨by decide, by decide, by decide⟩)]
      rw [parseStep_neutral_eq2 _ _ _ _
        (show neutralLine
          "|----|----------------|-----------------|-----------|----------|"
          from ⟨by decide, by decide, by decide⟩)]
      rw [foldl_neutral_eq2 _ _ _ _ hrowsT]
      try rfl
    obtain ⟨c6', hw⟩ := hwalk
    have hfull : (preDesignLines env doc
        ++ (designTableBlocks doc).flatMap designBlockLines
        ++ postDesignLines doc).foldl parseStep ({} : PState)
        = ⟨[(some "title", .str "Functional Specification Design (FSD)"),
            (some doc.program_name, .sec ⟨none, [(doc.report_description, g)]⟩),
            (some "1. INFORMASI DOKUMEN", .sec ⟨some c1, []⟩),
            (some "2. PERSYARATAN UMUM", .sec ⟨some c2, []⟩),
            (some "3. EXISTING SAP OBJECTS", .sec ⟨some c3, []⟩)]
            ++ [(some "4. DESAIN", .sec ⟨none, subsAll⟩)],
           some "6. PERSYARATAN PENGUJIAN", none, c6', none⟩ := by
      rw [List.foldl_append, List.foldl_append, hmid, hw]
    have hfinal := parseLines_eq hfull (by decide)
    rw [hfinal]
    rw [saveSection_new (by simp; exact fun e => hpn6 e.symm) _]
    refine ⟨g, c1, c2, c3, subsAll, [],
      [(some "6. PERSYARATAN PENGUJIAN", .sec ⟨some c6', []⟩)], ?_, hsubkeys,
      ⟨[], by simp [herr]⟩, ⟨c6', by simp [htst]⟩, ?_⟩
    · simp
    · simp [pdSectionKeys, PVal.isSec, emittedSectionTitles, herr, htst]
  · -- error section only
    have hpost : postDesignLines doc
        = ["## 5. PENANGANAN ERROR", "",
           "| No | Error Description | Resolution | Error Code | Severity |",
           "|----|-------------------|------------|------------|----------|"]
          ++ errorRowLines 1 doc.error_scenarios ++ [""] := by
      simp [postDesignLines, herr, htst]
    have hwalk : ∃ c5', List.foldl parseStep ⟨D, some "4. DESAIN", some sub', cc, none⟩
        (postDesignLines doc)
        = ⟨[(some "title", .str "Functional Specification Design (FSD)"),
            (some doc.program_name, .sec ⟨none, [(doc.report_description, g)]⟩),
            (some "1. INFORMASI DOKUMEN", .sec ⟨some c1, []⟩),
            (some "2. PERSYARATAN UMUM", .sec ⟨some c2, []⟩),
            (some "3. EXISTING SAP OBJECTS", .sec ⟨some c3, []⟩)]
            ++ [(some "4. DESAIN", .sec ⟨none, subsAll⟩)],
           some "5. PENANGANAN ERROR", none, c5', none⟩ := by
      apply Exists.intro
      rw [hpost]
      simp only [List.foldl_append, List.foldl_cons, List.foldl_nil, parseStep_blank]
      rw [show ("## 5. PENANGANAN ERROR" : String)
        = "## " ++ "5. PENANGANAN ERROR" from by decide]
      rw [parseStep_h2 _ "5. PENANGANAN ERROR" rfl (by decide) (by decide)]
      rw [secTransition_filled _ _ _ _ _ (by decide) _ hsave]
      rw [parseStep_neutral_eq2 _ _ _ _
        (show neutralLine
          "| No | Error Description | Resolution | Error Code | Severity |"
          from ⟨by decide, by decide, by decide⟩)]
      rw [parseStep_neutral_eq2 _ _ _ _
        (show neutralLine
          "|----|-------------------|------------|------------|----------|"
          from ⟨by decide, by decide, by decide⟩)]
      rw [foldl_neutral_eq2 _ _ _ _ hrowsE]
      try rfl
    obtain ⟨c5', hw⟩ := hwalk
    have hfull : (preDesignLines env doc
        ++ (designTableBlocks doc).flatMap designBlockLines
        ++ postDesignLines doc).foldl parseStep ({} : PState)
        = ⟨[(some "title", .str "Functional Specification Design (FSD)"),
            (some doc.program_name, .sec ⟨none, [(doc.report_description, g)]⟩),
            (some "1. INFORMASI DOKUMEN", .sec ⟨some c1, []⟩),
            (some "2. PERSYARATAN UMUM", .sec ⟨some c2, []⟩),
            (some "3. EXISTING SAP OBJECTS", .sec ⟨some c3, []⟩)]
            ++ [(some "4. DESAIN", .sec ⟨none, subsAll⟩)],
           some "5. PENANGANAN ERROR", none, c5', none⟩ := by
      rw [List.foldl_append, List.foldl_append, hmid, hw]
    have hfinal := parseLines_eq hfull (by decide)
    rw [hfinal]
    rw [saveSection_new (by simp; exact fun e => hpn5 e.symm) _]
    refine ⟨g, c1, c2, c3, subsAll,
      [(some "5. PENANGANAN ERROR", .sec ⟨some c5', []⟩)], [], ?_, hsubkeys,
      ⟨c5', by simp [herr]⟩, ⟨[], by simp [htst]⟩, ?_⟩
    · simp
    · simp [pdSectionKeys, PVal.isSec, emittedSectionTitles, herr, htst]
  · -- both error and testing sections
    have hpost : postDesignLines doc
        = (["## 5. PENANGANAN ERROR", "",
            "| No | Error Description | Resolution | Error Code | Severity |",
            "|----|-------------------|------------|------------|----------|"]
           ++ errorRowLines 1 doc.error_scenarios ++ [""])
          ++ (["## 6. PERSYARATAN PENGUJIAN", "",
               "| No | Test Condition | Expected Result | Test Data | Priority |",
               "|----|----------------|-----------------|-----------|----------|"]
              ++ testRowLines 1 doc.test_scenarios) := by
      simp [postDesignLines, herr, htst]
    have hwalk : ∃ c5' c6', List.foldl parseStep ⟨D, some "4. DESAIN", some sub', cc, none⟩
        (postDesignLines doc)
        = ⟨([(some "title", .str "Functional Specification Design (FSD)"),
             (some doc.program_name, .sec ⟨none, [(doc.report_description, g)]⟩),
             (some "1. INFORMASI DOKUMEN", .sec ⟨some c1, []⟩),
             (some "2. PERSYARATAN UMUM", .sec ⟨some c2, []⟩),
             (some "3. EXISTING SAP OBJECTS", .sec ⟨some c3, []⟩)]
             ++ [(some "4. DESAIN", .sec ⟨none, subsAll⟩)])
            ++ [(some "5. PENANGANAN ERROR", .sec ⟨some c5', []⟩)],
           some "6. PERSYARATAN PENGUJIAN", none, c6', none⟩ := by
      apply Exists.intro
      apply Exists.intro
      rw [hpost]
      simp only [List.foldl_append, List.foldl_cons, List.foldl_nil, parseStep_blank]
      rw [show ("## 5. PENANGANAN ERROR" : String)
        = "## " ++ "5. PENANGANAN ERROR" from by decide]
      rw [parseStep_h2 _ "5. PENANGANAN ERROR" rfl (by decide) (by decide)]
      rw [secTransition_filled _ _ _ _ _ (by decide) _ hsave]
      rw [parseStep_neutral_eq2 _ _ _ _
        (show neutralLine
          "| No | Error Description | Resolution | Error Code | Severity |"
          from ⟨by decide, by decide, by decide⟩)]
      rw [parseStep_neutral_eq2 _ _ _ _
        (show neutralLine
          "|----|-------------------|------------|------------|----------|"
          from ⟨by decide, by decide, by decide⟩)]
      rw [foldl_neutral_eq2 _ _ _ _ hrowsE]
      rw [show ("## 6. PERSYARATAN PENGUJIAN" : String)
        = "## " ++ "6. PERSYARATAN PENGUJIAN" from by decide]
      rw [parseStep_h2 _ "6. PERSYARATAN PENGUJIAN" rfl (by decide) (by decide)]
      rw [secTransition_filled _ _ _ _ _ (by decide) _
        (saveSection_new (by simp; exact fun e => hpn5 e.symm) _)]
      rw [parseStep_neutral_eq2 _ _ _ _
        (show neutralLine
          "| No | Test Condition | Expected Result | Test Data | Priority |"
          from ⟨by decide, by decide, by decide⟩)]
      rw [parseStep_neutral_eq2 _ _ _ _
        (show neutralLine
          "|----|----------------|-----------------|-----------|----------|"
          from ⟨by decide, by decide, by decide⟩)]
      rw [foldl_neutral_eq2 _ _ _ _ hrowsT]
      try rfl
    obtain ⟨c5', c6', hw⟩ := hwalk
    have hfull : (preDesignLines env doc
        ++ (designTableBlocks doc).flatMap designBlockLines
        ++ postDesignLines doc).foldl parseStep ({} : PState)
        = ⟨([(some "title", .str "Functional Specification Design (FSD)"),
             (some doc.program_name, .sec ⟨none, [(doc.report_description, g)]⟩),
             (some "1. INFORMASI DOKUMEN", .sec ⟨some c1, []⟩),
             (some "2. PERSYARATAN UMUM", .sec ⟨some c2, []⟩),
             (some "3. EXISTING SAP OBJECTS", .sec ⟨some c3, []⟩)]
             ++ [(some "4. DESAIN", .sec ⟨none, subsAll⟩)])
            ++ [(some "5. PENANGANAN ERROR", .sec ⟨some c5', []⟩)],
           some "6. PERSYARATAN PENGUJIAN", none, c6', none⟩ := by
      rw [List.foldl_append, List.foldl_append, hmid, hw]
    have hfinal := parseLines_eq hfull (by decide)
    rw [hfinal]
    rw [saveSection_new (by simp; exact fun e => hpn6 e.symm) _]
    refine ⟨g, c1, c2, c3, subsAll,
      [(some "5. PENANGANAN ERROR", .sec ⟨some c5', []⟩)],
      [(some "6. PERSYARATAN PENGUJIAN", .sec ⟨some c6', []⟩)], ?_, hsubkeys,
      ⟨c5', by simp [herr]⟩, ⟨c6', by simp [htst]⟩, ?_⟩
    · simp
    · simp [pdSectionKeys, PVal.isSec, emittedSectionTitles, herr, htst]

def docC3w : FSDDocument :=
  { program_name := "ZHR_PAYROLL"
    report_description := "Payroll Report"
    desain_report_description := "Deskripsi desain report."
    selection_parameters := [{ name := "P_BUKRS"
                               type := "BUKRS"
                               description := "Company Code"
                               is_mandatory := true
                               is_select_option := false
                               has_no_intervals := true }]
    error_scenarios := [{ error_description := "No data found"
                          resolution := "Check selection"
                          error_code := "E001"
                          severity := "High" }] }

/-- C3 witness: a concrete tidy document (with a selection screen and an
error scenario, so two of the conditional sections are exercised) satisfies
every hypothesis and the round trip recovers exactly the emitted
section/subsection structure. -/
theorem C3_render_parse_section_round_trip_witness :
    (∀ l ∈ generateMarkdownLines envA docC3w, l.data.contains '\n' = false) ∧
    pyStrip docC3w.program_name = docC3w.program_name ∧
    docC3w.program_name ≠ "" ∧
    docC3w.program_name ≠ "title" ∧
    pyStrip ("## " ++ docC3w.program_name) = "## " ++ docC3w.program_name ∧
    pyStrip docC3w.report_description = docC3w.report_description ∧
    docC3w.report_description ≠ "" ∧
    pyStrip ("### " ++ docC3w.report_description)
      = "### " ++ docC3w.report_description ∧
    pyStartsWith (pyStrip (composeReportDescription envA docC3w)) "# " = false ∧
    (∃ g c1 c2 c3 subD post5 post6,
      MarkdownParser.parse (generateMarkdown envA docC3w)
        = .ok ([(some "title", .str "Functional Specification Design (FSD)"),
            (some docC3w.program_name, .sec ⟨none, [(docC3w.report_description, g)]⟩),
            (some "1. INFORMASI DOKUMEN", .sec ⟨some c1, []⟩),
            (some "2. PERSYARATAN UMUM", .sec ⟨some c2, []⟩),
            (some "3. EXISTING SAP OBJECTS", .sec ⟨some c3, []⟩),
            (some "4. DESAIN", .sec ⟨none, subD⟩)] ++ post5 ++ post6) ∧
      subD.map Prod.fst = emittedDesignSubTitles docC3w ∧
      (∃ c5, post5 = if docC3w.error_scenarios ≠ [] then
          [(some "5. PENANGANAN ERROR", .sec ⟨some c5, []⟩)] else []) ∧
      (∃ c6, post6 = if docC3w.test_scenarios ≠ [] then
          [(some "6. PERSYARATAN PENGUJIAN", .sec ⟨some c6, []⟩)] else []) ∧
      pdSectionKeys
          ([(some "title", .str "Functional Specification Design (FSD)"),
            (some docC3w.program_name, .sec ⟨none, [(docC3w.report_description, g)]⟩),
            (some "1. INFORMASI DOKUMEN", .sec ⟨some c1, []⟩),
            (some "2. PERSYARATAN UMUM", .sec ⟨some c2, []⟩),
            (some "3. EXISTING SAP OBJECTS", .sec ⟨some c3, []⟩),
            (some "4. DESAIN", .sec ⟨none, subD⟩)] ++ post5 ++ post6)
        = (emittedSectionTitles docC3w).map some) :=
  ⟨by decide, by decide, by decide, by decide, by decide, by decide, by decide,
   by decide, by decide,
   C3_render_parse_section_round_trip envA docC3w (by decide) (by decide)
     (by decide) (by decide) (by decide) (by decide) (by decide) (by decide)
     (by decide) (by decide) (by decide) (by decide) (by decide) (by decide)
     (by decide) (by decide) (by decide)⟩

/-! ## Claims C8 and C9: the Word template filler

`TitlePageWordGenerator.generate_with_proper_tables`
(md_to_docs_converter.py lines 1044-1363) and its helpers.  python-docx
state is modelled at the text level: a document body is a sequence of
blocks — paragraphs (their text) and tables (rows of cell texts, one
paragraph per cell).  `doc.paragraphs` iterates body paragraphs only;
`doc.add_table` + `addnext` nets out to inserting the new table right
after the anchor paragraph.  Formatting (runs, fonts, borders, widths) has
no effect on any text and is not modelled; a run line-break inside
replaced multiline text is kept as the `\n` it renders as.  The two
compiled regular expressions become environment oracles (`re.search`
returning the matched substring), and the filesystem and the clock are
oracles; the body never reads the clock. -/

def pyLower (s : String) : String := ⟨s.data.map Char.toLower⟩

def pyLen (s : String) : Nat := s.data.length

inductive Block where
  | para (text : String)
  | tbl (rows : List (List String))
deriving Repr, DecidableEq

def docParagraphTexts (d : List Block) : List String :=
  d.flatMap (fun b => match b with | .para t => [t] | .tbl _ => [])

def docTableRowCounts (d : Option (List Block)) : List Nat :=
  (d.getD []).flatMap (fun b => match b with | .para _ => [] | .tbl rows => [rows.length])

structure SelectionScreenRow where
  parameter : String := "N/A"
  type : String := "N/A"
  description : String := "N/A"
  mandatory : String := "No"
  select_option : String := "No"
  no_intervals : String := "No"
deriving Repr, DecidableEq

structure DetailProcessingRow where
  field_name : String := "N/A"
  technical_field : String := "N/A"
  source_table : String := ""
  processing_logic : String := ""
  processing_type : String := ""
deriving Repr, DecidableEq

structure ErrorHandlingRow where
  no : Option String := none
  error_description : String := "N/A"
  resolution : String := "N/A"
  error_code : String := "N/A"
  severity : String := "ERROR"
deriving Repr, DecidableEq

structure TestingRequirementsRow where
  no : Option String := none
  test_condition : String := "N/A"
  expected_result : String := "N/A"
  test_data : String := "N/A"
  priority : String := "MEDIUM"
deriving Repr, DecidableEq

/-- The `title_info` dict handed to the generator (scalar keys optional as
in `dict.get`, table keys defaulting to empty lists). -/
structure TitleInfo where
  ricefw_id : Option String := none
  file_name : Option String := none
  module_name : Option String := none
  document_type : Option String := none
  document_location : Option String := none
  project_name : Option String := none
  user_requirements : Option String := none
  assumptions : List String := []
  transaction_code : Option String := none
  menu_path : Option String := none
  sap_program_name : Option String := none
  generated_date : Option String := none
  test_data_location : Option String := none
  test_transaction : Option String := none
  test_menu_path : Option String := none
  selection_screen_table : List SelectionScreenRow := []
  detail_processing_table : List DetailProcessingRow := []
  valid_datasets_table : List DataConditionRow := []
  country_info_table : List DataConditionRow := []
  currency_t500c_table : List DataConditionRow := []
  currency_t001_table : List DataConditionRow := []
  error_handling_table : List ErrorHandlingRow := []
  testing_requirements_table : List TestingRequirementsRow := []
deriving Repr

structure WordEnv where
  /-- `self.template_path` (`None` or a string; `""` is falsy). -/
  templatePath : Option String
  /-- `os.path.exists`. -/
  fileExists : String → Bool
  /-- `DocxDocument(template_path)`: `.error` models the constructor raising. -/
  loadTemplate : String → Except PyErr (List Block)
  /-- `doc.save(output_path)`. -/
  saveResult : List Block → String → Except PyErr Unit
  /-- The `os.path.exists(output_path)` verification after saving. -/
  outExists : String → Bool
  /-- `re.search(r"RHR\d+[^\n]*\(Nama File\)", text)`, as the matched text. -/
  filePatternSearch : String → Option String
  /-- `re.search(r"RHR\d+\s*\(DAPI ID\)\s*Functional Specification Design \(FSD\)", text)`. -/
  docPatternSearch : String → Option String
  /-- The ambient clock; `generate_with_proper_tables` never reads it. -/
  now : String

/-- `replace_text_preserve_formatting` (lines 830-890) at the text level:
the run juggling rebuilds exactly `full_text.replace(old_text, new_text)`. -/
def replace_text_preserve_formatting (text old new : String) : String :=
  if pyContains text old then pyReplace text old new else text

/-- The title-heading loop (lines 1060-1071): first paragraph whose
stripped text ends in `"(Nama File)"` has that stripped text replaced by
the new heading, then `break`. -/
def titleHeadingPass (newHeading : String) : List Block → List Block
  | [] => []
  | .para t :: rest =>
    if pyEndsWith (pyStrip t) "(Nama File)" then
      .para (replace_text_preserve_formatting t (pyStrip t) newHeading) :: rest
    else .para t :: titleHeadingPass newHeading rest
  | .tbl tb :: rest => .tbl tb :: titleHeadingPass newHeading rest

/-- Lines 1074-1081. -/
def numberedAssumptions (i : Nat) : List String → List String
  | [] => []
  | a :: r => ("(" ++ decRepr i ++ ") " ++ a) :: numberedAssumptions (i + 1) r

def assumptionsText (asms : List String) : String :=
  if asms ≠ [] then pyJoinLines (numberedAssumptions 1 asms)
  else "(1) Tidak ada asumsi khusus"

/-- Lines 1083-1094. -/
def transactionMenuText (ti : TitleInfo) : String :=
  let tc := pyStrip ((ti.transaction_code).getD "")
  let mp := pyStrip ((ti.menu_path).getD "")
  if tc ≠ "" ∧ tc ≠ "N/A" then
    "Transaksi: " ++ tc ++ (if mp ≠ "" ∧ mp ≠ "N/A" then "\nMenu Path: " ++ mp else "")
  else if mp ≠ "" ∧ mp ≠ "N/A" then "Menu Path: " ++ mp
  else "N/A"

/-- `_generate_report_description` (lines 1365-1386). -/
def generateReportDescriptionTI (ti : TitleInfo) : String :=
  let parts : List String :=
    (if (ti.user_requirements).getD "" ≠ "" then [(ti.user_requirements).getD ""] else [])
    ++ (if ti.selection_screen_table ≠ [] then
          ["Report ini memiliki " ++ decRepr ti.selection_screen_table.length
            ++ " parameter selection screen."] else [])
    ++ (if ti.detail_processing_table ≠ [] then
          ["Proses detail melibatkan " ++ decRepr ti.detail_processing_table.length
            ++ " field utama."] else [])
  let parts := if parts = [] then
      ["Report ini dirancang untuk memenuhi kebutuhan bisnis sesuai spesifikasi yang telah ditentukan."]
    else parts
  String.intercalate " " parts

/-- `_generate_authorization_info` (lines 1388-1401). -/
def generateAuthorizationInfo (ti : TitleInfo) : String :=
  let parts := ti.assumptions.filter (fun a => pyContains (pyLower a) "authorization")
  let parts := if parts = [] then
      ["User harus memiliki otorisasi yang sesuai untuk mengakses dan menjalankan report ini."]
    else parts
  pyJoinLines parts

/-- `_generate_design_constraints` (lines 1403-1420). -/
def generateDesignConstraints (ti : TitleInfo) : String :=
  let parts : List String :=
    (if (ti.sap_program_name).getD "" ≠ "" then
       ["Report harus kompatibel dengan program SAP " ++ (ti.sap_program_name).getD "" ++ "."]
     else [])
    ++ ti.assumptions.filter (fun a =>
         ["locking", "performance", "data", "infotype"].any
           (fun k => pyContains (pyLower a) k))
  let parts := if parts = [] then
      ["Report harus mengikuti standard development guidelines dan best practices SAP."]
    else parts
  pyJoinLines parts

/-- `generate_testing_requirements_content_text` (lines 822-828). -/
def generateTestingRequirementsContentText (tbl : List TestingRequirementsRow) : String :=
  if tbl = [] then
    "Melakukan pengujian menyeluruh terhadap semua fungsi dan fitur program untuk memastikan kesesuaian dengan spesifikasi yang telah ditentukan."
  else
    "Pengujian harus dilakukan pada environment development dengan data representatif yang mencakup berbagai skenario bisnis."

/-- The `replacements` dict (lines 1105-1142), as the ordered pair list the
`for old_text, new_text in replacements.items()` loops iterate. -/
def replacementsList (ti : TitleInfo) : List (String × String) :=
  [("(Nama Modul)", ""),
   ("Human Resource (Nama Modul)", (ti.module_name).getD "Human Resource"),
   ("(DAPI ID)", (ti.ricefw_id).getD "N/A"),
   ("Functional Specification Design (FSD)",
    (ti.document_type).getD "Functional Specification Design (FSD)"),
   ((ti.ricefw_id).getD "RHR041" ++ " (DAPI ID) Functional Specification Design (FSD)",
    (ti.document_type).getD "Functional Specification Design (FSD)"),
   ("(Nama File)", ""),
   ("(Link NAS)", (ti.document_location).getD "N/A"),
   ("Draft awal oleh", "AI Generated"),
   ("System Integrator for Management Information System Towards Single Source of Truth Implementation Program",
    (ti.project_name).getD "System Integrator for Management Information System Towards Single Source of Truth Implementation Program"),
   ("\x7b\x7bpersyaratan_pengguna\x7d\x7d",
    (ti.user_requirements).getD "Tidak ada persyaratan khusus yang didefinisikan."),
   ("\x7b\x7basumsi\x7d\x7d", assumptionsText ti.assumptions),
   ("\x7b\x7bnama_program_sap\x7d\x7d", (ti.sap_program_name).getD "N/A"),
   ("\x7b\x7btransaksi_menu_sap\x7d\x7d", transactionMenuText ti),
   ("\x7b\x7bdeskripsi_detail_report\x7d\x7d", generateReportDescriptionTI ti),
   ("\x7b\x7botorisasi\x7d\x7d", generateAuthorizationInfo ti),
   ("\x7b\x7bketerbatasan_desain\x7d\x7d", generateDesignConstraints ti),
   ("\x7b\x7blatar_belakang\x7d\x7d", "N/A"),
   ("\x7b\x7bopsi\x7d\x7d", "N/A"),
   ("\x7b\x7brekomendasi\x7d\x7d", "N/A"),
   ("\x7b\x7bpersyaratan_pengujian\x7d\x7d",
    generateTestingRequirementsContentText ti.testing_requirements_table),
   ("[*Masukkan kondisi fungsional yang diperlukan untuk pengujian.*]", ""),
   ("\x7b\x7bdata_uji\x7d\x7d",
    (ti.test_data_location).getD "Data uji tersedia di environment development SAP"),
   ("\x7b\x7btransaksi\x7d\x7d", (ti.test_transaction).getD "N/A"),
   ("\x7b\x7bmenu_path\x7d\x7d", (ti.test_menu_path).getD "N/A")]

def applyReplacements (repl : List (String × String)) (t : String) : String :=
  repl.foldl (fun acc p =>
    if pyContains acc p.1 then replace_text_preserve_formatting acc p.1 p.2 else acc) t

/-- The paragraph replacement loop (lines 1148-1151). -/
def paragraphsReplacePass (repl : List (String × String)) (d : List Block) : List Block :=
  d.map (fun b => match b with
    | .para t => .para (applyReplacements repl t)
    | .tbl tb => .tbl tb)

def lastParaText : List Block → Option String
  | [] => none
  | .para t :: rest => some ((lastParaText rest).getD t)
  | .tbl _ :: rest => lastParaText rest

def setLastPara (f : String → String) : List Block → List Block
  | [] => []
  | .para t :: rest =>
    if (lastParaText rest).isNone then .para (f t) :: rest
    else .para t :: setLastPara f rest
  | .tbl tb :: rest => .tbl tb :: setLastPara f rest

/-- The stray regex block (lines 1153-1167): it sits after the paragraph
loop, so `paragraph` is the loop's leaked last value — it patches only the
document's last paragraph (and raises `NameError`, caught by the outer
handler, when the body has no paragraph at all). -/
def leakedRegexFix (env : WordEnv) (ti : TitleInfo) (t : String) : String :=
  let t1 := match env.filePatternSearch t with
    | some m => replace_text_preserve_formatting t m
        ((ti.ricefw_id).getD "RHR041" ++ " " ++ (ti.file_name).getD "Process")
    | none => t
  match env.docPatternSearch t1 with
  | some m => replace_text_preserve_formatting t1 m
      ((ti.document_type).getD "Functional Specification Design (FSD)")
  | none => t1

/-- One table-cell paragraph pass (lines 1169-1188): standard replacements,
then the two `generated_date` patches.  Cells are processed left to right,
so `row_texts` sees already-patched cells to the left.  The first patch's
guard (`"AI Generated" in text or "0.01" in text` and yet
`text.strip() == ""`) is unsatisfiable and kept as written. -/
def rowCellsPass (repl : List (String × String)) (gdate : String) :
    List String → List String → List String
  | done, [] => done
  | done, c :: rest =>
    let c1 := applyReplacements repl c
    let rowTexts := fun cur : String => (done ++ cur :: rest).map pyStrip
    let c2 := if (pyContains c1 "AI Generated" || pyContains c1 "0.01")
        && (pyStrip c1 = "") then
        (if ((rowTexts c1).any (fun t => pyContains t "0.01" || pyContains t "AI Generated"))
            ∧ rest = [] then gdate else c1)
      else c1
    let c3 := if pyStrip c2 = "" then
        (if pyContains (String.intercalate " " (rowTexts c2)) "AI Generated" ∧ rest = []
         then gdate else c2)
      else c2
    rowCellsPass repl gdate (done ++ [c3]) rest

def tableCellsPass (repl : List (String × String)) (gdate : String)
    (d : List Block) : List Block :=
  d.map (fun b => match b with
    | .para t => .para t
    | .tbl rows => .tbl (rows.map (fun r => rowCellsPass repl gdate [] r)))

/-- `WordTableManager.create_bordered_table` (lines 538-623) at the text
level: `None` when data or headers are empty, else a header row plus one
row per data row, each padded/truncated to the header width. -/
def create_bordered_table (data : List (List String)) (headers : List String) :
    Option (List (List String)) :=
  if data.isEmpty || headers.isEmpty then none
  else some (headers :: data.map (fun row =>
    (List.range headers.length).map (fun i => (row.get? i).getD "")))

/-- The paragraph half of `find_and_insert_table_after_text` (lines
898-917): first matching paragraph is cleared (or given the title) and the
table, when built, is inserted right after it; when no table was built the
loop keeps clearing matching paragraphs and never sets `inserted`. -/
def fiParaWalk (tblOpt : Option (List (List String))) (newText searchText : String) :
    List Block → List Block × Bool
  | [] => ([], false)
  | .para t :: rest =>
    if pyContains t searchText then
      match tblOpt with
      | some tb => (.para newText :: .tbl tb :: rest, true)
      | none =>
        let r := fiParaWalk tblOpt newText searchText rest
        (.para newText :: r.1, r.2)
    else
      let r := fiParaWalk tblOpt newText searchText rest
      (.para t :: r.1, r.2)
  | .tbl tb :: rest =>
    let r := fiParaWalk tblOpt newText searchText rest
    (.tbl tb :: r.1, r.2)

def fiCellRow (summary searchText : String) :
    List String → List String × Bool
  | [] => ([], false)
  | c :: rest =>
    if pyContains c searchText then (summary :: rest, true)
    else
      let r := fiCellRow summary searchText rest
      (c :: r.1, r.2)

def fiCellRows (summary searchText : String) :
    List (List String) → List (List String) × Bool
  | [] => ([], false)
  | row :: rest =>
    let r := fiCellRow summary searchText row
    if r.2 then (r.1 :: rest, true)
    else
      let rr := fiCellRows summary searchText rest
      (row :: rr.1, rr.2)

/-- The table-cell half of `find_and_insert_table_after_text` (lines
920-938): the first matching cell paragraph is replaced by a summary. -/
def fiCellWalk (summary searchText : String) : List Block → List Block × Bool
  | [] => ([], false)
  | .para t :: rest =>
    let r := fiCellWalk summary searchText rest
    (.para t :: r.1, r.2)
  | .tbl rows :: rest =>
    let r := fiCellRows summary searchText rows
    if r.2 then (.tbl r.1 :: rest, true)
    else
      let rr := fiCellWalk summary searchText rest
      (.tbl rows :: rr.1, rr.2)

/-- `find_and_insert_table_after_text` (lines 892-944). -/
def find_and_insert_table_after_text (d : List Block) (searchText : String)
    (tableData : List (List String)) (headers : List String)
    (title : Option String) : List Block × Bool :=
  let tblOpt := create_bordered_table tableData headers
  let r := fiParaWalk tblOpt (title.getD "") searchText d
  if r.2 then r
  else
    let summary := match title with
      | some t => t ++ ": " ++ decRepr tableData.length ++ " items"
      | none => "Table with " ++ decRepr tableData.length ++ " rows"
    fiCellWalk summary searchText r.1

/-- `create_selection_screen_table_data` (lines 670-689). -/
def create_selection_screen_table_data (tbl : List SelectionScreenRow) :
    List (List String) × List String :=
  if tbl = [] then ([], [])
  else (tbl.map (fun e =>
          [e.parameter, e.type, e.description, e.mandatory, e.select_option,
           e.no_intervals]),
        ["Parameter", "Type", "Description", "Mandatory", "Select-Option",
         "No Intervals"])

/-- `create_detail_processing_table_data` (lines 691-726). -/
def create_detail_processing_table_data (tbl : List DetailProcessingRow) :
    List (List String) × List String :=
  if tbl = [] then ([], [])
  else (tbl.map (fun e =>
      let parts : List String :=
        (if e.source_table ≠ "" then
           ["Ambil " ++ e.technical_field ++ " dari tabel " ++ e.source_table] else [])
        ++ (if e.processing_logic ≠ "" ∧ pyStrip e.processing_logic ≠ "N/A"
              ∧ pyStrip e.processing_logic ≠ "" then
             [pyStrip e.processing_logic] else [])
        ++ (if e.processing_type ≠ "" ∧ e.processing_type ≠ "DIRECT" then
             ["Processing Type: " ++ e.processing_type] else [])
      let keterangan := if parts ≠ [] then String.intercalate ". " parts else "N/A"
      [e.field_name, e.technical_field, keterangan]),
    ["Nama Field", "Technical Field", "Keterangan"])

/-- `create_data_condition_table_data` (lines 809-820). -/
def create_data_condition_table_data (tbl : List DataConditionRow) :
    List (List String) × List String :=
  if tbl = [] then ([], [])
  else (tbl.map (fun e => [e.data, e.condition]), ["Data", "Kondisi"])

/-- `create_error_handling_table_data` (lines 743-769); the `no` default is
the 1-based position. -/
def errorHandlingRows (i : Nat) : List ErrorHandlingRow → List (List String)
  | [] => []
  | e :: rest =>
    let codeSeverity := if e.error_code ≠ "N/A" then
        e.error_code ++ " (" ++ e.severity ++ ")"
      else "(" ++ e.severity ++ ")"
    [(e.no).getD (decRepr i), e.error_description, e.resolution, codeSeverity]
      :: errorHandlingRows (i + 1) rest

def create_error_handling_table_data (tbl : List ErrorHandlingRow) :
    List (List String) × List String :=
  if tbl = [] then ([], [])
  else (errorHandlingRows 1 tbl,
        ["No", "Potensi Error", "Penyelesaian", "Kode Error & Severity"])

/-- `create_testing_requirements_table_data` (lines 771-790). -/
def testingRequirementsRows (i : Nat) : List TestingRequirementsRow → List (List String)
  | [] => []
  | e :: rest =>
    [(e.no).getD (decRepr i), e.test_condition, e.expected_result, e.test_data,
     pyUpper e.priority] :: testingRequirementsRows (i + 1) rest

def create_testing_requirements_table_data (tbl : List TestingRequirementsRow) :
    List (List String) × List String :=
  if tbl = [] then ([], [])
  else (testingRequirementsRows 1 tbl,
        ["No", "KONDISI PENGUJIAN", "HASIL YANG DIHARAPKAN", "DATA UJI", "PRIORITAS"])

/-- The cleanup pattern list of `_cleanup_testing_paragraphs_aggressive`
(lines 993-1015). -/
def cleanupPatterns : List String :=
  ["Prioritas Tinggi:", "Prioritas Menengah:", "Prioritas Rendah:",
   "User has authorization", "User does not have authorization",
   "Process RHR006_01", "Selection option s_lgart", "Infotype 0015",
   "Large dataset", "Employee has IT0015 record",
   "[*Masukkan kondisi fungsional", "**KONDISI PENGUJIAN**",
   "**HASIL YANG DIHARAPKAN**", "Persyaratan pengujian mencakup skenario",
   "skenario prioritas tinggi", "skenario prioritas menengah",
   "skenario prioritas rendah", "Detail kondisi pengujian tercantum",
   "authorization, security", "functional testing", "performance, edge cases"]

def cleanupMark (t : String) : Bool :=
  cleanupPatterns.any (fun p => pyContains (pyStrip t) p) ||
  (pyLen (pyStrip t) > 50 &&
    ["prioritas", "skenario", "authorization", "functional"].any
      (fun w => pyContains (pyLower (pyStrip t)) w))

def mapParasIdx (f : Nat → String → String) : Nat → List Block → List Block
  | _, [] => []
  | i, .para t :: r => .para (f i t) :: mapParasIdx f (i + 1) r
  | i, .tbl tb :: r => .tbl tb :: mapParasIdx f i r

/-- `_cleanup_testing_paragraphs_aggressive` (lines 991-1042): clear every
paragraph in the index window `[start_index - 5, start_index + 30)` that
matches a cleanup pattern or the priority heuristic. -/
def cleanup_testing_paragraphs_aggressive (d : List Block) (startIndex : Nat) :
    List Block :=
  mapParasIdx (fun i t =>
    if startIndex - 5 ≤ i ∧ i < startIndex + 30 ∧ cleanupMark t = true then "" else t)
    0 d

def testingSearchPatterns : List String :=
  ["\x7b\x7bpersyaratan_pengujian\x7d\x7d",
   "Persyaratan pengujian yang harus dipenuhi:",
   "Prioritas Tinggi:",
   "[*Masukkan kondisi fungsional yang diperlukan untuk pengujian.*]",
   "**KONDISI PENGUJIAN**",
   "KONDISI PENGUJIAN",
   "Persyaratan pengujian mencakup skenario"]

/-- One pattern scan of `find_and_replace_testing_section` (lines 962-980),
returning the paragraph index where the table was inserted. -/
def fartsScan (tblOpt : Option (List (List String))) (pattern : String) :
    Nat → List Block → List Block × Option Nat
  | _, [] => ([], none)
  | i, .para t :: rest =>
    if pyContains t pattern then
      match tblOpt with
      | some tb => (.para "" :: .tbl tb :: rest, some i)
      | none =>
        let r := fartsScan tblOpt pattern (i + 1) rest
        (.para "" :: r.1, r.2)
    else
      let r := fartsScan tblOpt pattern (i + 1) rest
      (.para t :: r.1, r.2)
  | i, .tbl tb :: rest =>
    let r := fartsScan tblOpt pattern i rest
    (.tbl tb :: r.1, r.2)

def fartsPatterns (tblOpt : Option (List (List String))) :
    List String → List Block → List Block × Bool
  | [], d => (d, false)
  | p :: ps, d =>
    match fartsScan tblOpt p 0 d with
    | (d1, some i) => (cleanup_testing_paragraphs_aggressive d1 i, true)
    | (d1, none) => fartsPatterns tblOpt ps d1

/-- `find_and_replace_testing_section` (lines 946-989). -/
def find_and_replace_testing_section (d : List Block)
    (testingData : List (List String)) (testingHeaders : List String) :
    List Block × Bool :=
  fartsPatterns (create_bordered_table testingData testingHeaders)
    testingSearchPatterns d

/-- Lines 1303-1318. -/
def placeholdersToRemove : List String :=
  ["\x7b\x7bdetail_processing\x7d\x7d",
   "\x7b\x7bkondisi_pengujian_tabel\x7d\x7d",
   "\x7b\x7bpotensi_error\x7d\x7d",
   "Prioritas Tinggi: - User has authorization",
   "Prioritas Menengah: - Process RHR006",
   "Prioritas Rendah: - Employee has IT0015",
   "**KONDISI PENGUJIAN**",
   "**HASIL YANG DIHARAPKAN**",
   "Persyaratan pengujian mencakup skenario berikut:",
   "Detail kondisi pengujian tercantum dalam tabel di bawah ini.",
   "skenario prioritas tinggi (authorization, security)",
   "skenario prioritas menengah (functional testing)",
   "skenario prioritas rendah (performance, edge cases)",
   "[*Masukkan kondisi fungsional yang diperlukan untuk pengujian.*]"]

def finalCleanupScan : List String → String → Option String
  | [], t => some t
  | p :: ps, t =>
    if pyContains t p then
      if pyLen (pyStrip t) ≤ pyLen p + 50 then none
      else finalCleanupScan ps (pyStrip (pyReplace t p ""))
    else finalCleanupScan ps t

/-- The final cleanup loop body (lines 1320-1344): placeholder removal with
whole-paragraph clearing, then the redundant-testing-content heuristic. -/
def finalCleanupPara (t : String) : String :=
  match finalCleanupScan placeholdersToRemove t with
  | none => ""
  | some t1 =>
    if pyStrip t1 ≠ "" ∧ pyLen (pyStrip t1) < 200 ∧
       (["prioritas tinggi", "prioritas menengah", "prioritas rendah",
         "skenario"].any (fun p => pyContains (pyLower t1) p)) ∧
       (["authorization", "functional", "performance"].any
         (fun p => pyContains (pyLower t1) p)) then ""
    else t1

def finalCleanupPass (d : List Block) : List Block :=
  d.map (fun b => match b with
    | .para t => .para (finalCleanupPara t)
    | .tbl tb => .tbl tb)

/-- `TitlePageWordGenerator.generate_with_proper_tables` (lines 1044-1363):
the guard, the text passes, the six conditional table insertions, the
testing section, the final cleanup, the save and the existence check.  The
returned pair is the boolean result and the document handed to `doc.save`
(none when no save happened).  Every exception path of the `try` body is a
`.error` of an oracle (plus the `NameError` of the leaked loop variable
when the body has no paragraphs), caught by the catch-all into `False`. -/
def generate_with_proper_tables (env : WordEnv) (ti : TitleInfo)
    (outputPath : String) : Bool × Option (List Block) :=
  match env.templatePath with
  | none => (false, none)
  | some p =>
    if p = "" then (false, none)
    else if env.fileExists p = false then (false, none)
    else
      match env.loadTemplate p with
      | .error _ => (false, none)
      | .ok doc0 =>
        let newHeading := pyStrip ((ti.ricefw_id).getD "") ++ " "
          ++ pyStrip ((ti.file_name).getD "")
        let doc1 := titleHeadingPass newHeading doc0
        let repl := replacementsList ti
        let doc2 := paragraphsReplacePass repl doc1
        match lastParaText doc2 with
        | none => (false, none)
        | some _ =>
          let doc3 := setLastPara (leakedRegexFix env ti) doc2
          let doc4 := tableCellsPass repl ((ti.generated_date).getD "") doc3
          let sel := create_selection_screen_table_data ti.selection_screen_table
          let doc5 := if sel.1 ≠ [] ∧ sel.2 ≠ [] then
              (find_and_insert_table_after_text doc4 "Selection Screen" sel.1 sel.2
                (some "Selection Screen:")).1
            else doc4
          let det := create_detail_processing_table_data ti.detail_processing_table
          let doc6 := if det.1 ≠ [] ∧ det.2 ≠ [] then
              (find_and_insert_table_after_text doc5 "Detail Processing" det.1 det.2
                (some "Detail Processing:")).1
            else doc5
          let vd := create_data_condition_table_data ti.valid_datasets_table
          let doc7 := if vd.1 ≠ [] then
              (find_and_insert_table_after_text doc6
                "Detail Process Only valid datasets" vd.1 vd.2
                (some "Detail Process Only valid datasets:")).1
            else doc6
          let ci := create_data_condition_table_data ti.country_info_table
          let doc8 := if ci.1 ≠ [] then
              (find_and_insert_table_after_text doc7 "Form Get_Country_Info" ci.1 ci.2
                (some "Form Get_Country_Info:")).1
            else doc7
          let t5 := create_data_condition_table_data ti.currency_t500c_table
          let doc9 := if t5.1 ≠ [] then
              (find_and_insert_table_after_text doc8 "Form Get_Currency_T500C" t5.1 t5.2
                (some "Form Get_Currency_T500C:")).1
            else doc8
          let t1 := create_data_condition_table_data ti.currency_t001_table
          let doc10 := if t1.1 ≠ [] then
              (find_and_insert_table_after_text doc9 "Form Get_Currency_T001" t1.1 t1.2
                (some "Form Get_Currency_T001:")).1
            else doc9
          let er := create_error_handling_table_data ti.error_handling_table
          let doc11 := if er.1 ≠ [] ∧ er.2 ≠ [] then
              let dE := (find_and_insert_table_after_text doc10
                "\x7b\x7bpotensi_error\x7d\x7d" er.1 er.2 (some "Potensi Error:")).1
              dE.map (fun b => match b with
                | .para t => .para (replace_text_preserve_formatting t
                    "[*Masukkan deskripsi tentang error log, laporan, dan/atau pesan yang relevan.*]"
                    "Error akan dicatat dalam log sistem SAP dan dapat dilihat melalui transaction ST22 (Dump Analysis) atau SLG1 (Application Log).")
                | .tbl tb => .tbl tb)
            else doc10
          let te := create_testing_requirements_table_data ti.testing_requirements_table
          let doc12 := if te.1 ≠ [] ∧ te.2 ≠ [] then
              let r := find_and_replace_testing_section doc11 te.1 te.2
              if r.2 then r.1
              else (find_and_insert_table_after_text r.1
                "\x7b\x7bkondisi_pengujian_tabel\x7d\x7d" te.1 te.2 none).1
            else doc11
          let doc13 := finalCleanupPass doc12
          match env.saveResult doc13 outputPath with
          | .error _ => (false, none)
          | .ok _ =>
            if env.outExists outputPath then (true, some doc13)
            else (false, some doc13)

/-- C8: the Word filler is a pure function of the title-info input and the
template: two runs differing only in the ambient clock (the only
run-dependent ambient value, never read by `generate_with_proper_tables`)
return identical results — in particular identical row counts for every
table of the saved document and identical paragraph texts, so no duplicate
tables accumulate on any anchor across independent runs against a fresh
template copy. -/
theorem C8_word_fill_independent_of_run (env : WordEnv) (ti : TitleInfo)
    (out t1 t2 : String) :
    generate_with_proper_tables { env with now := t1 } ti out
      = generate_with_proper_tables { env with now := t2 } ti out ∧
    docTableRowCounts (generate_with_proper_tables { env with now := t1 } ti out).2
      = docTableRowCounts (generate_with_proper_tables { env with now := t2 } ti out).2 ∧
    ((generate_with_proper_tables { env with now := t1 } ti out).2).map docParagraphTexts
      = ((generate_with_proper_tables { env with now := t2 } ti out).2).map docParagraphTexts :=
  ⟨rfl, rfl, rfl⟩

/-- C9: a missing Word template (path `None`, empty, or not on disk) makes
`generate_with_proper_tables` return `False` with no document saved, and —
being a total function of its oracles — without raising to its caller. -/
theorem C9_missing_template_fails_without_raising (env : WordEnv) (ti : TitleInfo)
    (out : String)
    (h : env.templatePath = none ∨ env.templatePath = some "" ∨
         ∃ p, env.templatePath = some p ∧ env.fileExists p = false) :
    generate_with_proper_tables env ti out = (false, none) := by
  rcases h with h | h | ⟨p, hp, hf⟩
  · unfold generate_with_proper_tables
    rw [h]
  · unfold generate_with_proper_tables
    rw [h]
    rfl
  · unfold generate_with_proper_tables
    rw [hp]
    by_cases hpe : p = ""
    · simp [hpe]
    · simp [hpe, hf]

def envC9 : WordEnv :=
  { templatePath := some "/templates/fsd.docx"
    fileExists := fun _ => false
    loadTemplate := fun _ => .error (.exception "Package not found")
    saveResult := fun _ _ => .ok ()
    outExists := fun _ => false
    filePatternSearch := fun _ => none
    docPatternSearch := fun _ => none
    now := "2024-01-01 00:00:00" }

/-- C9 witness: a configured template path that is not on disk yields the
failure pair on a concrete run. -/
theorem C9_missing_template_fails_without_raising_witness :
    (envC9.templatePath = none ∨ envC9.templatePath = some "" ∨
     ∃ p, envC9.templatePath = some p ∧ envC9.fileExists p = false) ∧
    generate_with_proper_tables envC9 {} "out.docx" = (false, none) :=
  ⟨Or.inr (Or.inr ⟨"/templates/fsd.docx", rfl, rfl⟩),
   C9_missing_template_fails_without_raising envC9 {} "out.docx"
     (Or.inr (Or.inr ⟨"/templates/fsd.docx", rfl, rfl⟩))⟩

/- ===================================================================
   C10: MarkdownTitleExtractor.extract_title_info — table extraction
   (md_to_docs_converter.py lines 77-164, 224-229 and 248-289).

   The embedding tracks the loop state that governs table extraction:
   the six section flags, current_section (only the 'assumptions' value
   matters for control flow, via the continue at line 226), the current
   design subsection, and the six extracted tables.  The remaining
   branches of the loop body (lines 167-222 and 231-245) write only
   scalar fields of title_info that are disjoint from this state and
   contain no continue, so they are identity on the tracked state.
   =================================================================== -/

inductive DSub
  | selection_screen
  | detail_processing
  | valid_datasets
  | country_info
  | currency_t500c
  | currency_t001
deriving DecidableEq, Repr

structure EState where
  in_general_requirements : Bool := false
  in_existing_sap_objects : Bool := false
  in_design_section : Bool := false
  in_error_handling : Bool := false
  in_testing_requirements : Bool := false
  in_design_changes : Bool := false
  current_section : Option String := none
  current_design_subsection : Option DSub := none
  selection_screen_table : List (String × String × String × String × String × String) := []
  detail_processing_table : List (String × String × String × String × String) := []
  valid_datasets_table : List (String × String) := []
  country_info_table : List (String × String) := []
  currency_t500c_table : List (String × String) := []
  currency_t001_table : List (String × String) := []
deriving DecidableEq, Repr

/-- Lines 248-289: the design-table row branch.  `line` is already
stripped (line 87). -/
def tableRowStep (st : EState) (line : String) : EState :=
  if st.in_design_section && st.current_design_subsection.isSome &&
      pyStartsWith line "|" && !(pyContains line "---") then
    match st.current_design_subsection with
    | some DSub.selection_screen =>
        if !((pySplitChar line '|').any (fun cell => pyContains cell "Parameter")) then
          let cells := (((pySplitChar line '|').drop 1).dropLast).map pyStrip
          if 6 ≤ cells.length then
            { st with
        selection_screen_table := st.selection_screen_table ++
          [(cells.getD 0 "", cells.getD 1 "", cells.getD 2 "", cells.getD 3 "", cells.getD 4 "", cells.getD 5 "")] }
          else st
        else st
    | some DSub.detail_processing =>
        if !((pySplitChar line '|').any (fun cell => pyContains cell "Field Name")) then
          let cells := (((pySplitChar line '|').drop 1).dropLast).map pyStrip
          if 5 ≤ cells.length then
            { st with
        detail_processing_table := st.detail_processing_table ++
          [(cells.getD 0 "", cells.getD 1 "", cells.getD 2 "", cells.getD 3 "", cells.getD 4 "")] }
          else st
        else st
    | some sub =>
        if !((pySplitChar line '|').any (fun cell => pyContains cell "Data")) then
          let cells := (((pySplitChar line '|').drop 1).dropLast).map pyStrip
          if 2 ≤ cells.length then
            let entry := (cells.getD 0 "", cells.getD 1 "")
            match sub with
            | DSub.valid_datasets =>
                { st with
        valid_datasets_table := st.valid_datasets_table ++ [entry] }
            | DSub.country_info =>
                { st with
        country_info_table := st.country_info_table ++ [entry] }
            | DSub.currency_t500c =>
                { st with
        currency_t500c_table := st.currency_t500c_table ++ [entry] }
            | DSub.currency_t001 =>
                { st with
        currency_t001_table := st.currency_t001_table ++ [entry] }
            | DSub.selection_screen => st
            | DSub.detail_processing => st
          else st
        else st
    | none => st
  else st

/-- Lines 148-164 and 224-229 after the section-flag chain: design
subsection tracking (with continue), then the assumptions continue at
line 226, then the table branch. -/
def afterFlags (st : EState) (line : String) : EState :=
  if st.in_design_section && pyStartsWith line "### " then
    if pyContains (pyLower (pyStrip (pyReplace line "###" ""))) "selection screen" then
      { st with
        current_design_subsection := some DSub.selection_screen }
    else if pyContains (pyLower (pyStrip (pyReplace line "###" ""))) "detail processing" then
      { st with
        current_design_subsection := some DSub.detail_processing }
    else if pyContains line "Detail Process Only valid datasets" then
      { st with
        current_design_subsection := some DSub.valid_datasets }
    else if pyContains line "Form Get_Country_Info" then
      { st with
        current_design_subsection := some DSub.country_info }
    else if pyContains line "Form Get_Currency_T500C" then
      { st with
        current_design_subsection := some DSub.currency_t500c }
    else if pyContains line "Form Get_Currency_T001" then
      { st with
        current_design_subsection := some DSub.currency_t001 }
    else
      { st with
        current_design_subsection := none }
  else if st.in_general_requirements && pyContains line "**Assumptions**:" then
    { st with
        current_section := some "assumptions" }
  else
    tableRowStep st line

/-- The loop body at lines 90-289 on the tracked state, on the already
stripped line: the section-flag chain (lines 90-145, each arm but the
last ends in continue), then the rest of the body. -/
def extractStepCore (st : EState) (line : String) : EState :=
  if pyStartsWith line "## " &&
      (pyContains (pyUpper line) "GENERAL REQUIREMENTS" ||
       pyContains (pyUpper line) "PERSYARATAN UMUM" ||
       pyContains (pyUpper line) "INFORMASI DOKUMEN") then
    { st with
        in_general_requirements := true
        in_existing_sap_objects := false
        in_design_section := false
        in_error_handling := false
        in_testing_requirements := false
        current_section := none }
  else if pyStartsWith line "## " &&
      (pyContains (pyUpper line) "EXISTING SAP OBJECTS" ||
       pyContains (pyUpper line) "OBJEK SAP EXISTING") then
    { st with
        in_existing_sap_objects := true
        in_general_requirements := false
        in_design_section := false
        in_error_handling := false
        in_testing_requirements := false
        current_section := none }
  else if pyStartsWith line "## " &&
      (pyContains (pyUpper line) "DESIGN" || pyContains (pyUpper line) "DESAIN") then
    { st with
        in_design_section := true
        in_general_requirements := false
        in_existing_sap_objects := false
        in_error_handling := false
        in_testing_requirements := false
        current_section := none }
  else if pyStartsWith line "## " &&
      (pyContains (pyUpper line) "ERROR HANDLING" ||
       pyContains (pyUpper line) "PENANGANAN ERROR") then
    { st with
        in_error_handling := true
        in_general_requirements := false
        in_existing_sap_objects := false
        in_design_section := false
        in_testing_requirements := false
        current_section := none }
  else if pyStartsWith line "## " &&
      (pyContains (pyUpper line) "TESTING REQUIREMENTS" ||
       pyContains (pyUpper line) "PERSYARATAN PENGUJIAN") then
    { st with
        in_testing_requirements := true
        in_general_requirements := false
        in_existing_sap_objects := false
        in_design_section := false
        in_error_handling := false
        current_section := none }
  else if pyStartsWith line "## " &&
      (pyContains (pyUpper line) "DESIGN CHANGE" ||
       pyContains (pyUpper line) "PERUBAHAN DESAIN") then
    { st with
        in_design_changes := true
        in_testing_requirements := false
        in_general_requirements := false
        in_existing_sap_objects := false
        in_design_section := false
        in_error_handling := false
        current_section := none }
  else if pyStartsWith line "## " && !(pyStartsWith line "### ") then
    -- lines 139-145: bare reset, the only chain arm without continue
    afterFlags { st with
        in_general_requirements := false
        in_existing_sap_objects := false
        in_design_section := false
        in_error_handling := false
        in_testing_requirements := false
        current_section := none } line
  else
    afterFlags st line

/-- One iteration of the loop at lines 86-289 on the tracked state:
strip the line (line 87), then run the loop body. -/
def extractStep (st : EState) (rawLine : String) : EState :=
  extractStepCore st (pyStrip rawLine)

/-- Lines 77-289 restricted to the tracked state: the loop over the
lines starting from the all-defaults state of lines 77-84. -/
def extract_title_info (lines : List String) : EState :=
  lines.foldl extractStep {}

/-- Helper: the table-row branch on a line any of whose raw pipe cells
contains "Data" leaves all four two-column design tables unchanged,
whatever the state. -/
theorem tableRowStep_tables_of_data (st : EState) (line : String)
    (hdata : (pySplitChar line '|').any
      (fun cell => pyContains cell "Data") = true) :
    (tableRowStep st line).valid_datasets_table = st.valid_datasets_table ∧
    (tableRowStep st line).country_info_table = st.country_info_table ∧
    (tableRowStep st line).currency_t500c_table = st.currency_t500c_table ∧
    (tableRowStep st line).currency_t001_table = st.currency_t001_table := by
  unfold tableRowStep
  rw [hdata]
  dsimp only
  repeat' split
  all_goals try exact ⟨rfl, rfl, rfl, rfl⟩
  all_goals simp_all

/-- Helper: the post-chain part of the loop body on a "Data" row leaves
the four two-column design tables unchanged. -/
theorem afterFlags_tables_of_data (st : EState) (line : String)
    (hdata : (pySplitChar line '|').any
      (fun cell => pyContains cell "Data") = true) :
    (afterFlags st line).valid_datasets_table = st.valid_datasets_table ∧
    (afterFlags st line).country_info_table = st.country_info_table ∧
    (afterFlags st line).currency_t500c_table = st.currency_t500c_table ∧
    (afterFlags st line).currency_t001_table = st.currency_t001_table := by
  unfold afterFlags
  repeat' split
  all_goals try exact ⟨rfl, rfl, rfl, rfl⟩
  all_goals exact tableRowStep_tables_of_data _ _ hdata

/-- Helper: a full loop step on a line any of whose raw pipe cells (after
stripping the line) contains "Data" leaves the four two-column design
tables unchanged, whatever the state. -/
theorem extractStep_tables_of_data (st : EState) (rawLine : String)
    (hdata : (pySplitChar (pyStrip rawLine) '|').any
      (fun cell => pyContains cell "Data") = true) :
    (extractStep st rawLine).valid_datasets_table = st.valid_datasets_table ∧
    (extractStep st rawLine).country_info_table = st.country_info_table ∧
    (extractStep st rawLine).currency_t500c_table = st.currency_t500c_table ∧
    (extractStep st rawLine).currency_t001_table = st.currency_t001_table := by
  unfold extractStep extractStepCore
  repeat' split
  all_goals try exact ⟨rfl, rfl, rfl, rfl⟩
  all_goals exact afterFlags_tables_of_data _ _ hdata

/-- C10: when the title extractor is inside one of the four two-column
(Data | Kondisi) DESAIN subsections (valid datasets, country info,
currency T500C, currency T001) and the current line is a pipe-table row
(starts with a pipe, no table separator dashes), any row in which any
raw pipe-split cell contains the substring "Data" (case-sensitive) is
treated as a header row and excluded from the extracted table: the step
leaves all four extracted design tables unchanged, so such a data row is
silently dropped. -/
theorem C10_design_data_row_dropped_as_header (st : EState) (line : String)
    (sub : DSub)
    (hdesign : st.in_design_section = true)
    (hsub : st.current_design_subsection = some sub)
    (hfour : sub = DSub.valid_datasets ∨ sub = DSub.country_info ∨
      sub = DSub.currency_t500c ∨ sub = DSub.currency_t001)
    (hpipe : pyStartsWith (pyStrip line) "|" = true)
    (hdash : pyContains (pyStrip line) "---" = false)
    (hdata : (pySplitChar (pyStrip line) '|').any
      (fun cell => pyContains cell "Data") = true) :
    (extractStep st line).valid_datasets_table = st.valid_datasets_table ∧
    (extractStep st line).country_info_table = st.country_info_table ∧
    (extractStep st line).currency_t500c_table = st.currency_t500c_table ∧
    (extractStep st line).currency_t001_table = st.currency_t001_table :=
  extractStep_tables_of_data st line hdata

def estC10 : EState :=
  { in_design_section := true, current_design_subsection := some DSub.valid_datasets }

/-- C10 witness: a genuine data row whose first cell contains "Data" is
dropped from the valid-datasets table on a concrete run of the step. -/
theorem C10_design_data_row_dropped_as_header_witness :
    estC10.in_design_section = true ∧
    estC10.current_design_subsection = some DSub.valid_datasets ∧
    pyStartsWith (pyStrip "| Dataset BUKRS | BUKRS = 1000 |") "|" = true ∧
    pyContains (pyStrip "| Dataset BUKRS | BUKRS = 1000 |") "---" = false ∧
    (pySplitChar (pyStrip "| Dataset BUKRS | BUKRS = 1000 |") '|').any
      (fun cell => pyContains cell "Data") = true ∧
    (extractStep estC10 "| Dataset BUKRS | BUKRS = 1000 |").valid_datasets_table =
      estC10.valid_datasets_table ∧
    (extractStep estC10 "| Dataset BUKRS | BUKRS = 1000 |").country_info_table =
      estC10.country_info_table ∧
    (extractStep estC10 "| Dataset BUKRS | BUKRS = 1000 |").currency_t500c_table =
      estC10.currency_t500c_table ∧
    (extractStep estC10 "| Dataset BUKRS | BUKRS = 1000 |").currency_t001_table =
      estC10.currency_t001_table :=
  ⟨rfl, rfl, by decide, by decide, by decide,
   C10_design_data_row_dropped_as_header estC10 "| Dataset BUKRS | BUKRS = 1000 |"
     DSub.valid_datasets rfl rfl (Or.inl rfl) (by decide) (by decide) (by decide)⟩
